import Mathlib

/-!
# Service discovery on a remote device (`src/device.c`)

A shallow embedding of the device / service-discovery core of the daemon:
the per-device discovery session (`struct browse_req`), the chain of
completion callbacks `browse_cb` / `search_cb`, the reconciliation of the
discovered service UUIDs against the known ones (`update_services`,
`device_probe_drivers`, `device_remove_drivers`) and the D-Bus entry points
`discover_services` / `cancel_discover`.

Conventions of the embedding

* C `int` values are `Int`; `NULL`-able pointers are `Option`; a `GSList` of
  strings is a `List String`.
* Calls into collaborators that live outside `device.c` (transport, storage,
  D-Bus, drivers) are recorded, in call order, in an event log.
* The transport keeps the searches it has accepted and not yet completed in
  `World.outstanding`; completing one of them invokes its callback.
* `struct browse_req` objects live in `World.heap`, keyed by their address;
  `browse_req_free` removes the object from the heap.
-/

namespace Device

/-! ## Constants -/

/-- Value of `EBUSY` in `errno.h`. -/
def EBUSY : Int := 16

/-- `DISCONNECT_TIMER` (seconds). -/
def DISCONNECT_TIMER : Nat := 2

/-- `DISCOVERY_TIMER` (milliseconds). -/
def DISCOVERY_TIMER : Nat := 2000

/-- Service-class and protocol identifiers of `bluetooth/sdp.h` (Bluetooth
assigned numbers); the header is not part of `device.c`. -/
def PUBLIC_BROWSE_GROUP : Nat := 0x1002
def PNP_INFO_SVCLASS_ID : Nat := 0x1200
def HID_SVCLASS_ID : Nat := 0x1124
def GENERIC_AUDIO_SVCLASS_ID : Nat := 0x1203
def ADVANCED_AUDIO_SVCLASS_ID : Nat := 0x110d
def AV_REMOTE_SVCLASS_ID : Nat := 0x110e
def PANU_SVCLASS_ID : Nat := 0x1115
def GN_SVCLASS_ID : Nat := 0x1117
def NAP_SVCLASS_ID : Nat := 0x1116
def SERIAL_PORT_SVCLASS_ID : Nat := 0x1101
def L2CAP_UUID : Nat := 0x0100

/-- `HCI_OE_USER_ENDED_CONNECTION` of `bluetooth/hci.h`, the reason code of
the disconnect command. -/
def HCI_OE_USER_ENDED_CONNECTION : Nat := 0x13

/-- `PNP_UUID` of `glib-helper.h` (the header is not part of `device.c`); it
is only ever compared with `strcasecmp`. -/
def PNP_UUID : String := "00001200-0000-1000-8000-00805F9B34FB"

/-- `DEVICE_INTERFACE`, the D-Bus interface name of a device object. -/
def DEVICE_INTERFACE : String := "org.bluez.Device"

/-- The table `uuid_list[]`, terminating `0` included. -/
def uuid_list : List Nat :=
  [ PUBLIC_BROWSE_GROUP,
    PNP_INFO_SVCLASS_ID,
    HID_SVCLASS_ID,
    GENERIC_AUDIO_SVCLASS_ID,
    ADVANCED_AUDIO_SVCLASS_ID,
    AV_REMOTE_SVCLASS_ID,
    PANU_SVCLASS_ID,
    GN_SVCLASS_ID,
    NAP_SVCLASS_ID,
    SERIAL_PORT_SVCLASS_ID,
    0 ]

/-- The read `uuid_list[i]`. The table ends with `0`; an index past the end
(never produced by the sessions below) is read as that terminator. -/
def uuid_list_at (i : Nat) : Nat := uuid_list.getD i 0

/-! ## C strings -/

/-- Sign of `strcmp` on the character lists of two strings (the sign is all
the C standard fixes): 0 on equal strings; otherwise decided by the first
position where they differ, a string that has ended there being the smaller
one (a C string holds no NUL character). -/
def strcmp_chars : List Char → List Char → Int
  | [], [] => 0
  | [], _ :: _ => -1
  | _ :: _, [] => 1
  | c :: cs, d :: ds =>
    if c = d then strcmp_chars cs ds else if c.toNat < d.toNat then -1 else 1

/-- The libc `strcmp`. UUID strings are ASCII; on UTF-8 text the order of
the bytes and the order of the code points agree. -/
def strcmp (a b : String) : Int := strcmp_chars a.data b.data

/-- The libc `strcasecmp`: `strcmp` after ASCII lower-casing. -/
def strcasecmp (a b : String) : Int :=
  strcmp_chars (a.data.map Char.toLower) (b.data.map Char.toLower)

/-- `g_slist_find_custom (list, data, func)` for a comparison `func` applied
as `func (element, data)`: the first element on which `func` gives 0. -/
def g_slist_find_custom (list : List String) (data : String)
    (func : String → String → Int) : Option String :=
  list.find? (fun e => func e data == 0)

/-- `g_slist_insert_sorted (list, data, func)`: `data` goes in front of the
first element `e` with `func (data, e) <= 0`, or at the end. -/
def g_slist_insert_sorted (func : String → String → Int) (data : String) :
    List String → List String
  | [] => [data]
  | e :: l =>
    if func data e ≤ 0 then data :: e :: l
    else e :: g_slist_insert_sorted func data l

/-! ## SDP values -/

/-- The `uuid_t` of `bluetooth/sdp.h`: a tagged 16, 32 or 128 bit value. -/
inductive uuid_t where
  | uuid16 (value : Nat)
  | uuid32 (value : Nat)
  | uuid128 (value : Nat)
  deriving DecidableEq, Repr

/-- What `update_services` reads of an `sdp_record_t`.
* `handle`: the 32 bit record handle;
* `svclass`: outcome of `sdp_get_service_classes`: `none` when it fails
  (negative result), otherwise the first class and the remaining ones (the
  source reads the head of the class list unconditionally);
* the four Device-ID attributes, `none` when `sdp_data_get` finds nothing. -/
structure sdp_record_t where
  handle : Nat
  svclass : Option (uuid_t × List uuid_t)
  vendor_id_source : Option Nat := none
  vendor_id : Option Nat := none
  product_id : Option Nat := none
  version : Option Nat := none
  deriving DecidableEq, Repr

/-- An `sdp_list_t` of records as handed to a completion callback; an entry
may hold a `NULL` record. -/
abbrev sdp_list_t := List (Option sdp_record_t)

/-- The helpers of `glib-helper.c` and of the SDP library that `device.c`
calls and that are not part of it, taken as parameters.
* `bt_string2uuid s`: the `int` result and the value found in `*uuid`
  afterwards;
* `bt_uuid2string u`: the string, `none` for `NULL`;
* `bt_list2string l`: the delimited string written to storage;
* `sdp_copy r`: `sdp_gen_record_pdu` followed by `sdp_extract_pdu`; `none`
  when `sdp_gen_record_pdu` does not return 0, otherwise the decoded copy;
* `find_record_in_list recs uuid`: the record found, `none` for `NULL`. -/
structure Env where
  bt_string2uuid : String → Int × uuid_t
  bt_uuid2string : uuid_t → Option String
  bt_list2string : List String → String
  sdp_copy : sdp_record_t → Option sdp_record_t
  find_record_in_list : List sdp_record_t → String → Option sdp_record_t

/-! ## D-Bus values -/

/-- A `DBusConnection *`; only its identity matters. -/
abbrev DBusConnection := Nat

/-- What `device.c` reads of a `DBusMessage`: the unique name of the sender,
the interface and member of the method call, the object path, and the single
string argument (`none` when `dbus_message_get_args` fails to read one). -/
structure DBusMessage where
  sender : String
  interface : String
  member : String
  path : String
  pattern : Option String
  deriving DecidableEq, Repr

/-- `dbus_message_is_method_call (msg, iface, method)`. -/
def dbus_message_is_method_call (msg : DBusMessage) (iface method : String) : Bool :=
  msg.interface == iface && msg.member == method

/-- A message built by a method handler: an error reply named by the suffix
appended to `ERROR_INTERFACE` with its text, or a plain method return. -/
inductive DBusReply where
  | error (name : String) (text : String)
  | method_return
  deriving DecidableEq, Repr

/-- The reply built by `invalid_args`. -/
def invalid_args : DBusReply :=
  .error ".InvalidArguments" "Invalid arguments in method call"

/-! ## Drivers, devices, sessions -/

/-- A `struct btd_device_driver`: name, declared UUID strings (the
`NULL`-terminated array), and the `int` result of its `probe` on a record
list. -/
structure btd_device_driver where
  name : String
  uuids : List String
  probe : List sdp_record_t → Int

/-- A `struct btd_driver_data`, an attachment of a driver to the device. -/
structure btd_driver_data where
  driver : btd_device_driver

/-- The `struct btd_device` fields used by the discovery code. The known
UUID list `uuids` holds strings; elements of other lists that alias its
nodes (see `init_browse`) are compared by pointer in the source, which on a
list without duplicate strings is string equality. -/
structure btd_device where
  path : String
  uuids : List String
  drivers : List btd_driver_data
  temporary : Bool
  disconn_timer : Nat
  discov_active : Int
  discov_requestor : Option String
  discov_listener : Nat
  discov_timer : Nat
  connected : Bool
  secmode3 : Bool

/-- The `struct browse_req`. -/
structure browse_req where
  conn : Option DBusConnection
  msg : Option DBusMessage
  uuids : List String
  uuids_added : List String
  uuids_removed : List String
  records : List sdp_record_t
  search_uuid : Nat

/-- The two completion callbacks handed to `bt_search_service`. -/
inductive bt_callback_t where
  | search_cb
  | browse_cb
  deriving DecidableEq, Repr

/-- The two timer callbacks of `device.c` handed to `g_timeout_add` and
`g_timeout_add_seconds`. -/
inductive GSourceFunc where
  | start_discovery
  | disconnect_timeout
  deriving DecidableEq, Repr

/-- Calls made to collaborators outside `device.c`, as logged. -/
inductive Event where
  /-- `bt_search_service (src, dst, uuid, cb, user_data, NULL)` -/
  | bt_search_service (uuid : uuid_t) (cb : bt_callback_t) (user_data : Nat)
  /-- `bt_cancel_discovery (src, dst)` -/
  | bt_cancel_discovery
  /-- `store_device_id (src, dst, source, vendor, product, version)` -/
  | store_device_id (source vendor product version : Nat)
  /-- `store_record (src, dst, rec)` -/
  | store_record (handle : Nat)
  /-- `delete_record (src, dst, handle)` -/
  | delete_record (handle : Nat)
  /-- `driver->probe (device, records)` with its result -/
  | probe (driver : String) (records : List sdp_record_t) (result : Int)
  /-- `driver->remove (device)` -/
  | remove (driver : String)
  /-- `write_device_profiles (src, dst, str)` -/
  | write_device_profiles (str : String)
  /-- the property-changed signal for `UUIDs` of `services_changed` -/
  | uuids_changed (uuids : List String)
  /-- the method return of `discover_device_reply`, by record handles -/
  | discover_device_reply (handles : List Nat)
  /-- the `DeviceCreated` signal -/
  | device_created (path : String)
  /-- `adapter_update_devices (adapter)` -/
  | adapter_update_devices
  /-- the method return carrying the device path (device creation) -/
  | reply_device_path (path : String)
  /-- `g_dbus_add_disconnect_watch (conn, name, ...)` -/
  | add_disconnect_watch (name : String)
  /-- `g_dbus_remove_watch (conn, id)` -/
  | remove_watch (id : Nat)
  /-- the property-changed signal for `Paired` -/
  | paired_changed (value : Bool)
  /-- `g_timeout_add (interval, callback, device)`, interval in milliseconds -/
  | g_timeout_add (interval : Nat) (callback : GSourceFunc)
  /-- `g_timeout_add_seconds (interval, callback, device)` -/
  | g_timeout_add_seconds (interval : Nat) (callback : GSourceFunc)
  /-- `g_source_remove (tag)` -/
  | g_source_remove (tag : Nat)
  /-- the `DisconnectRequested` signal -/
  | disconnect_requested
  /-- `hci_open_dev (dev_id)` -/
  | hci_open_dev
  /-- `hci_send_cmd (dd, OGF_LINK_CTL, OCF_DISCONNECT, ...)`, by the handle
  and reason of the command parameters -/
  | hci_send_cmd_disconnect (handle : Nat) (reason : Nat)
  /-- `close (dd)` -/
  | close (dd : Int)
  deriving DecidableEq, Repr

/-- A search the transport has accepted and not completed yet, with the
callback and `user_data` it was given. -/
structure Pending where
  uuid : uuid_t
  cb : bt_callback_t
  user_data : Nat
  deriving DecidableEq, Repr

/-- The state the discovery code runs in: the registered drivers
(`device_drivers`), the device, the live `browse_req` objects by address,
the next address the allocator hands out, the watch identifier the next
`g_dbus_add_disconnect_watch` returns, the searches outstanding in the
transport, and the log of collaborator calls. -/
structure World where
  device_drivers : List btd_device_driver
  device : btd_device
  heap : List (Nat × browse_req)
  next_addr : Nat
  next_watch : Nat
  outstanding : List Pending
  log : List Event

/-! ## Reconciliation -/

/-- The comparison `rec_cmp`: the difference of two 32 bit handles, computed
in 32 bit unsigned arithmetic and returned as `int`. -/
def rec_cmp (r1 r2 : sdp_record_t) : Int :=
  let d : Nat := (r1.handle % 2 ^ 32 + 2 ^ 32 - r2.handle % 2 ^ 32) % 2 ^ 32
  if d < 2 ^ 31 then (d : Int) else (d : Int) - 2 ^ 32

/-- `sdp_list_find (list, rec, rec_cmp)`: the first record of the list on
which `rec_cmp` gives 0. -/
def sdp_list_find (list : List sdp_record_t) (r : sdp_record_t) : Option sdp_record_t :=
  list.find? (fun e => rec_cmp e r == 0)

/-- The Device-ID block of `update_services`: executed when the primary
UUID is `PNP_UUID` (`strcasecmp`), it reads the four attributes, `0` for a
missing one, and calls `store_device_id` when one of them is non-zero. -/
def update_services_pnp (uuid_str : String) (r : sdp_record_t) : List Event :=
  if strcasecmp uuid_str PNP_UUID = 0 then
    let source := r.vendor_id_source.getD 0
    let vendor := r.vendor_id.getD 0
    let product := r.product_id.getD 0
    let version := r.version.getD 0
    if source ≠ 0 ∨ vendor ≠ 0 ∨ product ≠ 0 ∨ version ≠ 0 then
      [Event.store_device_id source vendor product version]
    else []
  else []

/-- One iteration of the loop of `update_services`, on a non-`NULL` record:
the new session and the collaborator calls made.
* no service classes, or no string for the first one: `continue`;
* the Device-ID block;
* "Driver UUID found": the first pending entry equal to the UUID under
  `strcasecmp` is unlinked from `req->uuids`;
* "Check for duplicates": `continue` when the accumulator has the handle;
* `store_record`, then the copy is appended to the accumulator when
  `sdp_gen_record_pdu` returns 0;
* the UUID is appended to `uuids_added` when `device->uuids` has no equal
  string (`strcmp`), otherwise the found element is removed from
  `uuids_removed`. -/
def update_services_rec (env : Env) (device : btd_device) (req : browse_req)
    (r : sdp_record_t) : browse_req × List Event :=
  match r.svclass with
  | none => (req, [])
  | some (cls, _) =>
    match env.bt_uuid2string cls with
    | none => (req, [])
    | some uuid_str =>
      let ev_id := update_services_pnp uuid_str r
      let req1 := { req with uuids := req.uuids.eraseP (fun e => strcasecmp e uuid_str == 0) }
      match sdp_list_find req1.records r with
      | some _ => (req1, ev_id)
      | none =>
        let req2 :=
          match env.sdp_copy r with
          | some record => { req1 with records := req1.records ++ [record] }
          | none => req1
        match g_slist_find_custom device.uuids uuid_str strcmp with
        | none =>
          ({ req2 with uuids_added := req2.uuids_added ++ [uuid_str] },
            ev_id ++ [Event.store_record r.handle])
        | some data =>
          ({ req2 with uuids_removed := req2.uuids_removed.erase data },
            ev_id ++ [Event.store_record r.handle])

/-- The function `update_services`: the loop over the record list, which
stops at a `NULL` record. -/
def update_services (env : Env) (device : btd_device) :
    browse_req → sdp_list_t → browse_req × List Event
  | req, [] => (req, [])
  | req, none :: _ => (req, [])
  | req, some r :: seq =>
    let step := update_services_rec env device req r
    let rest := update_services env device step.1 seq
    (rest.1, step.2 ++ rest.2)

/-- The string of the first service class of a record, as `update_services`
computes it; `none` when the record is skipped. -/
def primary_uuid (env : Env) (r : sdp_record_t) : Option String :=
  match r.svclass with
  | none => none
  | some (cls, _) => env.bt_uuid2string cls

/-- The inner loop of `device_probe_drivers` over the UUIDs a driver
declares: the records collected for its `probe`. -/
def probe_records (env : Env) (uuids : List String) (recs : List sdp_record_t) :
    List String → List sdp_record_t
  | [] => []
  | uuid :: more =>
    match g_slist_find_custom uuids uuid strcasecmp with
    | none => probe_records env uuids recs more
    | some _ =>
      match env.find_record_in_list recs uuid with
      | none => probe_records env uuids recs more
      | some r => r :: probe_records env uuids recs more

/-- The first loop of `device_probe_drivers`, over the registered drivers:
the attachment list and the `probe` calls made. -/
def probe_drivers_loop (env : Env) (uuids : List String) (recs : List sdp_record_t) :
    List btd_device_driver → List btd_driver_data → List btd_driver_data × List Event
  | [], attached => (attached, [])
  | driver :: more, attached =>
    let records := probe_records env uuids recs driver.uuids
    if records = [] then probe_drivers_loop env uuids recs more attached
    else
      let err := driver.probe records
      let rest :=
        if err < 0 then probe_drivers_loop env uuids recs more attached
        else probe_drivers_loop env uuids recs more (attached ++ [⟨driver⟩])
      (rest.1, Event.probe driver.name records err :: rest.2)

/-- The second loop of `device_probe_drivers`: every UUID not yet in the
known list (`strcmp`) is inserted in order. -/
def insert_uuids : List String → List String → List String
  | known, [] => known
  | known, uuid :: more =>
    match g_slist_find_custom known uuid strcmp with
    | some _ => insert_uuids known more
    | none => insert_uuids (g_slist_insert_sorted strcmp uuid known) more

/-- The function `device_probe_drivers (device, uuids, recs)`. -/
def device_probe_drivers (env : Env) (device_drivers : List btd_device_driver)
    (device : btd_device) (uuids : List String) (recs : List sdp_record_t) :
    btd_device × List Event :=
  let probed := probe_drivers_loop env uuids recs device_drivers device.drivers
  ({ device with drivers := probed.1, uuids := insert_uuids device.uuids uuids }, probed.2)

/-- The inner loop of `device_remove_drivers` for one attachment, over the
UUIDs its driver declares: for every declared UUID found in `uuids`
(`strcasecmp`) the driver's `remove` is called and the attachment unlinked,
and the record found for the UUID, if any, is deleted from storage. The loop
does not stop at the first match. -/
def remove_calls (env : Env) (name : String) (uuids : List String)
    (recs : List sdp_record_t) : List String → List Event
  | [] => []
  | uuid :: more =>
    match g_slist_find_custom uuids uuid strcasecmp with
    | none => remove_calls env name uuids recs more
    | some _ =>
      match env.find_record_in_list recs uuid with
      | none => Event.remove name :: remove_calls env name uuids recs more
      | some r =>
        Event.remove name :: Event.delete_record r.handle ::
          remove_calls env name uuids recs more

/-- The first loop of `device_remove_drivers`, over the attachments: an
attachment stays when none of its driver's UUIDs is in `uuids`. Each
attachment is an allocation of its own, so unlinking `driver_data` affects
that attachment only. -/
def remove_drivers_loop (env : Env) (uuids : List String) (recs : List sdp_record_t) :
    List btd_driver_data → List btd_driver_data × List Event
  | [] => ([], [])
  | driver_data :: more =>
    let calls := remove_calls env driver_data.driver.name uuids recs driver_data.driver.uuids
    let rest := remove_drivers_loop env uuids recs more
    (if calls = [] then driver_data :: rest.1 else rest.1, calls ++ rest.2)

/-- The second loop of `device_remove_drivers`: `g_slist_remove` of every
element of `uuids` from the known list. -/
def remove_uuids : List String → List String → List String
  | known, [] => known
  | known, uuid :: more => remove_uuids (known.erase uuid) more

/-- The function `device_remove_drivers (device, uuids, recs)`. -/
def device_remove_drivers (env : Env) (device : btd_device) (uuids : List String)
    (recs : List sdp_record_t) : btd_device × List Event :=
  let removed := remove_drivers_loop env uuids recs device.drivers
  ({ device with drivers := removed.1, uuids := remove_uuids device.uuids uuids }, removed.2)

/-- The function `store`: the profile list is written as `""` when the
known list is empty, else as `bt_list2string` of it. -/
def store (env : Env) (device : btd_device) : List Event :=
  if device.uuids = [] then [Event.write_device_profiles ""]
  else [Event.write_device_profiles (env.bt_list2string device.uuids)]

/-! ## The discovery session -/

/-- Modelled from the spec: the transport search `bt_search_service` of
`glib-helper.c`, which is not part of `device.c` ("asynchronous, at most one
outstanding call per session; completion fires exactly once"). The call is
logged; `rc` is the `int` it returns, chosen by the environment. As
`device_browse` frees the session on a negative result, a negative result
means that the search was not started and that no completion follows;
otherwise the search is outstanding until the transport completes it. -/
def bt_search_service (w : World) (uuid : uuid_t) (cb : bt_callback_t)
    (user_data : Nat) (rc : Int) : World × Int :=
  let logged := { w with log := w.log ++ [Event.bt_search_service uuid cb user_data] }
  if rc < 0 then (logged, rc)
  else ({ logged with outstanding := logged.outstanding ++ [⟨uuid, cb, user_data⟩] }, rc)

/-- Stores through the pointer `a` into the `browse_req` it addresses. -/
def heap_set (w : World) (a : Nat) (req : browse_req) : World :=
  { w with heap := w.heap.map (fun p => if p.1 = a then (a, req) else p) }

/-- The function `browse_req_free`: the device leaves the busy state, the
requestor watch is removed when a requestor is recorded, and the request at
address `a` is released. -/
def browse_req_free (w : World) (a : Nat) (_req : browse_req) : World :=
  let device := { w.device with discov_active := 0 }
  match device.discov_requestor with
  | some _ =>
    { w with
      device := { device with discov_listener := 0, discov_requestor := none }
      heap := w.heap.filter (fun p => p.1 ≠ a)
      log := w.log ++ [Event.remove_watch device.discov_listener] }
  | none =>
    { w with device := device, heap := w.heap.filter (fun p => p.1 ≠ a) }

/-- The part of `search_cb` before the label `proceed`: on an error nothing
is touched; otherwise `update_services` runs and, unless both `uuids_added`
and `uuids_removed` are empty, drivers are probed for the added UUIDs,
removed for the removed ones, and the `UUIDs` property change is signalled.
Gives the device, the session and the collaborator calls. -/
def search_cb_update (env : Env) (device_drivers : List btd_device_driver)
    (device : btd_device) (req : browse_req) (recs : sdp_list_t) (err : Int) :
    btd_device × browse_req × List Event :=
  if err < 0 then (device, req, [])
  else
    let upd := update_services env device req recs
    let req1 := upd.1
    if req1.uuids_added = [] ∧ req1.uuids_removed = [] then (device, req1, upd.2)
    else
      let probed :=
        if req1.uuids_added ≠ [] then
          device_probe_drivers env device_drivers device req1.uuids_added req1.records
        else (device, [])
      let removed :=
        if req1.uuids_removed ≠ [] then
          device_remove_drivers env probed.1 req1.uuids_removed req1.records
        else (probed.1, [])
      (removed.1, req1,
        upd.2 ++ probed.2 ++ removed.2 ++ [Event.uuids_changed removed.1.uuids])

/-- The part of `search_cb` from the label `proceed` to `cleanup`: `store`,
then the reply to a `DiscoverServices` call, or the `DeviceCreated` signal,
`adapter_update_devices` and the reply to the creation request, or, without
a message, `adapter_update_devices` alone. -/
def search_cb_proceed (env : Env) (device : btd_device) (req : browse_req) : List Event :=
  store env device ++
    match req.msg with
    | some msg =>
      if dbus_message_is_method_call msg DEVICE_INTERFACE "DiscoverServices" then
        [Event.discover_device_reply (req.records.map (fun r => r.handle))]
      else
        [Event.device_created device.path, Event.adapter_update_devices,
          Event.reply_device_path device.path]
    | none => [Event.adapter_update_devices]

/-- The callback `search_cb (recs, err, user_data)`, where `user_data` is the
address `a` of the session `req`. It always ends in `browse_req_free`. -/
def search_cb (env : Env) (w : World) (a : Nat) (req : browse_req)
    (recs : sdp_list_t) (err : Int) : World :=
  let upd := search_cb_update env w.device_drivers w.device req recs err
  let w1 := { w with
    device := upd.1
    log := w.log ++ upd.2.2 ++ search_cb_proceed env upd.1 upd.2.1 }
  browse_req_free w1 a upd.2.1

/-- The callback `browse_cb (recs, err, user_data)`; `rc` is the result the
transport gives to the search the callback may start (the source drops it).
* on an error, or on a non-empty answer while `search_uuid` is 1, control
  goes to `done`, which calls `search_cb` with the same arguments;
* otherwise `update_services`, then the first applicable of: the next entry
  of `uuid_list`; the head of the pending driver UUIDs, which is unlinked;
  the L2CAP search, with callback `search_cb`, when no record has been
  accumulated; `done`. -/
def browse_cb (env : Env) (w : World) (a : Nat) (req : browse_req)
    (recs : sdp_list_t) (err : Int) (rc : Int) : World :=
  if err < 0 ∨ (req.search_uuid = 1 ∧ recs ≠ []) then search_cb env w a req recs err
  else
    let upd := update_services env w.device req recs
    let req1 := upd.1
    let w1 := { w with log := w.log ++ upd.2 }
    if uuid_list_at req1.search_uuid ≠ 0 then
      let uuid := uuid_t.uuid16 (uuid_list_at req1.search_uuid)
      let req2 := { req1 with search_uuid := req1.search_uuid + 1 }
      (bt_search_service (heap_set w1 a req2) uuid .browse_cb a rc).1
    else
      match req1.uuids with
      | uuid_str :: rest =>
        let uuid := (env.bt_string2uuid uuid_str).2
        let req2 := { req1 with uuids := rest }
        (bt_search_service (heap_set w1 a req2) uuid .browse_cb a rc).1
      | [] =>
        if req1.records = [] then
          (bt_search_service (heap_set w1 a req1) (.uuid16 L2CAP_UUID) .search_cb a rc).1
        else search_cb env (heap_set w1 a req1) a req1 recs err

/-- Value of a hexadecimal digit, `none` for any other character. -/
def hex_value (c : Char) : Option Nat :=
  if 48 ≤ c.toNat ∧ c.toNat ≤ 57 then some (c.toNat - 48)
  else if 97 ≤ c.toNat ∧ c.toNat ≤ 102 then some (c.toNat - 87)
  else if 65 ≤ c.toNat ∧ c.toNat ≤ 70 then some (c.toNat - 55)
  else none

/-- The libc `strtol (s, NULL, 16)` on a string that starts with a digit:
the value of its longest prefix of hexadecimal digits, added to `acc`. -/
def strtol_hex : List Char → Nat → Nat
  | [], acc => acc
  | c :: cs, acc =>
    match hex_value c with
    | some d => strtol_hex cs (acc * 16 + d)
    | none => acc

/-- In `init_browse`, the test that guards the block "Eliminate duplicates of
UUIDs in uuid_list[]": the string has 36 characters, starts with `0000` and
continues, from its ninth character on, with the Bluetooth base UUID
(`strcasecmp`). -/
def is_base_uuid16 (uuid : String) : Bool :=
  uuid.length = 36 ∧ uuid.data.take 4 = ['0', '0', '0', '0'] ∧
    strcasecmp (String.mk (uuid.data.drop 8)) "-0000-1000-8000-00805F9B34FB" = 0

/-- In `init_browse`, the loop
`for (j = 0; uuid_list[j]; j++) { if (uuid16 == uuid_list[j]) continue; }`
over the table (it stops at the terminating 0): on a match the `continue`
goes on with the next `j`, as does the end of the body without a match, and
nothing is written, so the pending list comes out as it went in. -/
def init_browse_fixed_loop (uuid16 : Nat) (pending : List String) : List Nat → List String
  | [] => pending
  | 0 :: _ => pending
  | (e + 1) :: table =>
    if uuid16 = e + 1 then init_browse_fixed_loop uuid16 pending table
    else init_browse_fixed_loop uuid16 pending table

/-- In `init_browse`, the block commented "Eliminate duplicates of UUIDs in
uuid_list[]...": for a string that passes `is_base_uuid16`, `uuid16` is
`strtol` of it truncated to 16 bits and the loop over `uuid_list` runs. -/
def init_browse_eliminate (uuid : String) (pending : List String) : List String :=
  if is_base_uuid16 uuid then
    init_browse_fixed_loop (strtol_hex uuid.data 0 % 2 ^ 16) pending uuid_list
  else pending

/-- The inner loop of `init_browse` over the UUIDs one driver declares: after
the block above, a UUID is appended to the pending list unless an entry equal
under `strcasecmp` is already there ("... and of UUIDs another driver already
asked for"). -/
def init_browse_uuids : List String → List String → List String
  | pending, [] => pending
  | pending, uuid :: more =>
    match g_slist_find_custom (init_browse_eliminate uuid pending) uuid strcasecmp with
    | some _ => init_browse_uuids (init_browse_eliminate uuid pending) more
    | none => init_browse_uuids (init_browse_eliminate uuid pending ++ [uuid]) more

/-- The outer loop of `init_browse` over the registered drivers. -/
def init_browse_drivers : List String → List btd_device_driver → List String
  | pending, [] => pending
  | pending, driver :: more =>
    init_browse_drivers (init_browse_uuids pending driver.uuids) more

/-- The function `init_browse (req, reverse)`: the pending driver UUIDs, and,
unless `reverse`, every element of the known list appended to
`uuids_removed`. -/
def init_browse (device_drivers : List btd_device_driver) (device : btd_device)
    (req : browse_req) (reverse : Bool) : browse_req :=
  let req1 := { req with uuids := init_browse_drivers req.uuids device_drivers }
  if reverse then req1
  else { req1 with uuids_removed := req1.uuids_removed ++ device.uuids }

/-- The zeroed `struct browse_req` of `g_new0`, with `conn` and `msg` set
when both are given. -/
def browse_req_new (conn : Option DBusConnection) (msg : Option DBusMessage) : browse_req :=
  { conn := if conn.isSome ∧ msg.isSome then conn else none
    msg := if conn.isSome ∧ msg.isSome then msg else none
    uuids := []
    uuids_added := []
    uuids_removed := []
    records := []
    search_uuid := 0 }

/-- In `device_browse`, the UUID of the first search: the caller's `search`,
or `uuid_list[0]` for a full sweep (`search_uuid` is 0 in the fresh
session). -/
def browse_first_uuid (search : Option uuid_t) : uuid_t :=
  match search with
  | some u => u
  | none => .uuid16 (uuid_list_at 0)

/-- In `device_browse`, the callback of the first search: `search_cb` for a
targeted search, `browse_cb` for a full sweep. -/
def browse_first_cb (search : Option uuid_t) : bt_callback_t :=
  match search with
  | some _ => .search_cb
  | none => .browse_cb

/-- In `device_browse`, the session as it is when the first search is
issued: the fresh `browse_req`; for a full sweep `search_uuid` has been
advanced to 1 and `init_browse` has run. -/
def browse_session (w : World) (conn : Option DBusConnection) (msg : Option DBusMessage)
    (search : Option uuid_t) (reverse : Bool) : browse_req :=
  match search with
  | some _ => browse_req_new conn msg
  | none =>
    init_browse w.device_drivers w.device
      { browse_req_new conn msg with search_uuid := (browse_req_new conn msg).search_uuid + 1 }
      reverse

/-- In `device_browse`, the world just before the first search is issued:
the session is allocated at the next free address, the device is busy, and,
when a message is given, the requestor is recorded and watched. -/
def browse_prepare (w : World) (conn : Option DBusConnection) (msg : Option DBusMessage)
    (search : Option uuid_t) (reverse : Bool) : World :=
  let w1 := { w with
    heap := w.heap ++ [(w.next_addr, browse_session w conn msg search reverse)]
    next_addr := w.next_addr + 1
    device := { w.device with discov_active := 1 } }
  match msg with
  | some m =>
    { w1 with
      device := { w1.device with
        discov_requestor := some m.sender
        discov_listener := w1.next_watch }
      next_watch := w1.next_watch + 1
      log := w1.log ++ [Event.add_disconnect_watch m.sender] }
  | none => w1

/-- The function `device_browse (device, conn, msg, search, reverse)` with
its `int` result; `rc` is the result the transport gives to the search.
On a busy device it returns `-EBUSY` at once. Otherwise a session is
allocated; a targeted search uses `search` with callback `search_cb`, a full
sweep uses `uuid_list[0]`, advances `search_uuid`, runs `init_browse` and
uses callback `browse_cb`. The device becomes busy, the requestor is
recorded and watched when a message is given, the search is issued, and on a
negative result the session is freed. -/
def device_browse (w : World) (conn : Option DBusConnection) (msg : Option DBusMessage)
    (search : Option uuid_t) (reverse : Bool) (rc : Int) : World × Int :=
  if w.device.discov_active ≠ 0 then (w, -EBUSY)
  else
    let started :=
      bt_search_service (browse_prepare w conn msg search reverse)
        (browse_first_uuid search) (browse_first_cb search) w.next_addr rc
    if started.2 < 0 then
      (browse_req_free started.1 w.next_addr (browse_session w conn msg search reverse),
        started.2)
    else (started.1, started.2)

/-- The handler `discover_services (conn, msg, user_data)`: the world after
the call and the message returned, `none` for `NULL` (the reply comes later
from the session). -/
def discover_services (env : Env) (w : World) (conn : DBusConnection) (msg : DBusMessage)
    (rc : Int) : World × Option DBusReply :=
  if w.device.discov_active ≠ 0 then
    (w, some (.error ".InProgress" "Discover in progress"))
  else
    match msg.pattern with
    | none => (w, some (.error ".Failed" "Discovery Failed"))
    | some pattern =>
      if pattern.length = 0 then
        let r := device_browse w (some conn) (some msg) none false rc
        if r.2 < 0 then (r.1, some (.error ".Failed" "Discovery Failed"))
        else (r.1, none)
      else
        let parsed := env.bt_string2uuid pattern
        if parsed.1 < 0 then (w, some invalid_args)
        else
          let r := device_browse w (some conn) (some msg) (some parsed.2) false rc
          if r.2 < 0 then (r.1, some (.error ".Failed" "Discovery Failed"))
          else (r.1, none)

/-- The transport cancel `bt_cancel_discovery` of `glib-helper.c`: the call
is logged; `rc` is the `int` it returns, chosen by the environment. -/
def bt_cancel_discovery (w : World) (rc : Int) : World × Int :=
  ({ w with log := w.log ++ [Event.bt_cancel_discovery] }, rc)

/-- The handler `cancel_discover (conn, msg, user_data)`; `rc` is the result
of the transport cancel, should it be called. -/
def cancel_discover (w : World) (msg : DBusMessage) (rc : Int) : World × DBusReply :=
  if w.device.discov_active = 0 then (w, .error ".Failed" "No pending discovery")
  else
    match w.device.discov_requestor with
    | none => (w, .error ".NotAuthorized" "Not Authorized")
    | some requestor =>
      if strcmp requestor msg.sender ≠ 0 then (w, .error ".NotAuthorized" "Not Authorized")
      else
        let r := bt_cancel_discovery w rc
        if r.2 < 0 then (r.1, .error ".Failed" "No pending discover")
        else (r.1, .method_return)

/-- The watch callback `discover_services_req_exit`. -/
def discover_services_req_exit (w : World) (rc : Int) : World :=
  (bt_cancel_discovery w rc).1

/-! ## Pairing and disconnect -/

/-- What `device_set_paired` reads of a `struct bonding_request_info`: the
connection and the message of the pending bonding request. -/
structure bonding_request_info where
  conn : Option DBusConnection
  msg : Option DBusMessage

/-- What `device.c` reads of a `struct active_conn_info`, an entry of the
adapter's table of active connections: the connection handle. -/
structure active_conn_info where
  handle : Nat
  deriving DecidableEq, Repr

/-- The function `device_set_temporary` on a non-`NULL` device. -/
def device_set_temporary (device : btd_device) (temporary : Bool) : btd_device :=
  { device with temporary := temporary }

/-- The timer callback `start_discovery`: a reverse full sweep without caller
is requested with `device_browse`, whose result is dropped, and
`discov_timer` is reset; `rc` is the result the transport gives to the
search. -/
def start_discovery (w : World) (rc : Int) : World :=
  let browsed := (device_browse w none none none true rc).1
  { browsed with device := { browsed.device with discov_timer := 0 } }

/-- The function `device_set_paired (conn, device, bonding)` with its `int`
result. `timer_id` is the identifier `g_timeout_add` returns if it is called
(glib returns a positive one), `rc` the result the transport gives to the
search if one is issued. The device stops being temporary and the `Paired`
property change is signalled. With a bonding request, a pending discovery
timer is removed and `device_browse` is called with the request's connection
and message; its result is returned. Without one, the discovery timer is
armed when no discovery is active and no timer is pending, and 0 is
returned. -/
def device_set_paired (w : World) (_conn : DBusConnection)
    (bonding : Option bonding_request_info) (timer_id : Nat) (rc : Int) : World × Int :=
  let w1 := { w with
    device := device_set_temporary w.device false
    log := w.log ++ [Event.paired_changed true] }
  match bonding with
  | some b =>
    let w2 :=
      if w1.device.discov_timer ≠ 0 then
        { w1 with
          device := { w1.device with discov_timer := 0 }
          log := w1.log ++ [Event.g_source_remove w1.device.discov_timer] }
      else w1
    device_browse w2 b.conn b.msg none false rc
  | none =>
    if w1.device.discov_active = 0 ∧ w1.device.discov_timer = 0 then
      ({ w1 with
          device := { w1.device with discov_timer := timer_id }
          log := w1.log ++ [Event.g_timeout_add DISCOVERY_TIMER .start_discovery] }, 0)
    else (w1, 0)

/-- The handler `disconnect (conn, msg, user_data)`. `dev` is what
`adapter_search_active_conn_by_bdaddr` finds for the device in the adapter's
table of active connections, `timer_id` the identifier
`g_timeout_add_seconds` returns if it is called. -/
def disconnect (w : World) (_msg : DBusMessage) (dev : Option active_conn_info)
    (timer_id : Nat) : World × DBusReply :=
  match dev with
  | none => (w, .error ".NotConnected" "Device is not connected")
  | some _ =>
    ({ w with
        device := { w.device with disconn_timer := timer_id }
        log := w.log ++ [Event.disconnect_requested,
          Event.g_timeout_add_seconds DISCONNECT_TIMER .disconnect_timeout] },
      .method_return)

/-- The timer callback `disconnect_timeout`. `ci` is what
`adapter_search_active_conn_by_bdaddr` finds when the timer fires, `dd` the
result of `hci_open_dev` if it is called. The timer field is reset; without
an active connection nothing else happens; otherwise the HCI device is
opened and, unless that fails (`dd < 0`), the disconnect command is sent for
the handle of the connection and the descriptor is closed. -/
def disconnect_timeout (w : World) (ci : Option active_conn_info) (dd : Int) : World :=
  let w1 := { w with device := { w.device with disconn_timer := 0 } }
  match ci with
  | none => w1
  | some c =>
    if dd < 0 then { w1 with log := w1.log ++ [Event.hci_open_dev] }
    else
      { w1 with log := w1.log ++ [Event.hci_open_dev,
          Event.hci_send_cmd_disconnect c.handle HCI_OE_USER_ENDED_CONNECTION,
          Event.close dd] }

/-! ## Runs -/

/-- The transport completes the outstanding search number `k`: the search
leaves the outstanding set and its callback runs on the session its
`user_data` addresses, with the records `recs` and the code `err`. Nothing
happens when there is no such search. -/
def complete (env : Env) (w : World) (k : Nat) (recs : sdp_list_t) (err : Int)
    (rc : Int) : World :=
  match w.outstanding.get? k with
  | none => w
  | some p =>
    let w1 := { w with outstanding := w.outstanding.eraseIdx k }
    match w1.heap.lookup p.user_data with
    | none => w1
    | some req =>
      match p.cb with
      | .search_cb => search_cb env w1 p.user_data req recs err
      | .browse_cb => browse_cb env w1 p.user_data req recs err rc

/-- What the environment does to a device: a call of `device_browse`, or the
completion of an outstanding search. -/
inductive Step where
  | browse (conn : Option DBusConnection) (msg : Option DBusMessage)
      (search : Option uuid_t) (reverse : Bool) (rc : Int)
  | complete (k : Nat) (recs : sdp_list_t) (err : Int) (rc : Int)

/-- One step of the environment. -/
def step (env : Env) (w : World) : Step → World
  | .browse conn msg search reverse rc => (device_browse w conn msg search reverse rc).1
  | .complete k recs err rc => complete env w k recs err rc

/-- A sequence of steps. -/
def run (env : Env) (w : World) (steps : List Step) : World :=
  steps.foldl (step env) w

/-- What the transport reports when a search completes: the records, the
error code, and the result it gives to the search the callback may start. -/
structure Completion where
  recs : sdp_list_t
  err : Int
  rc : Int

/-- The completion of the one outstanding search of a session, as a step. -/
def Completion.step (c : Completion) : Step :=
  .complete 0 c.recs c.err c.rc

/-- The transport completes, one after the other, the search outstanding at
that moment, with the given outcomes. -/
def deliver (env : Env) (w : World) (cs : List Completion) : World :=
  run env w (cs.map Completion.step)

/-- The UUID and callback of a logged `bt_search_service` call. -/
def search_of : Event → Option (uuid_t × bt_callback_t)
  | Event.bt_search_service uuid cb _ => some (uuid, cb)
  | _ => none

/-- The searches issued so far, in order: UUID and callback of every
`bt_search_service` call in the log. -/
def searches (log : List Event) : List (uuid_t × bt_callback_t) :=
  log.filterMap search_of

/-- The transport accepts the search a step may start from a completion
callback (the result of `bt_search_service`, which `browse_cb` drops, is not
negative). A `device_browse` step may be given any result. -/
def Step.accepted : Step → Prop
  | .browse _ _ _ _ _ => True
  | .complete _ _ _ rc => 0 ≤ rc

/-- The two shapes of a world with at most one session: no live session,
nothing outstanding and the device not busy; or one live session, one
outstanding search, which is that session's, and the device busy. -/
def World.single_session (w : World) : Prop :=
  (w.heap = [] ∧ w.outstanding = [] ∧ w.device.discov_active = 0) ∨
  (∃ a req p, w.heap = [(a, req)] ∧ w.outstanding = [p] ∧ p.user_data = a ∧
    w.device.discov_active ≠ 0)

/-- The final search of a full sweep: the L2CAP UUID with callback
`search_cb`. -/
def l2cap_search : uuid_t × bt_callback_t :=
  (.uuid16 L2CAP_UUID, .search_cb)

/-- A bound on the final searches of a world: how many were issued so far,
plus how many outstanding searches would still complete into `browse_cb`. -/
def l2cap_potential (w : World) : Nat :=
  (searches w.log).count l2cap_search +
    (w.outstanding.filter (fun p => p.cb = bt_callback_t.browse_cb)).length

/-- The ten searches of the fixed list, in order: public browse group, PnP
information, HID, generic audio, advanced audio, A/V remote, PAN-U, GN, NAP,
serial port, each with callback `browse_cb`. -/
def fixed_searches : List (uuid_t × bt_callback_t) :=
  [ (.uuid16 PUBLIC_BROWSE_GROUP, .browse_cb),
    (.uuid16 PNP_INFO_SVCLASS_ID, .browse_cb),
    (.uuid16 HID_SVCLASS_ID, .browse_cb),
    (.uuid16 GENERIC_AUDIO_SVCLASS_ID, .browse_cb),
    (.uuid16 ADVANCED_AUDIO_SVCLASS_ID, .browse_cb),
    (.uuid16 AV_REMOTE_SVCLASS_ID, .browse_cb),
    (.uuid16 PANU_SVCLASS_ID, .browse_cb),
    (.uuid16 GN_SVCLASS_ID, .browse_cb),
    (.uuid16 NAP_SVCLASS_ID, .browse_cb),
    (.uuid16 SERIAL_PORT_SVCLASS_ID, .browse_cb) ]

/-- The search issued for a pending driver UUID string: the value
`bt_string2uuid` leaves for it, with callback `browse_cb`. -/
def driver_search (env : Env) (uuid_str : String) : uuid_t × bt_callback_t :=
  ((env.bt_string2uuid uuid_str).2, .browse_cb)

/-- The shapes of a world with at most one session, whatever the transport
answered: no live session, nothing outstanding and the device not busy; or
one live session and the device busy, with nothing outstanding or with one
outstanding search, which is that session's. -/
def World.at_most_one_session (w : World) : Prop :=
  (w.heap = [] ∧ w.outstanding = [] ∧ w.device.discov_active = 0) ∨
  (∃ a req, w.heap = [(a, req)] ∧ w.device.discov_active ≠ 0 ∧
    (w.outstanding = [] ∨ ∃ p, w.outstanding = [p] ∧ p.user_data = a))

/-- A list of strings is strictly ascending under `strcmp` (sorted, no
duplicates). -/
def strictly_ascending (l : List String) : Prop :=
  l.Pairwise (fun a b => strcmp a b < 0)

/-- The primary service-class UUID strings of the records in the
accumulator of a session. -/
def accumulated_uuids (env : Env) (req : browse_req) : List String :=
  req.records.filterMap (primary_uuid env)

/-- The session after `update_services` has processed a sequence of record
lists, one call per list. -/
def update_services_all (env : Env) (device : btd_device) (req : browse_req)
    (answers : List sdp_list_t) : browse_req :=
  answers.foldl (fun r recs => (update_services env device r recs).1) req

/-- Every record copy (`sdp_gen_record_pdu` then `sdp_extract_pdu`) succeeds
and yields a record with the same primary service-class UUID string. -/
def Env.faithful_copy (env : Env) : Prop :=
  ∀ r, ∃ copy, env.sdp_copy r = some copy ∧ primary_uuid env copy = primary_uuid env r

/-- The added and removed lists of a session agree with its accumulator:
`uuids_added` holds the accumulated UUIDs that are not known,
`uuids_removed` the known UUIDs that are not accumulated, without
repetition. -/
def Reconciled (env : Env) (device : btd_device) (req : browse_req) : Prop :=
  (∀ u, u ∈ req.uuids_added ↔ u ∈ accumulated_uuids env req ∧ u ∉ device.uuids) ∧
  (∀ u, u ∈ req.uuids_removed ↔ u ∈ device.uuids ∧ u ∉ accumulated_uuids env req) ∧
  req.uuids_removed.Nodup

/-- In `device_set_paired` with a bonding request, the world in which
`device_browse` is called: the device is no longer temporary, the `Paired`
change has been signalled, and a pending discovery timer has been removed
and its field reset. -/
def bonding_world (w : World) : World :=
  if w.device.discov_timer ≠ 0 then
    { w with
      device := { device_set_temporary w.device false with discov_timer := 0 }
      log := w.log ++ [Event.paired_changed true, Event.g_source_remove w.device.discov_timer] }
  else
    { w with
      device := device_set_temporary w.device false
      log := w.log ++ [Event.paired_changed true] }

/-- The `UUIDs` property-changed notifications of a log, in order, by the
list they carry. -/
def uuids_notifications (log : List Event) : List (List String) :=
  log.filterMap (fun e =>
    match e with
    | Event.uuids_changed uuids => some uuids
    | _ => none)

/-- The profile lists written to storage by `write_device_profiles`, in
order. -/
def profile_writes (log : List Event) : List String :=
  log.filterMap (fun e =>
    match e with
    | Event.write_device_profiles str => some str
    | _ => none)

/-- No requestor recorded means no watch recorded. It holds on a fresh
device and is kept by `device_browse` and by the completion callbacks. -/
def World.watch_consistent (w : World) : Prop :=
  w.device.discov_requestor = none → w.device.discov_listener = 0

/-- The driver `probe` and `remove` calls of a log, in order. -/
def driver_calls (log : List Event) : List Event :=
  log.filter (fun e =>
    match e with
    | Event.probe _ _ _ => true
    | Event.remove _ => true
    | _ => false)

/-- The session as `search_cb` hands it to `browse_req_free`: the session
`search_cb_update` leaves. -/
def search_cb_freed (env : Env) (device_drivers : List btd_device_driver)
    (device : btd_device) (req : browse_req) (recs : sdp_list_t) (err : Int) : browse_req :=
  (search_cb_update env device_drivers device req recs err).2.1

/-- The session `browse_cb` ends, as `search_cb` hands it to
`browse_req_free`; `none` when `browse_cb` starts another search instead of
calling `search_cb`. -/
def browse_cb_freed (env : Env) (w : World) (req : browse_req) (recs : sdp_list_t)
    (err : Int) : Option browse_req :=
  if err < 0 ∨ (req.search_uuid = 1 ∧ recs ≠ []) then
    some (search_cb_freed env w.device_drivers w.device req recs err)
  else
    let req1 := (update_services env w.device req recs).1
    if uuid_list_at req1.search_uuid ≠ 0 then none
    else
      match req1.uuids with
      | _ :: _ => none
      | [] =>
        if req1.records = [] then none
        else some (search_cb_freed env w.device_drivers w.device req1 recs err)

/-- The session ended by the completion of the outstanding search number
`k`, as it is handed to `browse_req_free`; `none` when the completion ends
no session. -/
def complete_freed (env : Env) (w : World) (k : Nat) (recs : sdp_list_t) (err : Int) :
    Option browse_req :=
  match w.outstanding.get? k with
  | none => none
  | some p =>
    match w.heap.lookup p.user_data with
    | none => none
    | some req =>
      match p.cb with
      | .search_cb => some (search_cb_freed env w.device_drivers w.device req recs err)
      | .browse_cb => browse_cb_freed env w req recs err

/-- The sessions ended while the transport delivers the given completions,
in order, each as it is handed to `browse_req_free`. -/
def freed_sessions (env : Env) : World → List Completion → List browse_req
  | _, [] => []
  | w, c :: cs =>
    (complete_freed env w 0 c.recs c.err).toList ++
      freed_sessions env (complete env w 0 c.recs c.err c.rc) cs

/-- A UUID has been classified by `update_services` in a session with the
given added and removed lists, the known list being `known`: it was added,
or it is known and no longer in the removed list. -/
def classified (known added removed : List String) (u : String) : Prop :=
  u ∈ added ∨ (u ∈ known ∧ u ∉ removed)

/-- The added list holds no known UUID, and the removed list holds known
UUIDs only, each once. -/
structure SideInv (known added removed : List String) : Prop where
  added_new : ∀ u, u ∈ added → u ∉ known
  removed_known : ∀ u, u ∈ removed → u ∈ known
  removed_nodup : removed.Nodup

/-- Two sessions, of two sweeps on devices with the known lists `known1` and
`known2`, that have received the same answers: they agree on the pending
list, the accumulator and the position in the fixed list, and they have
classified the same UUIDs. -/
structure PairInv (known1 known2 : List String) (r1 r2 : browse_req) : Prop where
  uuids_eq : r1.uuids = r2.uuids
  records_eq : r1.records = r2.records
  search_uuid_eq : r1.search_uuid = r2.search_uuid
  side1 : SideInv known1 r1.uuids_added r1.uuids_removed
  side2 : SideInv known2 r2.uuids_added r2.uuids_removed
  same : ∀ u, classified known1 r1.uuids_added r1.uuids_removed u ↔
    classified known2 r2.uuids_added r2.uuids_removed u

/-- Two worlds in which two such sweeps are under way, each with its session
alone in the heap and one search outstanding, with the same callback. -/
def Live (known1 known2 : List String) (w1 w2 : World) : Prop :=
  w1.device.uuids = known1 ∧ w2.device.uuids = known2 ∧
  ∃ a1 a2 r1 r2 u1 u2 cb, w1.heap = [(a1, r1)] ∧ w2.heap = [(a2, r2)] ∧
    w1.outstanding = [⟨u1, cb, a1⟩] ∧ w2.outstanding = [⟨u2, cb, a2⟩] ∧
    PairInv known1 known2 r1 r2

/-- The records a driver is to be probed with, in the words of the
specification: for every UUID the driver declares, in declared order, that
is in `uuids` under case-insensitive comparison and for which the record
list has a record, that record. -/
def matching_records (env : Env) (uuids : List String) (recs : List sdp_record_t)
    (declared : List String) : List sdp_record_t :=
  declared.filterMap (fun uuid =>
    if uuids.any (fun e => strcasecmp e uuid == 0) then env.find_record_in_list recs uuid
    else none)

/-- The `probe` call a registered driver is to receive, in the words of the
specification: none without a matching record, else one call with the
matching records. -/
def expected_probe (env : Env) (uuids : List String) (recs : List sdp_record_t)
    (driver : btd_device_driver) : Option Event :=
  if matching_records env uuids recs driver.uuids = [] then none
  else
    some (Event.probe driver.name (matching_records env uuids recs driver.uuids)
      (driver.probe (matching_records env uuids recs driver.uuids)))

/-- Whether a registered driver is to be attached, in the words of the
specification: it has a matching record and its `probe` on the matching
records is not negative. -/
def expected_attach (env : Env) (uuids : List String) (recs : List sdp_record_t)
    (driver : btd_device_driver) : Bool :=
  decide (matching_records env uuids recs driver.uuids ≠ []) &&
    decide (0 ≤ driver.probe (matching_records env uuids recs driver.uuids))

/-- The record handles given to `delete_record`, in order. -/
def deleted_records (log : List Event) : List Nat :=
  log.filterMap (fun e =>
    match e with
    | Event.delete_record handle => some handle
    | _ => none)

/-- The names of the drivers whose `remove` is called, in order. -/
def remove_calls_of (log : List Event) : List String :=
  log.filterMap (fun e =>
    match e with
    | Event.remove driver => some driver
    | _ => none)

/-- A UUID string is in a list under case-insensitive comparison. -/
def case_mem (list : List String) (uuid : String) : Bool :=
  list.any (fun e => strcasecmp e uuid == 0)

/-- A record lookup that finds what it is asked for: the record it returns
is in the list and its primary service-class UUID equals the UUID asked
for, case-insensitively. -/
def Env.lookup_sound (env : Env) : Prop :=
  ∀ recs uuid r, env.find_record_in_list recs uuid = some r →
    r ∈ recs ∧ ∃ s, primary_uuid env r = some s ∧ strcasecmp s uuid = 0

/-- In the words of the specification, the UUIDs of a list in order of first
occurrence: an element is kept unless an element before it in the list
equals it under case-insensitive comparison. `seen` holds the elements
before. -/
def first_occurrences : List String → List String → List String
  | _, [] => []
  | seen, uuid :: more =>
    if case_mem seen uuid then first_occurrences (seen ++ [uuid]) more
    else uuid :: first_occurrences (seen ++ [uuid]) more

/-- The UUIDs declared by the drivers of a registry: drivers in registration
order, UUIDs in declared order. -/
def declared_uuids (drivers : List btd_device_driver) : List String :=
  drivers.flatMap (fun d => d.uuids)

/-- No two entries of a list are equal under case-insensitive comparison. -/
def case_distinct (list : List String) : Prop :=
  list.Pairwise (fun a b => strcasecmp a b ≠ 0)

/-- The driver `remove` calls and the `delete_record` calls of a log, in
order. -/
def removal_calls (log : List Event) : List Event :=
  log.filter (fun e =>
    match e with
    | Event.remove _ => true
    | Event.delete_record _ => true
    | _ => false)

/-- Every live session has an empty removed list. -/
def World.no_removal (w : World) : Prop :=
  ∀ p, p ∈ w.heap → p.2.uuids_removed = []

/-- The device object of `device_create`: zeroed by `g_try_malloc0`, with
its path set. -/
def device_create (path : String) : btd_device :=
  { path := path
    uuids := []
    drivers := []
    temporary := false
    disconn_timer := 0
    discov_active := 0
    discov_requestor := none
    discov_listener := 0
    discov_timer := 0
    connected := false
    secmode3 := false }

/-- A world holding one device and the given registered drivers, with no
session, no outstanding search and an empty log. -/
def World.start (device_drivers : List btd_device_driver) (device : btd_device) : World :=
  { device_drivers := device_drivers
    device := device
    heap := []
    next_addr := 1
    next_watch := 1
    outstanding := []
    log := [] }

/-- A device is idle in a world: not busy, no live session, nothing
outstanding in the transport. -/
def World.idle (w : World) : Prop :=
  w.device.discov_active = 0 ∧ w.heap = [] ∧ w.outstanding = []

/-- A record lookup in the manner of `find_record_in_list`: the first record
whose primary UUID string equals `uuid` under `strcasecmp`. -/
def sample_find_record (uuid2string : uuid_t → Option String) :
    List sdp_record_t → String → Option sdp_record_t
  | [], _ => none
  | r :: l, uuid =>
    match r.svclass with
    | none => sample_find_record uuid2string l uuid
    | some (cls, _) =>
      match uuid2string cls with
      | none => sample_find_record uuid2string l uuid
      | some s => if strcasecmp s uuid = 0 then some r else sample_find_record uuid2string l uuid

/-- The string a sample 16 bit UUID is printed as. -/
def sample_uuid2string : uuid_t → Option String
  | .uuid16 0x1124 => some "00001124-0000-1000-8000-00805f9b34fb"
  | .uuid16 0x1101 => some "00001101-0000-1000-8000-00805f9b34fb"
  | .uuid16 0x1200 => some "00001200-0000-1000-8000-00805f9b34fb"
  | _ => none

/-- A sample environment: UUID strings parse to a fixed value, sample UUIDs
print as above, the profile list is joined with blanks, records are copied
faithfully. -/
def sample_env : Env :=
  { bt_string2uuid := fun s => if s.length = 36 then (0, .uuid128 0) else (-1, .uuid128 0)
    bt_uuid2string := sample_uuid2string
    bt_list2string := fun l => " ".intercalate l
    sdp_copy := fun r => some r
    find_record_in_list := sample_find_record sample_uuid2string }

/-- A busy device: the sample world whose device has `discov_active = 1`. -/
def busy_world : World :=
  World.start [] { device_create "/org/bluez/hci0/dev_00_11_22_33_44_55" with discov_active := 1 }

/-- A sample caller message of `CancelDiscovery`. -/
def cancel_msg (sender : String) : DBusMessage :=
  { sender := sender
    interface := DEVICE_INTERFACE
    member := "CancelDiscovery"
    path := "/org/bluez/hci0/dev_00_11_22_33_44_55"
    pattern := none }

/-- A world whose device is busy with a discovery requested by `:1.7`. -/
def requested_world : World :=
  World.start []
    { device_create "/org/bluez/hci0/dev_00_11_22_33_44_55" with
      discov_active := 1
      discov_requestor := some ":1.7"
      discov_listener := 1 }

/-- A sample run: a full sweep is started on a fresh device, a second start
is attempted, and the first search completes with an empty answer. -/
def sample_steps : List Step :=
  [ Step.browse none none none false 0,
    Step.browse none none none false 0,
    Step.complete 0 [] 0 0 ]

/-- A sample HID record, handle `0x10001`. -/
def hid_record : sdp_record_t :=
  { handle := 0x10001, svclass := some (.uuid16 0x1124, []) }

/-- A sample driver that declares the HID UUID and whose `probe` succeeds. -/
def hid_driver : btd_device_driver :=
  { name := "input"
    uuids := ["00001124-0000-1000-8000-00805F9B34FB"]
    probe := fun _ => 0 }

/-- A sample run: a full sweep on a fresh device whose first search (public
browse group) is answered, without error, by one record. -/
def public_answer_run : World :=
  run sample_env (World.start [hid_driver] (device_create "/dev"))
    [ Step.browse none none none false 0,
      Step.complete 0 [some hid_record] 0 0 ]

/-- A sample caller message of `DiscoverServices` with a pattern. -/
def discover_msg (pattern : String) : DBusMessage :=
  { sender := ":1.7"
    interface := DEVICE_INTERFACE
    member := "DiscoverServices"
    path := "/org/bluez/hci0/dev_00_11_22_33_44_55"
    pattern := some pattern }

/-- The session of a full sweep without caller once the fixed list is
exhausted, nothing being pending or accumulated. -/
def exhausted_req : browse_req :=
  { conn := none
    msg := none
    uuids := []
    uuids_added := []
    uuids_removed := []
    records := []
    search_uuid := 10 }

/-- A world in which the completion callback of the tenth search of such a
sweep is about to run: the session is live, its search has just left the
outstanding set. -/
def exhausted_world : World :=
  { World.start [] { device_create "/dev" with discov_active := 1 } with
    heap := [(1, exhausted_req)]
    next_addr := 2 }

/-- The world of a `DiscoverServices ("")` request, a full sweep, on a fresh
device with the HID driver registered, the first search accepted. -/
def sweep_world : World :=
  (device_browse (World.start [hid_driver] (device_create "/dev")) (some 1)
    (some (discover_msg "")) none false 0).1

/-- Two error-free completions of that sweep: an empty public-browse answer,
then an answer carrying the HID record. -/
def two_answers : List Completion :=
  [ ⟨[], 0, 0⟩, ⟨[some hid_record], 0, 0⟩ ]

/-- The same sweep when its third search then reports the error `-5`. -/
def error_run : World :=
  deliver sample_env sweep_world (two_answers ++ [⟨[], -5, 0⟩])

/-- A second sample HID record, handle `0x10002`, with the same service
class as `hid_record`. -/
def hid_record2 : sdp_record_t :=
  { handle := 0x10002, svclass := some (.uuid16 0x1124, []) }

/-- A sample serial-port record, handle `0x10003`. -/
def spp_record : sdp_record_t :=
  { handle := 0x10003, svclass := some (.uuid16 0x1101, []) }

/-- A world whose device knows the serial-port UUID and in which the
completion callback of a targeted search (session at address 1) is about to
run. -/
def known_world : World :=
  { World.start [hid_driver]
      { device_create "/dev" with
        uuids := ["00001101-0000-1000-8000-00805f9b34fb"]
        discov_active := 1 } with
    heap := [(1, browse_req_new none none)]
    next_addr := 2 }

/-- An environment in which `sdp_gen_record_pdu` never returns 0. -/
def failing_copy_env : Env :=
  { sample_env with sdp_copy := fun _ => none }

/-- The session of a non-reverse full sweep on a fresh device, after
`update_services` has processed one answer carrying the HID record, in the
environment `failing_copy_env`. -/
def failing_copy_req : browse_req :=
  update_services_all failing_copy_env (device_create "/dev")
    (browse_session (World.start [] (device_create "/dev")) none none none false)
    [[some hid_record]]

/-- A sample run in which the transport refuses (result `-12`) the search
that `browse_cb` starts after an empty public-browse answer, followed by one
more completion. -/
def refused_follow_up_run : World :=
  run sample_env (World.start [] (device_create "/dev"))
    [ Step.browse none none none false 0,
      Step.complete 0 [] 0 (-12),
      Step.complete 0 [] 0 0 ]

/-- A full sweep without caller on a fresh device with the HID driver
registered, all of whose first ten searches are answered by no record. -/
def empty_answers_run : World :=
  deliver sample_env
    (device_browse (World.start [hid_driver] (device_create "/dev")) none none none false 0).1
    (List.replicate 10 ⟨[], 0, 0⟩)

/-- A fresh device with a deferred-discovery timer pending (identifier 7). -/
def timer_world : World :=
  World.start [] { device_create "/dev" with discov_timer := 7 }

/-- A connected device with a disconnect timer pending (identifier 9). -/
def disconnecting_world : World :=
  World.start [] { device_create "/dev" with disconn_timer := 9, connected := true }

/-- A sample bonding request. -/
def sample_bonding : bonding_request_info :=
  { conn := some 1
    msg := some
      { sender := ":1.9"
        interface := "org.bluez.Adapter"
        member := "CreatePairedDevice"
        path := "/org/bluez/hci0"
        pattern := none } }

/-- A world whose device knows the serial-port UUID, idle, with the HID
driver registered. -/
def serial_world : World :=
  World.start [hid_driver]
    { device_create "/dev" with uuids := ["00001101-0000-1000-8000-00805f9b34fb"] }

/-- The answers of a complete sweep: no record for the public browse group,
the HID record for the second search, no record for the eight others. -/
def sweep_answers : List Completion :=
  ⟨[], 0, 0⟩ :: ⟨[some hid_record], 0, 0⟩ :: List.replicate 8 ⟨[], 0, 0⟩

/-- A device that knows the HID and the serial-port UUID, in ascending
order. -/
def two_known_device : btd_device :=
  { device_create "/dev" with
    uuids := ["00001101-0000-1000-8000-00805f9b34fb", "00001124-0000-1000-8000-00805f9b34fb"] }

/-- A sample driver that declares two UUIDs: the headset and the advanced
audio distribution service class. -/
def audio_driver : btd_device_driver :=
  { name := "audio"
    uuids := ["00001108-0000-1000-8000-00805F9B34FB", "0000110D-0000-1000-8000-00805F9B34FB"]
    probe := fun _ => 0 }

/-- A device that knows both UUIDs of `audio_driver` and has it attached. -/
def audio_device : btd_device :=
  { device_create "/dev" with
    uuids := ["00001108-0000-1000-8000-00805f9b34fb", "0000110d-0000-1000-8000-00805f9b34fb"]
    drivers := [⟨audio_driver⟩] }

/-- An idle world whose device knows the serial-port UUID (X) and the HID
UUID (Y) and has the HID driver attached. -/
def scenario_b_world : World :=
  World.start [hid_driver] { two_known_device with drivers := [⟨hid_driver⟩] }

/-- A full sweep on that device whose first search is answered, without
error, by the serial-port record alone. -/
def scenario_b_run : World :=
  deliver sample_env (device_browse scenario_b_world none none none false 0).1
    [⟨[some spp_record], 0, 0⟩]

/-- A sample driver that declares, in lower case, the HID UUID and the
advanced audio distribution UUID. -/
def lower_case_driver : btd_device_driver :=
  { name := "lower"
    uuids := ["00001124-0000-1000-8000-00805f9b34fb", "0000110d-0000-1000-8000-00805f9b34fb"]
    probe := fun _ => 0 }

/-- Completions of a targeted search or of a reverse sweep on
`scenario_b_world`: the serial-port record, without error. -/
def one_answer : List Completion :=
  [⟨[some spp_record], 0, 0⟩]

theorem strcmp_chars_eq_zero (a b : List Char) : strcmp_chars a b = 0 ↔ a = b := by
  induction a generalizing b with
  | nil => cases b <;> simp [strcmp_chars]
  | cons c cs ih =>
    cases b with
    | nil => simp [strcmp_chars]
    | cons d ds =>
      by_cases hcd : c = d
      · simp [strcmp_chars, hcd, ih]
      · by_cases hlt : c.toNat < d.toNat <;> simp [strcmp_chars, hcd, hlt]

theorem strcmp_eq_zero (a b : String) : strcmp a b = 0 ↔ a = b := by
  unfold strcmp
  rw [strcmp_chars_eq_zero]
  constructor
  · intro h
    exact String.ext h
  · intro h
    rw [h]

/-! ## Starting and cancelling a discovery -/

/-- C1. On a device whose `discov_active` is non-zero, `device_browse`
returns `-EBUSY` and `discover_services` returns the `InProgress` error,
whatever the arguments (every connection, message, pattern, search UUID,
`reverse` flag, transport result); in both cases the world is returned as
it was: no search is logged, no session is allocated, and `discov_active`,
`discov_requestor`, `discov_listener` and the known UUID list are
unchanged. -/
theorem busy_device_rejects_discovery (env : Env) (w : World)
    (hbusy : w.device.discov_active ≠ 0) :
    (∀ conn msg search reverse rc,
        device_browse w conn msg search reverse rc = (w, -EBUSY)) ∧
    (∀ conn msg rc,
        discover_services env w conn msg rc
          = (w, some (DBusReply.error ".InProgress" "Discover in progress"))) := by
  constructor
  · intro conn msg search reverse rc
    simp [device_browse, hbusy]
  · intro conn msg rc
    simp [discover_services, hbusy]

theorem busy_device_rejects_discovery_witness :
    (∀ conn msg search reverse rc,
        device_browse busy_world conn msg search reverse rc = (busy_world, -EBUSY)) ∧
    (∀ conn msg rc,
        discover_services sample_env busy_world conn msg rc
          = (busy_world, some (DBusReply.error ".InProgress" "Discover in progress"))) :=
  busy_device_rejects_discovery sample_env busy_world (by decide)

/-- C3. `cancel_discover`:
* with no discovery active it returns the `Failed` error and leaves the
  world, hence the log, as it was (no transport cancel);
* with a discovery active and a sender that is not string-equal to the
  recorded requestor, no recorded requestor included, it returns the
  `NotAuthorized` error and leaves the world as it was;
* the transport cancel is called (once) exactly when a discovery is active
  and the sender equals the recorded requestor. -/
theorem cancel_discover_requestor_only (w : World) (msg : DBusMessage) (rc : Int) :
    (w.device.discov_active = 0 →
        cancel_discover w msg rc = (w, DBusReply.error ".Failed" "No pending discovery")) ∧
    (w.device.discov_active ≠ 0 → w.device.discov_requestor ≠ some msg.sender →
        cancel_discover w msg rc = (w, DBusReply.error ".NotAuthorized" "Not Authorized")) ∧
    (w.device.discov_active ≠ 0 → w.device.discov_requestor = some msg.sender →
        (cancel_discover w msg rc).1.log = w.log ++ [Event.bt_cancel_discovery]) ∧
    ((cancel_discover w msg rc).1.log ≠ w.log →
        w.device.discov_active ≠ 0 ∧ w.device.discov_requestor = some msg.sender) := by
  refine ⟨?_, ?_, ?_, ?_⟩
  · intro h
    simp [cancel_discover, h]
  · intro h hreq
    cases hr : w.device.discov_requestor with
    | none => simp [cancel_discover, h, hr]
    | some r =>
      have hne : r ≠ msg.sender := by
        intro heq
        apply hreq
        rw [hr, heq]
      have hcmp : strcmp r msg.sender ≠ 0 := by
        rw [Ne, strcmp_eq_zero]
        exact hne
      simp [cancel_discover, h, hr, hcmp]
  · intro h hreq
    have hcmp : strcmp msg.sender msg.sender = 0 := (strcmp_eq_zero _ _).2 rfl
    by_cases hrc : rc < 0 <;>
      simp [cancel_discover, h, hreq, hcmp, bt_cancel_discovery, hrc]
  · intro hlog
    by_cases h : w.device.discov_active = 0
    · simp [cancel_discover, h] at hlog
    · refine ⟨h, ?_⟩
      cases hr : w.device.discov_requestor with
      | none => simp [cancel_discover, h, hr] at hlog
      | some r =>
        by_cases hcmp : strcmp r msg.sender = 0
        · rw [(strcmp_eq_zero _ _).1 hcmp]
        · simp [cancel_discover, h, hr, hcmp] at hlog

theorem cancel_discover_requestor_only_witness :
    cancel_discover (World.start [] (device_create "/dev")) (cancel_msg ":1.7") 0
        = (World.start [] (device_create "/dev"),
            DBusReply.error ".Failed" "No pending discovery") ∧
    cancel_discover requested_world (cancel_msg ":1.8") 0
        = (requested_world, DBusReply.error ".NotAuthorized" "Not Authorized") ∧
    cancel_discover busy_world (cancel_msg ":1.7") 0
        = (busy_world, DBusReply.error ".NotAuthorized" "Not Authorized") ∧
    (cancel_discover requested_world (cancel_msg ":1.7") 0).1.log
        = requested_world.log ++ [Event.bt_cancel_discovery] :=
  ⟨(cancel_discover_requestor_only _ (cancel_msg ":1.7") 0).1 (by decide),
   (cancel_discover_requestor_only requested_world (cancel_msg ":1.8") 0).2.1
      (by decide) (by decide),
   (cancel_discover_requestor_only busy_world (cancel_msg ":1.7") 0).2.1
      (by decide) (by decide),
   (cancel_discover_requestor_only requested_world (cancel_msg ":1.7") 0).2.2.1
      (by decide) (by decide)⟩

/-! ## Collaborator calls that are not searches -/

theorem searches_append (l1 l2 : List Event) :
    searches (l1 ++ l2) = searches l1 ++ searches l2 := by
  simp [searches, List.filterMap_append]

theorem searches_update_services_pnp (uuid_str : String) (r : sdp_record_t) :
    searches (update_services_pnp uuid_str r) = [] := by
  unfold update_services_pnp
  by_cases h : strcasecmp uuid_str PNP_UUID = 0
  · by_cases h2 : r.vendor_id_source.getD 0 ≠ 0 ∨ r.vendor_id.getD 0 ≠ 0 ∨
        r.product_id.getD 0 ≠ 0 ∨ r.version.getD 0 ≠ 0
    · simp only [h, h2, if_true]
      simp [searches, search_of]
    · simp only [h, h2, if_true, if_false]
      simp [searches]
  · simp only [h, if_false]
    simp [searches]

theorem searches_update_services_rec (env : Env) (device : btd_device) (req : browse_req)
    (r : sdp_record_t) : searches (update_services_rec env device req r).2 = [] := by
  have hstore : searches [Event.store_record r.handle] = [] := by
    simp [searches, search_of]
  cases h1 : r.svclass with
  | none => simp [update_services_rec, h1, searches]
  | some c =>
    obtain ⟨cls, others⟩ := c
    cases h2 : env.bt_uuid2string cls with
    | none => simp [update_services_rec, h1, h2, searches]
    | some uuid_str =>
      cases h3 : sdp_list_find req.records r with
      | some found =>
        simp [update_services_rec, h1, h2, h3, searches_update_services_pnp]
      | none =>
        cases h5 : g_slist_find_custom device.uuids uuid_str strcmp <;>
          simp [update_services_rec, h1, h2, h3, h5, searches_append,
            searches_update_services_pnp, hstore]

theorem searches_update_services (env : Env) (device : btd_device) (req : browse_req)
    (recs : sdp_list_t) : searches (update_services env device req recs).2 = [] := by
  induction recs generalizing req with
  | nil => simp [update_services, searches]
  | cons o seq ih =>
    cases o with
    | none => simp [update_services, searches]
    | some r =>
      simp [update_services, searches_append, searches_update_services_rec, ih]

theorem searches_probe_drivers_loop (env : Env) (uuids : List String)
    (recs : List sdp_record_t) (drivers : List btd_device_driver)
    (attached : List btd_driver_data) :
    searches (probe_drivers_loop env uuids recs drivers attached).2 = [] := by
  induction drivers generalizing attached with
  | nil => simp [probe_drivers_loop, searches]
  | cons d more ih =>
    unfold probe_drivers_loop
    simp only
    split
    · exact ih attached
    · split
      · have h := ih attached
        simp only [searches, List.filterMap_cons, search_of] at h ⊢
        exact h
      · have h := ih (attached ++ [⟨d⟩])
        simp only [searches, List.filterMap_cons, search_of] at h ⊢
        exact h

theorem searches_remove_calls (env : Env) (name : String) (uuids : List String)
    (recs : List sdp_record_t) (declared : List String) :
    searches (remove_calls env name uuids recs declared) = [] := by
  induction declared with
  | nil => simp [remove_calls, searches]
  | cons u more ih =>
    unfold remove_calls
    split
    · exact ih
    · split <;>
        (simp only [searches, List.filterMap_cons, search_of] at ih ⊢; exact ih)

theorem searches_remove_drivers_loop (env : Env) (uuids : List String)
    (recs : List sdp_record_t) (attached : List btd_driver_data) :
    searches (remove_drivers_loop env uuids recs attached).2 = [] := by
  induction attached with
  | nil => simp [remove_drivers_loop, searches]
  | cons d more ih =>
    simp [remove_drivers_loop, searches_append, searches_remove_calls, ih]

theorem searches_search_cb_update (env : Env) (drivers : List btd_device_driver)
    (device : btd_device) (req : browse_req) (recs : sdp_list_t) (err : Int) :
    searches (search_cb_update env drivers device req recs err).2.2 = [] := by
  unfold search_cb_update
  split
  · simp [searches]
  · simp only
    split
    · exact searches_update_services _ _ _ _
    · simp only [searches_append, searches_update_services, List.nil_append]
      have h1 : searches [Event.uuids_changed
          (if (update_services env device req recs).1.uuids_removed ≠ [] then
            device_remove_drivers env
              (if (update_services env device req recs).1.uuids_added ≠ [] then
                device_probe_drivers env drivers device
                  (update_services env device req recs).1.uuids_added
                  (update_services env device req recs).1.records
              else (device, [])).1
              (update_services env device req recs).1.uuids_removed
              (update_services env device req recs).1.records
          else ((if (update_services env device req recs).1.uuids_added ≠ [] then
                device_probe_drivers env drivers device
                  (update_services env device req recs).1.uuids_added
                  (update_services env device req recs).1.records
              else (device, [])).1, [])).1.uuids] = [] := by
        simp [searches, search_of]
      rw [h1]
      have h2 : searches (if (update_services env device req recs).1.uuids_added ≠ [] then
                device_probe_drivers env drivers device
                  (update_services env device req recs).1.uuids_added
                  (update_services env device req recs).1.records
              else (device, [])).2 = [] := by
        split
        · exact searches_probe_drivers_loop _ _ _ _ _
        · simp [searches]
      rw [h2]
      simp only [List.nil_append, List.append_nil]
      split
      · exact searches_remove_drivers_loop _ _ _ _
      · simp [searches]

/-! ## What the end of a session leaves behind -/

theorem browse_req_free_heap (w : World) (a : Nat) (req : browse_req) :
    (browse_req_free w a req).heap = w.heap.filter (fun p => p.1 ≠ a) := by
  unfold browse_req_free
  cases h : w.device.discov_requestor <;> simp [h]

theorem browse_req_free_outstanding (w : World) (a : Nat) (req : browse_req) :
    (browse_req_free w a req).outstanding = w.outstanding := by
  unfold browse_req_free
  cases h : w.device.discov_requestor <;> simp [h]

theorem browse_req_free_active (w : World) (a : Nat) (req : browse_req) :
    (browse_req_free w a req).device.discov_active = 0 := by
  unfold browse_req_free
  cases h : w.device.discov_requestor <;> simp [h]

theorem browse_req_free_requestor (w : World) (a : Nat) (req : browse_req) :
    (browse_req_free w a req).device.discov_requestor = none := by
  unfold browse_req_free
  cases h : w.device.discov_requestor <;> simp [h]

theorem browse_req_free_uuids (w : World) (a : Nat) (req : browse_req) :
    (browse_req_free w a req).device.uuids = w.device.uuids := by
  unfold browse_req_free
  cases h : w.device.discov_requestor <;> simp [h]

theorem browse_req_free_drivers (w : World) (a : Nat) (req : browse_req) :
    (browse_req_free w a req).device.drivers = w.device.drivers := by
  unfold browse_req_free
  cases h : w.device.discov_requestor <;> simp [h]

theorem browse_req_free_searches (w : World) (a : Nat) (req : browse_req) :
    searches (browse_req_free w a req).log = searches w.log := by
  unfold browse_req_free
  cases h : w.device.discov_requestor <;> simp [h, searches_append, searches, search_of]

theorem searches_store (env : Env) (device : btd_device) :
    searches (store env device) = [] := by
  unfold store
  split <;> simp [searches, search_of]

theorem searches_search_cb_proceed (env : Env) (device : btd_device) (req : browse_req) :
    searches (search_cb_proceed env device req) = [] := by
  unfold search_cb_proceed
  rw [searches_append, searches_store]
  cases h : req.msg with
  | none => simp [searches, search_of]
  | some m =>
    by_cases hm : dbus_message_is_method_call m DEVICE_INTERFACE "DiscoverServices" = true <;>
      simp [hm, searches, search_of]

theorem search_cb_heap (env : Env) (w : World) (a : Nat) (req : browse_req)
    (recs : sdp_list_t) (err : Int) :
    (search_cb env w a req recs err).heap = w.heap.filter (fun p => p.1 ≠ a) := by
  simp [search_cb, browse_req_free_heap]

theorem search_cb_outstanding (env : Env) (w : World) (a : Nat) (req : browse_req)
    (recs : sdp_list_t) (err : Int) :
    (search_cb env w a req recs err).outstanding = w.outstanding := by
  simp [search_cb, browse_req_free_outstanding]

theorem search_cb_active (env : Env) (w : World) (a : Nat) (req : browse_req)
    (recs : sdp_list_t) (err : Int) :
    (search_cb env w a req recs err).device.discov_active = 0 := by
  simp [search_cb, browse_req_free_active]

theorem search_cb_searches (env : Env) (w : World) (a : Nat) (req : browse_req)
    (recs : sdp_list_t) (err : Int) :
    searches (search_cb env w a req recs err).log = searches w.log := by
  simp [search_cb, browse_req_free_searches, searches_append, searches_search_cb_update,
    searches_search_cb_proceed]

/-! ## The single-session invariant -/

theorem bt_search_service_heap (w : World) (uuid : uuid_t) (cb : bt_callback_t)
    (a : Nat) (rc : Int) : (bt_search_service w uuid cb a rc).1.heap = w.heap := by
  unfold bt_search_service
  split <;> rfl

theorem bt_search_service_drivers (w : World) (uuid : uuid_t) (cb : bt_callback_t)
    (a : Nat) (rc : Int) :
    (bt_search_service w uuid cb a rc).1.device_drivers = w.device_drivers := by
  unfold bt_search_service
  split <;> rfl

theorem bt_search_service_device (w : World) (uuid : uuid_t) (cb : bt_callback_t)
    (a : Nat) (rc : Int) : (bt_search_service w uuid cb a rc).1.device = w.device := by
  unfold bt_search_service
  split <;> rfl

theorem bt_search_service_outstanding (w : World) (uuid : uuid_t) (cb : bt_callback_t)
    (a : Nat) (rc : Int) (hrc : 0 ≤ rc) :
    (bt_search_service w uuid cb a rc).1.outstanding = w.outstanding ++ [⟨uuid, cb, a⟩] := by
  unfold bt_search_service
  have h : ¬ rc < 0 := not_lt.mpr hrc
  simp [h]

theorem bt_search_service_refused (w : World) (uuid : uuid_t) (cb : bt_callback_t)
    (a : Nat) (rc : Int) (hrc : rc < 0) :
    (bt_search_service w uuid cb a rc).1.outstanding = w.outstanding := by
  unfold bt_search_service
  simp [hrc]

theorem bt_search_service_result (w : World) (uuid : uuid_t) (cb : bt_callback_t)
    (a : Nat) (rc : Int) : (bt_search_service w uuid cb a rc).2 = rc := by
  unfold bt_search_service
  split <;> rfl

theorem bt_search_service_searches (w : World) (uuid : uuid_t) (cb : bt_callback_t)
    (a : Nat) (rc : Int) :
    searches (bt_search_service w uuid cb a rc).1.log = searches w.log ++ [(uuid, cb)] := by
  unfold bt_search_service
  split <;> simp [searches_append, searches, search_of]

theorem search_cb_single_session (env : Env) (w : World) (a : Nat) (held req : browse_req)
    (recs : sdp_list_t) (err : Int) (hheap : w.heap = [(a, held)])
    (hout : w.outstanding = []) : (search_cb env w a req recs err).single_session := by
  left
  refine ⟨?_, ?_, search_cb_active _ _ _ _ _ _⟩
  · rw [search_cb_heap, hheap]
    simp
  · rw [search_cb_outstanding, hout]

theorem issue_single_session (w : World) (a : Nat) (held req : browse_req) (uuid : uuid_t)
    (cb : bt_callback_t) (rc : Int) (ev : List Event) (hheap : w.heap = [(a, held)])
    (hout : w.outstanding = []) (hact : w.device.discov_active ≠ 0) (hrc : 0 ≤ rc) :
    (bt_search_service (heap_set { w with log := w.log ++ ev } a req) uuid cb a rc).1.single_session := by
  right
  refine ⟨a, req, ⟨uuid, cb, a⟩, ?_, ?_, rfl, ?_⟩
  · rw [bt_search_service_heap]
    simp [heap_set, hheap]
  · rw [bt_search_service_outstanding _ _ _ _ _ hrc]
    simp [heap_set, hout]
  · rw [bt_search_service_device]
    exact hact

theorem browse_cb_single_session (env : Env) (w : World) (a : Nat) (held req : browse_req)
    (recs : sdp_list_t) (err rc : Int) (hheap : w.heap = [(a, held)])
    (hout : w.outstanding = []) (hact : w.device.discov_active ≠ 0) (hrc : 0 ≤ rc) :
    (browse_cb env w a req recs err rc).single_session := by
  unfold browse_cb
  split
  · exact search_cb_single_session env w a held req recs err hheap hout
  · simp only
    split
    · exact issue_single_session w a held _ _ _ rc _ hheap hout hact hrc
    · split
      · exact issue_single_session w a held _ _ _ rc _ hheap hout hact hrc
      · split
        · exact issue_single_session w a held _ _ _ rc _ hheap hout hact hrc
        · apply search_cb_single_session env _ a
            (update_services env w.device req recs).1
          · simp [heap_set, hheap]
          · simp [heap_set, hout]

theorem browse_prepare_heap (w : World) (conn : Option DBusConnection)
    (msg : Option DBusMessage) (search : Option uuid_t) (reverse : Bool) :
    (browse_prepare w conn msg search reverse).heap
      = w.heap ++ [(w.next_addr, browse_session w conn msg search reverse)] := by
  unfold browse_prepare
  cases msg <;> rfl

theorem browse_prepare_outstanding (w : World) (conn : Option DBusConnection)
    (msg : Option DBusMessage) (search : Option uuid_t) (reverse : Bool) :
    (browse_prepare w conn msg search reverse).outstanding = w.outstanding := by
  unfold browse_prepare
  cases msg <;> rfl

theorem browse_prepare_active (w : World) (conn : Option DBusConnection)
    (msg : Option DBusMessage) (search : Option uuid_t) (reverse : Bool) :
    (browse_prepare w conn msg search reverse).device.discov_active = 1 := by
  unfold browse_prepare
  cases msg <;> rfl

theorem browse_prepare_searches (w : World) (conn : Option DBusConnection)
    (msg : Option DBusMessage) (search : Option uuid_t) (reverse : Bool) :
    searches (browse_prepare w conn msg search reverse).log = searches w.log := by
  unfold browse_prepare
  cases msg <;> simp [searches_append, searches, search_of]

theorem device_browse_idle (w : World) (conn : Option DBusConnection)
    (msg : Option DBusMessage) (search : Option uuid_t) (reverse : Bool) (rc : Int)
    (hidle : w.device.discov_active = 0) (hrc : 0 ≤ rc) :
    device_browse w conn msg search reverse rc
      = (bt_search_service (browse_prepare w conn msg search reverse)
          (browse_first_uuid search) (browse_first_cb search) w.next_addr rc) := by
  unfold device_browse
  have h1 : ¬ w.device.discov_active ≠ 0 := not_not.mpr hidle
  have h2 : ¬ rc < 0 := not_lt.mpr hrc
  simp only [bt_search_service_result, h1, h2, if_false]
  exact Prod.ext rfl (bt_search_service_result _ _ _ _ _).symm

theorem device_browse_refused (w : World) (conn : Option DBusConnection)
    (msg : Option DBusMessage) (search : Option uuid_t) (reverse : Bool) (rc : Int)
    (hidle : w.device.discov_active = 0) (hrc : rc < 0) :
    device_browse w conn msg search reverse rc
      = (browse_req_free
          (bt_search_service (browse_prepare w conn msg search reverse)
            (browse_first_uuid search) (browse_first_cb search) w.next_addr rc).1
          w.next_addr (browse_session w conn msg search reverse), rc) := by
  unfold device_browse
  have h1 : ¬ w.device.discov_active ≠ 0 := not_not.mpr hidle
  simp only [bt_search_service_result, h1, hrc, if_false, if_true]

theorem device_browse_single_session (w : World) (conn : Option DBusConnection)
    (msg : Option DBusMessage) (search : Option uuid_t) (reverse : Bool) (rc : Int)
    (h : w.single_session) :
    (device_browse w conn msg search reverse rc).1.single_session := by
  by_cases hbusy : w.device.discov_active ≠ 0
  · unfold device_browse
    rw [if_pos hbusy]
    exact h
  · have hact : w.device.discov_active = 0 := not_not.mp hbusy
    have hidle : w.heap = [] ∧ w.outstanding = [] := by
      rcases h with h | ⟨a, req, p, _, _, _, hact'⟩
      · exact ⟨h.1, h.2.1⟩
      · exact absurd hact hact'
    obtain ⟨hheap, hout⟩ := hidle
    by_cases hrc : rc < 0
    · left
      rw [device_browse_refused w conn msg search reverse rc hact hrc]
      refine ⟨?_, ?_, ?_⟩
      · rw [browse_req_free_heap, bt_search_service_heap, browse_prepare_heap, hheap]
        simp
      · rw [browse_req_free_outstanding, bt_search_service_refused _ _ _ _ _ hrc,
          browse_prepare_outstanding, hout]
      · exact browse_req_free_active
          (bt_search_service (browse_prepare w conn msg search reverse)
            (browse_first_uuid search) (browse_first_cb search) w.next_addr rc).1
          w.next_addr (browse_session w conn msg search reverse)
    · right
      rw [device_browse_idle w conn msg search reverse rc hact (not_lt.mp hrc)]
      refine ⟨w.next_addr, browse_session w conn msg search reverse,
        ⟨browse_first_uuid search, browse_first_cb search, w.next_addr⟩, ?_, ?_, rfl, ?_⟩
      · rw [bt_search_service_heap, browse_prepare_heap, hheap]
        rfl
      · rw [bt_search_service_outstanding _ _ _ _ _ (not_lt.mp hrc),
          browse_prepare_outstanding, hout]
        rfl
      · rw [bt_search_service_device, browse_prepare_active]
        decide

theorem complete_head (env : Env) (w : World) (p : Pending) (req : browse_req)
    (recs : sdp_list_t) (err rc : Int) (hout : w.outstanding = [p])
    (hheap : w.heap = [(p.user_data, req)]) :
    complete env w 0 recs err rc =
      match p.cb with
      | .search_cb => search_cb env { w with outstanding := [] } p.user_data req recs err
      | .browse_cb => browse_cb env { w with outstanding := [] } p.user_data req recs err rc := by
  have hlook : List.lookup p.user_data w.heap = some req := by
    simp [hheap, List.lookup]
  unfold complete
  rw [hout]
  simp only [List.get?_cons_zero, List.eraseIdx_cons_zero, hlook]

theorem complete_idle (env : Env) (w : World) (k : Nat) (recs : sdp_list_t) (err rc : Int)
    (hout : w.outstanding = []) : complete env w k recs err rc = w := by
  have hnone : w.outstanding.get? k = none := by simp [hout]
  simp only [complete, hnone]

theorem complete_single_session (env : Env) (w : World) (k : Nat) (recs : sdp_list_t)
    (err rc : Int) (hrc : 0 ≤ rc) (h : w.single_session) :
    (complete env w k recs err rc).single_session := by
  rcases h with ⟨hheap, hout, hact⟩ | ⟨a, req, p, hheap, hout, hp, hact⟩
  · have hnone : w.outstanding.get? k = none := by simp [hout]
    simp only [complete, hnone]
    exact Or.inl ⟨hheap, hout, hact⟩
  · cases k with
    | succ n =>
      have hnone : w.outstanding.get? (n + 1) = none := by simp [hout]
      simp only [complete, hnone]
      exact Or.inr ⟨a, req, p, hheap, hout, hp, hact⟩
    | zero =>
      have hsome : w.outstanding.get? 0 = some p := by simp [hout]
      have hlook : List.lookup p.user_data w.heap = some req := by
        simp [hheap, hp, List.lookup]
      simp only [complete, hsome, hlook]
      cases hcb : p.cb with
      | search_cb =>
        simp only
        apply search_cb_single_session env _ p.user_data req
        · simp [hheap, hp]
        · simp [hout]
      | browse_cb =>
        simp only
        apply browse_cb_single_session env _ p.user_data req
        · simp [hheap, hp]
        · simp [hout]
        · exact hact
        · exact hrc

theorem run_single_session (env : Env) (steps : List Step) (w : World)
    (h : w.single_session) (hacc : ∀ s ∈ steps, s.accepted) :
    (run env w steps).single_session := by
  induction steps generalizing w with
  | nil => exact h
  | cons s more ih =>
    have hs : s.accepted := hacc s (List.mem_cons_self _ _)
    have hmore : ∀ t ∈ more, t.accepted := fun t ht => hacc t (List.mem_cons_of_mem _ ht)
    have hstep : (step env w s).single_session := by
      cases s with
      | browse conn msg search reverse rc =>
        exact device_browse_single_session w conn msg search reverse rc h
      | complete k recs err rc =>
        exact complete_single_session env w k recs err rc hs h
    exact ih (step env w s) hstep hmore

theorem single_session_at_most_one (w : World) (h : w.single_session) :
    w.at_most_one_session := by
  rcases h with h | ⟨a, req, p, hheap, hout, hp, hact⟩
  · exact Or.inl h
  · exact Or.inr ⟨a, req, hheap, hact, Or.inr ⟨p, hout, hp⟩⟩

theorem issue_at_most_one (w : World) (a : Nat) (held req : browse_req) (uuid : uuid_t)
    (cb : bt_callback_t) (rc : Int) (ev : List Event) (hheap : w.heap = [(a, held)])
    (hout : w.outstanding = []) (hact : w.device.discov_active ≠ 0) :
    (bt_search_service (heap_set { w with log := w.log ++ ev } a req)
      uuid cb a rc).1.at_most_one_session := by
  by_cases hrc : rc < 0
  · right
    refine ⟨a, req, ?_, ?_, Or.inl ?_⟩
    · rw [bt_search_service_heap]
      simp [heap_set, hheap]
    · rw [bt_search_service_device]
      exact hact
    · rw [bt_search_service_refused _ _ _ _ _ hrc]
      simp [heap_set, hout]
  · exact single_session_at_most_one _
      (issue_single_session w a held req uuid cb rc ev hheap hout hact (not_lt.mp hrc))

theorem browse_cb_at_most_one (env : Env) (w : World) (a : Nat) (held req : browse_req)
    (recs : sdp_list_t) (err rc : Int) (hheap : w.heap = [(a, held)])
    (hout : w.outstanding = []) (hact : w.device.discov_active ≠ 0) :
    (browse_cb env w a req recs err rc).at_most_one_session := by
  unfold browse_cb
  split
  · exact single_session_at_most_one _
      (search_cb_single_session env w a held req recs err hheap hout)
  · simp only
    split
    · exact issue_at_most_one w a held _ _ _ rc _ hheap hout hact
    · split
      · exact issue_at_most_one w a held _ _ _ rc _ hheap hout hact
      · split
        · exact issue_at_most_one w a held _ _ _ rc _ hheap hout hact
        · apply single_session_at_most_one
          apply search_cb_single_session env _ a
            (update_services env w.device req recs).1
          · simp [heap_set, hheap]
          · simp [heap_set, hout]

theorem device_browse_at_most_one (w : World) (conn : Option DBusConnection)
    (msg : Option DBusMessage) (search : Option uuid_t) (reverse : Bool) (rc : Int)
    (h : w.at_most_one_session) :
    (device_browse w conn msg search reverse rc).1.at_most_one_session := by
  rcases h with hidle | ⟨a, req, hheap, hact, hout⟩
  · exact single_session_at_most_one _
      (device_browse_single_session w conn msg search reverse rc (Or.inl hidle))
  · unfold device_browse
    rw [if_pos hact]
    exact Or.inr ⟨a, req, hheap, hact, hout⟩

theorem complete_at_most_one (env : Env) (w : World) (k : Nat) (recs : sdp_list_t)
    (err rc : Int) (h : w.at_most_one_session) :
    (complete env w k recs err rc).at_most_one_session := by
  rcases h with ⟨hheap, hout, hact⟩ | ⟨a, req, hheap, hact, hout | ⟨p, hout, hp⟩⟩
  · rw [complete_idle env w k recs err rc hout]
    exact Or.inl ⟨hheap, hout, hact⟩
  · rw [complete_idle env w k recs err rc hout]
    exact Or.inr ⟨a, req, hheap, hact, Or.inl hout⟩
  · cases k with
    | succ n =>
      have hnone : w.outstanding.get? (n + 1) = none := by simp [hout]
      simp only [complete, hnone]
      exact Or.inr ⟨a, req, hheap, hact, Or.inr ⟨p, hout, hp⟩⟩
    | zero =>
      rw [← hp] at hheap
      rw [complete_head env w p req recs err rc hout hheap]
      cases hcb : p.cb with
      | search_cb =>
        simp only
        apply single_session_at_most_one
        exact search_cb_single_session env _ p.user_data req req recs err hheap rfl
      | browse_cb =>
        simp only
        exact browse_cb_at_most_one env _ p.user_data req req recs err rc hheap rfl hact

theorem run_at_most_one (env : Env) (steps : List Step) (w : World)
    (h : w.at_most_one_session) : (run env w steps).at_most_one_session := by
  induction steps generalizing w with
  | nil => exact h
  | cons s more ih =>
    apply ih (step env w s)
    cases s with
    | browse conn msg search reverse rc =>
      exact device_browse_at_most_one w conn msg search reverse rc h
    | complete k recs err rc =>
      exact complete_at_most_one env w k recs err rc h

/-- What holds of the single-session invariant. In every world reached from
an idle device by any sequence of `device_browse` calls (any arguments, any
transport result) and completions of outstanding searches (any records, any
error code):
* there is at most one live `browse_req`;
* `discov_active` is non-zero if and only if a live `browse_req` exists;
* at most one search is outstanding, and it belongs to the live session;
* when the transport has accepted every search started from a completion
  callback (`browse_cb` drops the result of `bt_search_service`), every live
  `browse_req` has exactly one outstanding search and there is no other
  outstanding search. -/
theorem single_session_invariant (env : Env) (w : World) (steps : List Step)
    (hidle : w.idle) :
    (run env w steps).heap.length ≤ 1 ∧
    ((run env w steps).device.discov_active ≠ 0 ↔ (run env w steps).heap ≠ []) ∧
    (run env w steps).outstanding.length ≤ 1 ∧
    (∀ o ∈ (run env w steps).outstanding, ∃ req, (o.user_data, req) ∈ (run env w steps).heap) ∧
    ((∀ s ∈ steps, s.accepted) →
      (∀ p ∈ (run env w steps).heap,
        ((run env w steps).outstanding.filter (fun o => o.user_data = p.1)).length = 1) ∧
      (run env w steps).outstanding.length = (run env w steps).heap.length) := by
  have hstart : w.single_session := Or.inl ⟨hidle.2.1, hidle.2.2, hidle.1⟩
  have hany := run_at_most_one env steps w (single_session_at_most_one w hstart)
  have hstrict : (∀ s ∈ steps, s.accepted) →
      (∀ p ∈ (run env w steps).heap,
        ((run env w steps).outstanding.filter (fun o => o.user_data = p.1)).length = 1) ∧
      (run env w steps).outstanding.length = (run env w steps).heap.length := by
    intro hacc
    rcases run_single_session env steps w hstart hacc with
      ⟨hheap, hout, _⟩ | ⟨a, req, p, hheap, hout, hp, _⟩
    · rw [hheap, hout]
      simp
    · rw [hheap, hout]
      refine ⟨?_, by simp⟩
      intro q hq
      simp only [List.mem_singleton] at hq
      rw [hq]
      simp [hp]
  rcases hany with ⟨hheap, hout, hact⟩ | ⟨a, req, hheap, hact, hout | ⟨p, hout, hp⟩⟩
  · refine ⟨?_, ?_, ?_, ?_, hstrict⟩
    · rw [hheap]
      simp
    · rw [hheap, hact]
      simp
    · rw [hout]
      simp
    · rw [hout]
      simp
  · refine ⟨?_, ?_, ?_, ?_, hstrict⟩
    · rw [hheap]
      simp
    · rw [hheap]
      simp [hact]
    · rw [hout]
      simp
    · rw [hout]
      simp
  · refine ⟨?_, ?_, ?_, ?_, hstrict⟩
    · rw [hheap]
      simp
    · rw [hheap]
      simp [hact]
    · rw [hout]
      simp
    · rw [hout, hheap]
      intro o ho
      simp only [List.mem_singleton] at ho
      rw [ho, hp]
      exact ⟨req, List.mem_singleton.mpr rfl⟩

/-- C2 at a failing input. A full sweep is started on a fresh, idle device,
its first search accepted; the search completes without error and without
record, and the transport refuses (result `-12`) the search `browse_cb`
starts next. `browse_cb` drops that result: in the state reached there is
one live `browse_req`, and it has no outstanding search, not exactly one,
while the device is busy. Both searches were asked of the transport. The
state is left by no further completion, and a new `device_browse` is
answered `-EBUSY`. The sibling `device_browse` tests the result: refused the
same way on the idle device, it frees its session and leaves the device
idle. -/
theorem refused_follow_up_keeps_session :
    (World.start [] (device_create "/dev")).idle ∧
    refused_follow_up_run
      = run sample_env (World.start [] (device_create "/dev"))
          [ Step.browse none none none false 0, Step.complete 0 [] 0 (-12) ] ∧
    refused_follow_up_run.heap.length = 1 ∧
    refused_follow_up_run.outstanding = [] ∧
    refused_follow_up_run.heap.map
        (fun p => (refused_follow_up_run.outstanding.filter
          (fun o => o.user_data = p.1)).length)
      = [0] ∧
    refused_follow_up_run.device.discov_active = 1 ∧
    searches refused_follow_up_run.log
      = [ (.uuid16 PUBLIC_BROWSE_GROUP, .browse_cb),
          (.uuid16 PNP_INFO_SVCLASS_ID, .browse_cb) ] ∧
    (∀ cs, deliver sample_env refused_follow_up_run cs = refused_follow_up_run) ∧
    (device_browse refused_follow_up_run none none none false 0).2 = -EBUSY ∧
    (device_browse (World.start [] (device_create "/dev")) none none none false (-12)).2
      = -12 ∧
    (device_browse (World.start [] (device_create "/dev")) none none none false (-12)).1.heap.length
      = 0 ∧
    (device_browse (World.start [] (device_create "/dev")) none none none false
      (-12)).1.device.discov_active = 0 := by
  refine ⟨⟨rfl, rfl, rfl⟩, rfl, by decide, by decide, by decide, by decide, by decide, ?_,
    by decide, by decide, by decide, by decide⟩
  intro cs
  induction cs with
  | nil => rfl
  | cons c more ih =>
    show deliver sample_env (complete sample_env refused_follow_up_run 0 c.recs c.err c.rc) more
      = refused_follow_up_run
    rw [complete_idle sample_env refused_follow_up_run 0 c.recs c.err c.rc (by decide)]
    exact ih

theorem single_session_invariant_witness :
    (World.start [] (device_create "/dev")).idle ∧
    (∀ s ∈ sample_steps, s.accepted) ∧
    (∀ p ∈ (run sample_env (World.start [] (device_create "/dev")) sample_steps).heap,
      ((run sample_env (World.start [] (device_create "/dev")) sample_steps).outstanding.filter
        (fun o => o.user_data = p.1)).length = 1) ∧
    (run sample_env (World.start [] (device_create "/dev")) sample_steps).outstanding.length
      = (run sample_env (World.start [] (device_create "/dev")) sample_steps).heap.length :=
  have hacc : ∀ s ∈ sample_steps, s.accepted := by
    intro s hs
    simp only [sample_steps, List.mem_cons, List.mem_singleton, List.not_mem_nil,
      or_false] at hs
    rcases hs with h | h | h <;> rw [h] <;> simp [Step.accepted]
  ⟨⟨rfl, rfl, rfl⟩, hacc,
    (single_session_invariant sample_env (World.start [] (device_create "/dev")) sample_steps
      ⟨rfl, rfl, rfl⟩).2.2.2.2 hacc⟩

/-! ## Completion of the search of a session -/

theorem init_browse_search_uuid (drivers : List btd_device_driver) (device : btd_device)
    (req : browse_req) (reverse : Bool) :
    (init_browse drivers device req reverse).search_uuid = req.search_uuid := by
  unfold init_browse
  split <;> rfl

theorem init_browse_records (drivers : List btd_device_driver) (device : btd_device)
    (req : browse_req) (reverse : Bool) :
    (init_browse drivers device req reverse).records = req.records := by
  unfold init_browse
  split <;> rfl

theorem init_browse_uuids_added (drivers : List btd_device_driver) (device : btd_device)
    (req : browse_req) (reverse : Bool) :
    (init_browse drivers device req reverse).uuids_added = req.uuids_added := by
  unfold init_browse
  split <;> rfl

theorem browse_session_sweep_search_uuid (w : World) (conn : Option DBusConnection)
    (msg : Option DBusMessage) (reverse : Bool) :
    (browse_session w conn msg none reverse).search_uuid = 1 := by
  simp [browse_session, init_browse_search_uuid, browse_req_new]

theorem browse_cb_done (env : Env) (w : World) (a : Nat) (req : browse_req)
    (recs : sdp_list_t) (err rc : Int)
    (h : err < 0 ∨ (req.search_uuid = 1 ∧ recs ≠ [])) :
    browse_cb env w a req recs err rc = search_cb env w a req recs err := by
  unfold browse_cb
  rw [if_pos h]

/-- The world a full sweep leaves when `device_browse` returns with its first
search accepted: the session alone in the heap, and the search for
`uuid_list[0]`, with callback `browse_cb`, alone outstanding. -/
theorem device_browse_sweep_started (w : World) (conn : Option DBusConnection)
    (msg : Option DBusMessage) (reverse : Bool) (rc : Int) (hidle : w.idle) (hrc : 0 ≤ rc) :
    (device_browse w conn msg none reverse rc).1.heap
      = [(w.next_addr, browse_session w conn msg none reverse)] ∧
    (device_browse w conn msg none reverse rc).1.outstanding
      = [⟨.uuid16 PUBLIC_BROWSE_GROUP, .browse_cb, w.next_addr⟩] ∧
    searches (device_browse w conn msg none reverse rc).1.log
      = searches w.log ++ [(.uuid16 PUBLIC_BROWSE_GROUP, .browse_cb)] ∧
    (device_browse w conn msg none reverse rc).1.device.discov_active = 1 ∧
    (device_browse w conn msg none reverse rc).1.device.uuids = w.device.uuids ∧
    (device_browse w conn msg none reverse rc).1.device_drivers = w.device_drivers := by
  obtain ⟨hact, hheap, hout⟩ := hidle
  rw [device_browse_idle w conn msg none reverse rc hact hrc]
  refine ⟨?_, ?_, ?_, ?_, ?_, ?_⟩
  · rw [bt_search_service_heap, browse_prepare_heap, hheap]
    rfl
  · rw [bt_search_service_outstanding _ _ _ _ _ hrc, browse_prepare_outstanding, hout]
    rfl
  · rw [bt_search_service_searches, browse_prepare_searches]
    rfl
  · rw [bt_search_service_device, browse_prepare_active]
  · rw [bt_search_service_device]
    unfold browse_prepare
    cases msg <;> rfl
  · rw [bt_search_service_drivers]
    unfold browse_prepare
    cases msg <;> rfl

/-! ## The steps of `browse_cb` -/

theorem update_services_rec_search_uuid (env : Env) (device : btd_device) (req : browse_req)
    (r : sdp_record_t) :
    (update_services_rec env device req r).1.search_uuid = req.search_uuid := by
  cases h1 : r.svclass with
  | none => simp [update_services_rec, h1]
  | some c =>
    obtain ⟨cls, others⟩ := c
    cases h2 : env.bt_uuid2string cls with
    | none => simp [update_services_rec, h1, h2]
    | some uuid_str =>
      cases h3 : sdp_list_find req.records r with
      | some found => simp [update_services_rec, h1, h2, h3]
      | none =>
        cases h4 : env.sdp_copy r <;>
          cases h5 : g_slist_find_custom device.uuids uuid_str strcmp <;>
          simp [update_services_rec, h1, h2, h3, h4, h5]

theorem update_services_search_uuid (env : Env) (device : btd_device) (req : browse_req)
    (recs : sdp_list_t) :
    (update_services env device req recs).1.search_uuid = req.search_uuid := by
  induction recs generalizing req with
  | nil => simp [update_services]
  | cons o seq ih =>
    cases o with
    | none => simp [update_services]
    | some r => simp [update_services, ih, update_services_rec_search_uuid]

theorem update_services_rec_msg (env : Env) (device : btd_device) (req : browse_req)
    (r : sdp_record_t) : (update_services_rec env device req r).1.msg = req.msg := by
  cases h1 : r.svclass with
  | none => simp [update_services_rec, h1]
  | some c =>
    obtain ⟨cls, others⟩ := c
    cases h2 : env.bt_uuid2string cls with
    | none => simp [update_services_rec, h1, h2]
    | some uuid_str =>
      cases h3 : sdp_list_find req.records r with
      | some found => simp [update_services_rec, h1, h2, h3]
      | none =>
        cases h4 : env.sdp_copy r <;>
          cases h5 : g_slist_find_custom device.uuids uuid_str strcmp <;>
          simp [update_services_rec, h1, h2, h3, h4, h5]

theorem update_services_msg (env : Env) (device : btd_device) (req : browse_req)
    (recs : sdp_list_t) : (update_services env device req recs).1.msg = req.msg := by
  induction recs generalizing req with
  | nil => simp [update_services]
  | cons o seq ih =>
    cases o with
    | none => simp [update_services]
    | some r => simp [update_services, ih, update_services_rec_msg]

theorem browse_cb_next_fixed (env : Env) (w : World) (a : Nat) (req : browse_req)
    (recs : sdp_list_t) (err rc : Int)
    (hcont : ¬ (err < 0 ∨ (req.search_uuid = 1 ∧ recs ≠ [])))
    (hfix : uuid_list_at req.search_uuid ≠ 0) :
    browse_cb env w a req recs err rc =
      (bt_search_service
        (heap_set { w with log := w.log ++ (update_services env w.device req recs).2 } a
          { (update_services env w.device req recs).1 with search_uuid := req.search_uuid + 1 })
        (.uuid16 (uuid_list_at req.search_uuid)) .browse_cb a rc).1 := by
  unfold browse_cb
  rw [if_neg hcont]
  simp only [update_services_search_uuid]
  rw [if_pos hfix]

theorem browse_cb_next_driver (env : Env) (w : World) (a : Nat) (req : browse_req)
    (recs : sdp_list_t) (err rc : Int) (uuid_str : String) (rest : List String)
    (hcont : ¬ (err < 0 ∨ (req.search_uuid = 1 ∧ recs ≠ [])))
    (hfix : uuid_list_at req.search_uuid = 0)
    (hpend : (update_services env w.device req recs).1.uuids = uuid_str :: rest) :
    browse_cb env w a req recs err rc =
      (bt_search_service
        (heap_set { w with log := w.log ++ (update_services env w.device req recs).2 } a
          { (update_services env w.device req recs).1 with uuids := rest })
        (env.bt_string2uuid uuid_str).2 .browse_cb a rc).1 := by
  unfold browse_cb
  rw [if_neg hcont]
  simp only [update_services_search_uuid]
  have hfix' : ¬ uuid_list_at req.search_uuid ≠ 0 := not_not.mpr hfix
  rw [if_neg hfix']
  simp only [hpend]

theorem browse_cb_l2cap (env : Env) (w : World) (a : Nat) (req : browse_req)
    (recs : sdp_list_t) (err rc : Int)
    (hcont : ¬ (err < 0 ∨ (req.search_uuid = 1 ∧ recs ≠ [])))
    (hfix : uuid_list_at req.search_uuid = 0)
    (hpend : (update_services env w.device req recs).1.uuids = [])
    (hrecs : (update_services env w.device req recs).1.records = []) :
    browse_cb env w a req recs err rc =
      (bt_search_service
        (heap_set { w with log := w.log ++ (update_services env w.device req recs).2 } a
          (update_services env w.device req recs).1)
        (.uuid16 L2CAP_UUID) .search_cb a rc).1 := by
  unfold browse_cb
  rw [if_neg hcont]
  simp only [update_services_search_uuid]
  have hfix' : ¬ uuid_list_at req.search_uuid ≠ 0 := not_not.mpr hfix
  rw [if_neg hfix']
  simp only [hpend]
  rw [if_pos hrecs]

theorem browse_cb_finish (env : Env) (w : World) (a : Nat) (req : browse_req)
    (recs : sdp_list_t) (err rc : Int)
    (hcont : ¬ (err < 0 ∨ (req.search_uuid = 1 ∧ recs ≠ [])))
    (hfix : uuid_list_at req.search_uuid = 0)
    (hpend : (update_services env w.device req recs).1.uuids = [])
    (hrecs : (update_services env w.device req recs).1.records ≠ []) :
    browse_cb env w a req recs err rc =
      search_cb env
        (heap_set { w with log := w.log ++ (update_services env w.device req recs).2 } a
          (update_services env w.device req recs).1)
        a (update_services env w.device req recs).1 recs err := by
  unfold browse_cb
  rw [if_neg hcont]
  simp only [update_services_search_uuid]
  have hfix' : ¬ uuid_list_at req.search_uuid ≠ 0 := not_not.mpr hfix
  rw [if_neg hfix']
  simp only [hpend]
  rw [if_neg hrecs]

/-! ## The answer to the public-browse search -/

/-- C4, as stated, fails: on a fresh device a full sweep whose first search
(public browse group) is answered without error by one record issues no
further search. The log holds the public-browse search alone, the session is
gone and nothing is outstanding, so the PnP, HID, ... searches are never
issued; the answer has been reconciled (the HID UUID is known). -/
theorem public_answer_run_stops :
    searches public_answer_run.log = [(.uuid16 PUBLIC_BROWSE_GROUP, .browse_cb)] ∧
    (uuid_t.uuid16 PNP_INFO_SVCLASS_ID, bt_callback_t.browse_cb)
      ∉ searches public_answer_run.log ∧
    public_answer_run.heap.length = 0 ∧
    public_answer_run.outstanding = [] ∧
    public_answer_run.device.discov_active = 0 ∧
    public_answer_run.device.uuids = ["00001124-0000-1000-8000-00805f9b34fb"] := by
  decide

/-- C4, amended. In a full sweep started on an idle device, when the first
search (public browse group) completes without error:
* with at least one record, `browse_cb` issues no further search: it hands
  the answer to `search_cb`, which reconciles it and frees the session (the
  public-browse search stays the only one issued, no session is left,
  nothing is outstanding, the device is no longer busy);
* with no record, the session goes on: the PnP-information search is issued
  next and the session stays live. -/
theorem public_browse_answer_ends_sweep (env : Env) (w : World)
    (conn : Option DBusConnection) (msg : Option DBusMessage) (reverse : Bool)
    (rc : Int) (recs : sdp_list_t) (err rc2 : Int)
    (hidle : w.idle) (hrc : 0 ≤ rc) (herr : 0 ≤ err) :
    (recs ≠ [] →
      run env w [Step.browse conn msg none reverse rc, Step.complete 0 recs err rc2]
        = search_cb env
            { (device_browse w conn msg none reverse rc).1 with outstanding := [] }
            w.next_addr (browse_session w conn msg none reverse) recs err ∧
      searches (run env w
          [Step.browse conn msg none reverse rc, Step.complete 0 recs err rc2]).log
        = searches w.log ++ [(.uuid16 PUBLIC_BROWSE_GROUP, .browse_cb)] ∧
      (run env w [Step.browse conn msg none reverse rc, Step.complete 0 recs err rc2]).heap
        = [] ∧
      (run env w
          [Step.browse conn msg none reverse rc, Step.complete 0 recs err rc2]).outstanding
        = [] ∧
      (run env w
          [Step.browse conn msg none reverse rc, Step.complete 0 recs err rc2]).device.discov_active
        = 0) ∧
    (recs = [] → 0 ≤ rc2 →
      searches (run env w
          [Step.browse conn msg none reverse rc, Step.complete 0 recs err rc2]).log
        = searches w.log ++ [(.uuid16 PUBLIC_BROWSE_GROUP, .browse_cb),
            (.uuid16 PNP_INFO_SVCLASS_ID, .browse_cb)] ∧
      (run env w
          [Step.browse conn msg none reverse rc, Step.complete 0 recs err rc2]).heap.length
        = 1) := by
  obtain ⟨hheap, hout, hlog, hact, _, _⟩ :=
    device_browse_sweep_started w conn msg reverse rc hidle hrc
  have hrun : run env w [Step.browse conn msg none reverse rc, Step.complete 0 recs err rc2]
      = browse_cb env { (device_browse w conn msg none reverse rc).1 with outstanding := [] }
          w.next_addr (browse_session w conn msg none reverse) recs err rc2 := by
    simp only [run, List.foldl, step]
    rw [complete_head env _ ⟨.uuid16 PUBLIC_BROWSE_GROUP, .browse_cb, w.next_addr⟩
      (browse_session w conn msg none reverse) recs err rc2 hout hheap]
  constructor
  · intro hne
    have hdone : run env w [Step.browse conn msg none reverse rc, Step.complete 0 recs err rc2]
        = search_cb env
            { (device_browse w conn msg none reverse rc).1 with outstanding := [] }
            w.next_addr (browse_session w conn msg none reverse) recs err := by
      rw [hrun]
      exact browse_cb_done _ _ _ _ _ _ _
        (Or.inr ⟨browse_session_sweep_search_uuid w conn msg reverse, hne⟩)
    refine ⟨hdone, ?_, ?_, ?_, ?_⟩
    · rw [hdone, search_cb_searches]
      exact hlog
    · rw [hdone, search_cb_heap]
      simp [hheap]
    · rw [hdone, search_cb_outstanding]
    · rw [hdone, search_cb_active]
  · intro hempty hrc2
    have hsu := browse_session_sweep_search_uuid w conn msg reverse
    have hcont : ¬ (err < 0 ∨
        ((browse_session w conn msg none reverse).search_uuid = 1 ∧ recs ≠ [])) := by
      intro h
      rcases h with h | ⟨_, h⟩
      · exact absurd herr (not_le.mpr h)
      · exact h hempty
    have hfix : uuid_list_at (browse_session w conn msg none reverse).search_uuid ≠ 0 := by
      rw [hsu]
      decide
    rw [hrun, browse_cb_next_fixed env _ _ _ _ _ _ hcont hfix]
    constructor
    · rw [bt_search_service_searches, hsu]
      simp only [heap_set, searches_append, searches_update_services, List.append_nil]
      rw [hlog]
      simp [uuid_list_at, uuid_list]
    · rw [bt_search_service_heap]
      simp [heap_set, hheap]

/-- The amended C4 at a sample input: the run `public_answer_run`. -/
theorem public_browse_answer_ends_sweep_witness :
    (World.start [hid_driver] (device_create "/dev")).idle ∧
    searches (run sample_env (World.start [hid_driver] (device_create "/dev"))
        [Step.browse none none none false 0, Step.complete 0 [some hid_record] 0 0]).log
      = searches (World.start [hid_driver] (device_create "/dev")).log
          ++ [(.uuid16 PUBLIC_BROWSE_GROUP, .browse_cb)] :=
  ⟨⟨rfl, rfl, rfl⟩,
    ((public_browse_answer_ends_sweep sample_env
      (World.start [hid_driver] (device_create "/dev")) none none false 0
      [some hid_record] 0 0 ⟨rfl, rfl, rfl⟩ (by decide) (by decide)).1 (by simp)).2.1⟩

/-! ## Targeted search -/

theorem deliver_nil (env : Env) (w : World) : deliver env w [] = w := rfl

theorem deliver_cons (env : Env) (w : World) (c : Completion) (cs : List Completion) :
    deliver env w (c :: cs) = deliver env (complete env w 0 c.recs c.err c.rc) cs := rfl

theorem deliver_idle (env : Env) (w : World) (cs : List Completion)
    (hout : w.outstanding = []) : deliver env w cs = w := by
  induction cs with
  | nil => rfl
  | cons c more ih =>
    rw [deliver_cons, complete_idle env w 0 c.recs c.err c.rc hout]
    exact ih

theorem device_browse_targeted_started (w : World) (conn : Option DBusConnection)
    (msg : Option DBusMessage) (u : uuid_t) (reverse : Bool) (rc : Int) (hidle : w.idle)
    (hrc : 0 ≤ rc) :
    (device_browse w conn msg (some u) reverse rc).1.heap
      = [(w.next_addr, browse_session w conn msg (some u) reverse)] ∧
    (device_browse w conn msg (some u) reverse rc).1.outstanding
      = [⟨u, .search_cb, w.next_addr⟩] := by
  obtain ⟨hact, hheap, hout⟩ := hidle
  rw [device_browse_idle w conn msg (some u) reverse rc hact hrc]
  constructor
  · rw [bt_search_service_heap, browse_prepare_heap, hheap]
    rfl
  · rw [bt_search_service_outstanding _ _ _ _ _ hrc, browse_prepare_outstanding, hout]
    rfl

theorem device_browse_searches (w : World) (conn : Option DBusConnection)
    (msg : Option DBusMessage) (search : Option uuid_t) (reverse : Bool) (rc : Int)
    (hact : w.device.discov_active = 0) :
    searches (device_browse w conn msg search reverse rc).1.log
      = searches w.log ++ [(browse_first_uuid search, browse_first_cb search)] := by
  by_cases hrc : rc < 0
  · rw [device_browse_refused w conn msg search reverse rc hact hrc]
    simp only [browse_req_free_searches, bt_search_service_searches, browse_prepare_searches]
  · rw [device_browse_idle w conn msg search reverse rc hact (not_lt.mp hrc)]
    simp only [bt_search_service_searches, browse_prepare_searches]

theorem device_browse_refused_idle (w : World) (conn : Option DBusConnection)
    (msg : Option DBusMessage) (search : Option uuid_t) (reverse : Bool) (rc : Int)
    (hidle : w.idle) (hrc : rc < 0) :
    (device_browse w conn msg search reverse rc).1.idle := by
  obtain ⟨hact, hheap, hout⟩ := hidle
  rw [device_browse_refused w conn msg search reverse rc hact hrc]
  refine ⟨?_, ?_, ?_⟩
  · exact browse_req_free_active
      (bt_search_service (browse_prepare w conn msg search reverse)
        (browse_first_uuid search) (browse_first_cb search) w.next_addr rc).1
      w.next_addr (browse_session w conn msg search reverse)
  · show (browse_req_free _ w.next_addr (browse_session w conn msg search reverse)).heap = []
    rw [browse_req_free_heap, bt_search_service_heap, browse_prepare_heap, hheap]
    simp
  · show (browse_req_free _ w.next_addr
      (browse_session w conn msg search reverse)).outstanding = []
    rw [browse_req_free_outstanding, bt_search_service_refused _ _ _ _ _ hrc,
      browse_prepare_outstanding, hout]

/-- C7. Targeted search. On an idle device, `device_browse` with a search
UUID `u` (any caller, any `reverse`, any transport result):
* issues one transport search, for `u`, with callback `search_cb`;
* whatever completions follow (any records, any error code), no other
  search is ever issued: the searches of the session stay that single one,
  so no fixed-list, driver-UUID or L2CAP search occurs;
* when the transport accepted the search, its completion runs `search_cb` on
  the session (reconciliation), after which the session is destroyed:
  no live session, nothing outstanding, device not busy;
* when the transport refused it, the session is destroyed at once. -/
theorem targeted_search_once (env : Env) (w : World) (conn : Option DBusConnection)
    (msg : Option DBusMessage) (u : uuid_t) (reverse : Bool) (rc : Int) (hidle : w.idle) :
    searches (device_browse w conn msg (some u) reverse rc).1.log
      = searches w.log ++ [(u, .search_cb)] ∧
    (∀ cs : List Completion,
      searches (deliver env (device_browse w conn msg (some u) reverse rc).1 cs).log
        = searches w.log ++ [(u, .search_cb)]) ∧
    (0 ≤ rc → ∀ (c : Completion) (cs : List Completion),
      deliver env (device_browse w conn msg (some u) reverse rc).1 (c :: cs)
        = search_cb env
            { (device_browse w conn msg (some u) reverse rc).1 with outstanding := [] }
            w.next_addr (browse_session w conn msg (some u) reverse) c.recs c.err ∧
      (deliver env (device_browse w conn msg (some u) reverse rc).1 (c :: cs)).idle) ∧
    (rc < 0 → (device_browse w conn msg (some u) reverse rc).1.idle) := by
  have hfirst : searches (device_browse w conn msg (some u) reverse rc).1.log
      = searches w.log ++ [(u, .search_cb)] :=
    device_browse_searches w conn msg (some u) reverse rc hidle.1
  have hacc : 0 ≤ rc → ∀ (c : Completion) (cs : List Completion),
      deliver env (device_browse w conn msg (some u) reverse rc).1 (c :: cs)
        = search_cb env
            { (device_browse w conn msg (some u) reverse rc).1 with outstanding := [] }
            w.next_addr (browse_session w conn msg (some u) reverse) c.recs c.err ∧
      (deliver env (device_browse w conn msg (some u) reverse rc).1 (c :: cs)).idle := by
    intro hrc c cs
    obtain ⟨hheap, hout⟩ := device_browse_targeted_started w conn msg u reverse rc hidle hrc
    have hone : complete env (device_browse w conn msg (some u) reverse rc).1 0 c.recs c.err c.rc
        = search_cb env
            { (device_browse w conn msg (some u) reverse rc).1 with outstanding := [] }
            w.next_addr (browse_session w conn msg (some u) reverse) c.recs c.err := by
      rw [complete_head env _ ⟨u, .search_cb, w.next_addr⟩
        (browse_session w conn msg (some u) reverse) c.recs c.err c.rc hout hheap]
    have hall : deliver env (device_browse w conn msg (some u) reverse rc).1 (c :: cs)
        = search_cb env
            { (device_browse w conn msg (some u) reverse rc).1 with outstanding := [] }
            w.next_addr (browse_session w conn msg (some u) reverse) c.recs c.err := by
      rw [deliver_cons, hone]
      apply deliver_idle
      rw [search_cb_outstanding]
    refine ⟨hall, ?_⟩
    rw [hall]
    refine ⟨search_cb_active _ _ _ _ _ _, ?_, ?_⟩
    · rw [search_cb_heap]
      simp [hheap]
    · rw [search_cb_outstanding]
  refine ⟨hfirst, ?_, hacc, ?_⟩
  · intro cs
    by_cases hrc : rc < 0
    · rw [deliver_idle env _ cs
        (device_browse_refused_idle w conn msg (some u) reverse rc hidle hrc).2.2]
      exact hfirst
    · cases cs with
      | nil => exact hfirst
      | cons c more =>
        rw [(hacc (not_lt.mp hrc) c more).1, search_cb_searches]
        exact hfirst
  · intro hrc
    exact device_browse_refused_idle w conn msg (some u) reverse rc hidle hrc

theorem targeted_search_once_witness :
    (World.start [hid_driver] (device_create "/dev")).idle ∧
    (∀ cs : List Completion,
      searches (deliver sample_env
          (device_browse (World.start [hid_driver] (device_create "/dev")) (some 1)
            (some (discover_msg "hid")) (some (.uuid16 HID_SVCLASS_ID)) false 0).1 cs).log
        = searches (World.start [hid_driver] (device_create "/dev")).log
            ++ [(.uuid16 HID_SVCLASS_ID, .search_cb)]) :=
  ⟨⟨rfl, rfl, rfl⟩,
    (targeted_search_once sample_env (World.start [hid_driver] (device_create "/dev"))
      (some 1) (some (discover_msg "hid")) (.uuid16 HID_SVCLASS_ID) false 0
      ⟨rfl, rfl, rfl⟩).2.1⟩

/-! ## The final L2CAP search -/

theorem search_cb_potential (env : Env) (w : World) (a : Nat) (req : browse_req)
    (recs : sdp_list_t) (err : Int) :
    l2cap_potential (search_cb env w a req recs err) = l2cap_potential w := by
  unfold l2cap_potential
  rw [search_cb_searches, search_cb_outstanding]

theorem issue_potential (w : World) (a : Nat) (req : browse_req) (uuid : uuid_t)
    (cb : bt_callback_t) (rc : Int) (ev : List Event) (hev : searches ev = []) :
    l2cap_potential
        (bt_search_service (heap_set { w with log := w.log ++ ev } a req) uuid cb a rc).1
      ≤ l2cap_potential w + 1 := by
  unfold l2cap_potential
  rw [bt_search_service_searches]
  have hlog : searches (heap_set { w with log := w.log ++ ev } a req).log = searches w.log := by
    simp [heap_set, searches_append, hev]
  rw [hlog, List.count_append]
  have hout : (bt_search_service (heap_set { w with log := w.log ++ ev } a req)
      uuid cb a rc).1.outstanding = w.outstanding ∨
      (bt_search_service (heap_set { w with log := w.log ++ ev } a req)
      uuid cb a rc).1.outstanding = w.outstanding ++ [⟨uuid, cb, a⟩] := by
    by_cases hrc : rc < 0
    · left
      rw [bt_search_service_refused _ _ _ _ _ hrc]
      rfl
    · right
      rw [bt_search_service_outstanding _ _ _ _ _ (not_lt.mp hrc)]
      rfl
  cases cb with
  | browse_cb =>
    have hcount : List.count l2cap_search [(uuid, bt_callback_t.browse_cb)] = 0 := by
      simp [l2cap_search]
    rw [hcount]
    rcases hout with h | h
    · rw [h]
      simp
    · rw [h]
      simp
      omega
  | search_cb =>
    have hcount : List.count l2cap_search [(uuid, bt_callback_t.search_cb)] ≤ 1 := by
      rw [List.count_singleton]
      split <;> omega
    rcases hout with h | h <;> rw [h] <;> simp <;> omega

theorem browse_cb_potential (env : Env) (w : World) (a : Nat) (req : browse_req)
    (recs : sdp_list_t) (err rc : Int) :
    l2cap_potential (browse_cb env w a req recs err rc) ≤ l2cap_potential w + 1 := by
  have hupd := searches_update_services env w.device req recs
  unfold browse_cb
  split
  · rw [search_cb_potential]
    omega
  · simp only
    split
    · exact issue_potential w a _ _ _ rc _ hupd
    · split
      · exact issue_potential w a _ _ _ rc _ hupd
      · split
        · exact issue_potential w a _ _ _ rc _ hupd
        · rw [search_cb_potential]
          unfold l2cap_potential
          simp [heap_set, searches_append, hupd]

theorem complete_potential (env : Env) (w : World) (c : Completion) :
    l2cap_potential (complete env w 0 c.recs c.err c.rc) ≤ l2cap_potential w := by
  cases hout : w.outstanding with
  | nil => rw [complete_idle env w 0 c.recs c.err c.rc hout]
  | cons p rest =>
    unfold complete
    rw [hout]
    simp only [List.get?_cons_zero, List.eraseIdx_cons_zero]
    have hbase : l2cap_potential { w with outstanding := rest }
        + (if p.cb = bt_callback_t.browse_cb then 1 else 0) = l2cap_potential w := by
      unfold l2cap_potential
      rw [hout]
      by_cases hp : p.cb = bt_callback_t.browse_cb
      · simp [hp]
        omega
      · simp [hp]
    cases hlook : List.lookup p.user_data w.heap with
    | none =>
      simp only
      omega
    | some req =>
      simp only
      cases hcb : p.cb with
      | search_cb =>
        simp only
        rw [search_cb_potential]
        omega
      | browse_cb =>
        simp only
        have hstep := browse_cb_potential env { w with outstanding := rest }
          p.user_data req c.recs c.err c.rc
        rw [hcb] at hbase
        simp only [if_true] at hbase
        omega

theorem deliver_potential (env : Env) (cs : List Completion) (w : World) :
    l2cap_potential (deliver env w cs) ≤ l2cap_potential w := by
  induction cs generalizing w with
  | nil => exact Nat.le_refl _
  | cons c more ih =>
    rw [deliver_cons]
    exact Nat.le_trans (ih _) (complete_potential env w c)

/-- C6. Final reachability search. Let the completion callback `browse_cb`
of a search of a live full-sweep session run without error when the fixed
list is exhausted (`uuid_list[search_uuid]` is the terminating 0) and, the
answer processed, no driver UUID is pending. Then:
* if the accumulator is empty at that moment, exactly one search is issued,
  for the L2CAP UUID with callback `search_cb`; once the transport has
  accepted it, its completion (any records, any error) runs `search_cb` on
  the session, issues no further search, and leaves no session behind;
* if the accumulator is not empty, no search is issued: `search_cb` runs at
  once on the answer and the session ends;
* hence the L2CAP search is issued if and only if the accumulator is empty;
* over a whole full sweep from an idle device, whatever the completions, the
  L2CAP search with callback `search_cb` is issued at most once. -/
theorem l2cap_search_iff_no_record (env : Env) (w : World) (a : Nat)
    (held req : browse_req) (recs : sdp_list_t) (err rc : Int)
    (hheap : w.heap = [(a, held)]) (hout : w.outstanding = [])
    (herr : 0 ≤ err) (hfix : uuid_list_at req.search_uuid = 0)
    (hpend : (update_services env w.device req recs).1.uuids = []) :
    ((update_services env w.device req recs).1.records = [] →
      searches (browse_cb env w a req recs err rc).log = searches w.log ++ [l2cap_search] ∧
      (0 ≤ rc →
        (browse_cb env w a req recs err rc).outstanding
          = [⟨.uuid16 L2CAP_UUID, .search_cb, a⟩] ∧
        ∀ c : Completion,
          complete env (browse_cb env w a req recs err rc) 0 c.recs c.err c.rc
            = search_cb env { browse_cb env w a req recs err rc with outstanding := [] } a
                (update_services env w.device req recs).1 c.recs c.err ∧
          searches (complete env (browse_cb env w a req recs err rc) 0 c.recs c.err c.rc).log
            = searches w.log ++ [l2cap_search] ∧
          (complete env (browse_cb env w a req recs err rc) 0 c.recs c.err c.rc).idle)) ∧
    ((update_services env w.device req recs).1.records ≠ [] →
      browse_cb env w a req recs err rc
        = search_cb env
            (heap_set { w with log := w.log ++ (update_services env w.device req recs).2 } a
              (update_services env w.device req recs).1)
            a (update_services env w.device req recs).1 recs err ∧
      searches (browse_cb env w a req recs err rc).log = searches w.log ∧
      (browse_cb env w a req recs err rc).idle) ∧
    (searches (browse_cb env w a req recs err rc).log = searches w.log ++ [l2cap_search]
      ↔ (update_services env w.device req recs).1.records = []) ∧
    (∀ (w0 : World) (conn : Option DBusConnection) (msg : Option DBusMessage)
        (reverse : Bool) (rc0 : Int) (cs : List Completion), w0.idle →
      (searches (deliver env (device_browse w0 conn msg none reverse rc0).1 cs).log).count
          l2cap_search
        ≤ (searches w0.log).count l2cap_search + 1) := by
  have hsu : req.search_uuid ≠ 1 := by
    intro h
    rw [h] at hfix
    exact absurd hfix (by decide)
  have hcont : ¬ (err < 0 ∨ (req.search_uuid = 1 ∧ recs ≠ [])) := by
    intro h
    rcases h with h | ⟨h, _⟩
    · exact absurd herr (not_le.mpr h)
    · exact hsu h
  have hupd := searches_update_services env w.device req recs
  have hempty : (update_services env w.device req recs).1.records = [] →
      searches (browse_cb env w a req recs err rc).log = searches w.log ++ [l2cap_search] := by
    intro hrecs
    rw [browse_cb_l2cap env w a req recs err rc hcont hfix hpend hrecs,
      bt_search_service_searches]
    simp [heap_set, searches_append, hupd, l2cap_search]
  have hfull : (update_services env w.device req recs).1.records ≠ [] →
      browse_cb env w a req recs err rc
        = search_cb env
            (heap_set { w with log := w.log ++ (update_services env w.device req recs).2 } a
              (update_services env w.device req recs).1)
            a (update_services env w.device req recs).1 recs err ∧
      searches (browse_cb env w a req recs err rc).log = searches w.log ∧
      (browse_cb env w a req recs err rc).idle := by
    intro hrecs
    have heq := browse_cb_finish env w a req recs err rc hcont hfix hpend hrecs
    refine ⟨heq, ?_, ?_⟩
    · rw [heq, search_cb_searches]
      simp [heap_set, searches_append, hupd]
    · rw [heq]
      refine ⟨search_cb_active _ _ _ _ _ _, ?_, ?_⟩
      · rw [search_cb_heap]
        simp [heap_set, hheap]
      · rw [search_cb_outstanding]
        simp [heap_set, hout]
  refine ⟨?_, hfull, ?_, ?_⟩
  · intro hrecs
    refine ⟨hempty hrecs, ?_⟩
    intro hrc
    have heq := browse_cb_l2cap env w a req recs err rc hcont hfix hpend hrecs
    have hout2 : (browse_cb env w a req recs err rc).outstanding
        = [⟨.uuid16 L2CAP_UUID, .search_cb, a⟩] := by
      rw [heq, bt_search_service_outstanding _ _ _ _ _ hrc]
      simp [heap_set, hout]
    have hheap2 : (browse_cb env w a req recs err rc).heap
        = [(a, (update_services env w.device req recs).1)] := by
      rw [heq, bt_search_service_heap]
      simp [heap_set, hheap]
    refine ⟨hout2, ?_⟩
    intro c
    have hc := complete_head env (browse_cb env w a req recs err rc)
      ⟨.uuid16 L2CAP_UUID, .search_cb, a⟩ (update_services env w.device req recs).1
      c.recs c.err c.rc hout2 hheap2
    simp only at hc
    refine ⟨hc, ?_, ?_⟩
    · rw [hc, search_cb_searches]
      exact hempty hrecs
    · rw [hc]
      refine ⟨search_cb_active _ _ _ _ _ _, ?_, ?_⟩
      · rw [search_cb_heap]
        simp [hheap2]
      · rw [search_cb_outstanding]
  · constructor
    · intro hlog
      by_contra hrecs
      rw [(hfull hrecs).2.1] at hlog
      have hlen := congrArg List.length hlog
      simp at hlen
    · exact hempty
  · intro w0 conn msg reverse rc0 cs hidle
    have hstart : l2cap_potential (device_browse w0 conn msg none reverse rc0).1
        ≤ (searches w0.log).count l2cap_search + 1 := by
      unfold l2cap_potential
      rw [device_browse_searches w0 conn msg none reverse rc0 hidle.1, List.count_append]
      have hcount : List.count l2cap_search
          [(browse_first_uuid none, browse_first_cb none)] = 0 := by
        simp [l2cap_search, browse_first_cb]
      rw [hcount]
      by_cases hrc : rc0 < 0
      · rw [(device_browse_refused_idle w0 conn msg none reverse rc0 hidle hrc).2.2]
        simp
      · rw [(device_browse_sweep_started w0 conn msg reverse rc0 hidle (not_lt.mp hrc)).2.1]
        simp
    have hrun := deliver_potential env cs (device_browse w0 conn msg none reverse rc0).1
    have hle : (searches (deliver env (device_browse w0 conn msg none reverse rc0).1 cs).log).count
        l2cap_search ≤ l2cap_potential (deliver env (device_browse w0 conn msg none reverse rc0).1 cs) := by
      unfold l2cap_potential
      omega
    omega

theorem l2cap_search_iff_no_record_witness :
    exhausted_world.heap = [(1, exhausted_req)] ∧
    exhausted_world.outstanding = [] ∧
    uuid_list_at exhausted_req.search_uuid = 0 ∧
    (update_services sample_env exhausted_world.device exhausted_req []).1.uuids = [] ∧
    (update_services sample_env exhausted_world.device exhausted_req []).1.records = [] ∧
    searches (browse_cb sample_env exhausted_world 1 exhausted_req [] 0 0).log
      = searches exhausted_world.log ++ [l2cap_search] :=
  ⟨rfl, rfl, by decide, rfl, rfl,
    ((l2cap_search_iff_no_record sample_env exhausted_world 1 exhausted_req exhausted_req
      [] 0 0 rfl rfl (by decide) (by decide) rfl).1 rfl).1⟩

/-! ## The order of the searches of a full sweep -/

theorem issue_heap (w : World) (a : Nat) (held req : browse_req) (uuid : uuid_t)
    (cb : bt_callback_t) (rc : Int) (ev : List Event) (hheap : w.heap = [(a, held)]) :
    (bt_search_service (heap_set { w with log := w.log ++ ev } a req) uuid cb a rc).1.heap
      = [(a, req)] := by
  rw [bt_search_service_heap]
  simp [heap_set, hheap]

theorem issue_outstanding (w : World) (a : Nat) (req : browse_req) (uuid : uuid_t)
    (cb : bt_callback_t) (rc : Int) (ev : List Event) (hout : w.outstanding = [])
    (hrc : 0 ≤ rc) :
    (bt_search_service (heap_set { w with log := w.log ++ ev } a req) uuid cb a rc).1.outstanding
      = [⟨uuid, cb, a⟩] := by
  rw [bt_search_service_outstanding _ _ _ _ _ hrc]
  simp [heap_set, hout]

theorem init_browse_drivers_pending (w : World) (conn : Option DBusConnection)
    (msg : Option DBusMessage) (reverse : Bool) :
    (browse_session w conn msg none reverse).uuids
      = init_browse_drivers [] w.device_drivers := by
  unfold browse_session init_browse
  cases reverse <;> simp [browse_req_new]

/-- C8, as stated, fails: in the run `error_run` the HID record has been
accumulated by the second search (its primary UUID is in `uuids_added`, not
in the known list), then the third search reports an error. The session ends
(no session left, device not busy) with the known list still empty and no
attachment: the log shows the three searches, the stored record, the write
of the empty profile list and the reply, and no `probe` of the HID driver. -/
theorem error_run_drops_accumulated :
    (deliver sample_env sweep_world two_answers).heap.map (fun p => p.2.records)
      = [[hid_record]] ∧
    (deliver sample_env sweep_world two_answers).heap.map (fun p => p.2.uuids_added)
      = [["00001124-0000-1000-8000-00805f9b34fb"]] ∧
    primary_uuid sample_env hid_record = some "00001124-0000-1000-8000-00805f9b34fb" ∧
    error_run.heap.length = 0 ∧
    error_run.device.discov_active = 0 ∧
    error_run.device.uuids = [] ∧
    error_run.device.drivers.length = 0 ∧
    error_run.log =
      [ Event.add_disconnect_watch ":1.7",
        Event.bt_search_service (.uuid16 PUBLIC_BROWSE_GROUP) .browse_cb 1,
        Event.bt_search_service (.uuid16 PNP_INFO_SVCLASS_ID) .browse_cb 1,
        Event.store_record 0x10001,
        Event.bt_search_service (.uuid16 HID_SVCLASS_ID) .browse_cb 1,
        Event.write_device_profiles "",
        Event.discover_device_reply [0x10001],
        Event.remove_watch 1 ] := by
  decide

theorem search_cb_error (env : Env) (w : World) (a : Nat) (req : browse_req)
    (recs : sdp_list_t) (err : Int) (herr : err < 0) :
    search_cb env w a req recs err
      = browse_req_free { w with log := w.log ++ search_cb_proceed env w.device req } a req := by
  unfold search_cb search_cb_update
  simp only [herr, if_true, List.append_nil]

/-- C8, amended. When a search of a full sweep reports an error
(`err < 0`), whatever has been accumulated:
* `browse_cb` issues no further search and runs `search_cb`;
* `search_cb` skips reconciliation: it only runs the steps from `proceed`
  on (the known list is persisted as it is; a `DiscoverServices` caller is
  sent the records accumulated so far, other callers the device path) and
  frees the session;
* so the known UUID list and the attachments are what they were, every
  `probe` or `remove` call in the log was there before, and the session is
  gone with the device no longer busy. -/
theorem search_error_skips_reconciliation (env : Env) (w : World) (a : Nat)
    (req : browse_req) (recs : sdp_list_t) (err rc : Int) (herr : err < 0) :
    browse_cb env w a req recs err rc = search_cb env w a req recs err ∧
    search_cb env w a req recs err
      = browse_req_free { w with log := w.log ++ search_cb_proceed env w.device req } a req ∧
    searches (browse_cb env w a req recs err rc).log = searches w.log ∧
    (browse_cb env w a req recs err rc).device.uuids = w.device.uuids ∧
    (browse_cb env w a req recs err rc).device.drivers = w.device.drivers ∧
    (∀ name records result,
      Event.probe name records result ∈ (browse_cb env w a req recs err rc).log →
        Event.probe name records result ∈ w.log) ∧
    (∀ name,
      Event.remove name ∈ (browse_cb env w a req recs err rc).log →
        Event.remove name ∈ w.log) ∧
    (browse_cb env w a req recs err rc).heap = w.heap.filter (fun p => p.1 ≠ a) ∧
    (browse_cb env w a req recs err rc).device.discov_active = 0 := by
  have hdone := browse_cb_done env w a req recs err rc (Or.inl herr)
  have hcb := search_cb_error env w a req recs err herr
  have hlog : ∀ e, e ∈ (search_cb env w a req recs err).log →
      e ∈ w.log ∨ e ∈ search_cb_proceed env w.device req ∨ ∃ id, e = Event.remove_watch id := by
    intro e he
    rw [hcb] at he
    unfold browse_req_free at he
    cases hr : w.device.discov_requestor with
    | none =>
      simp only [hr] at he
      rcases List.mem_append.mp he with h | h
      · exact Or.inl h
      · exact Or.inr (Or.inl h)
    | some r =>
      simp only [hr] at he
      rcases List.mem_append.mp he with h | h
      · rcases List.mem_append.mp h with h | h
        · exact Or.inl h
        · exact Or.inr (Or.inl h)
      · exact Or.inr (Or.inr ⟨_, List.mem_singleton.mp h⟩)
  have hproceed : ∀ e, e ∈ search_cb_proceed env w.device req →
      (∀ name records result, e ≠ Event.probe name records result) ∧
      (∀ name, e ≠ Event.remove name) := by
    unfold search_cb_proceed store
    cases hm : req.msg with
    | none =>
      by_cases hu : w.device.uuids = [] <;> simp [hu]
    | some m =>
      by_cases hd : dbus_message_is_method_call m DEVICE_INTERFACE "DiscoverServices" = true <;>
        by_cases hu : w.device.uuids = [] <;> simp [hu, hd]
  rw [hdone]
  refine ⟨rfl, hcb, search_cb_searches _ _ _ _ _ _, ?_, ?_, ?_, ?_, search_cb_heap _ _ _ _ _ _,
    search_cb_active _ _ _ _ _ _⟩
  · rw [hcb, browse_req_free_uuids]
  · rw [hcb, browse_req_free_drivers]
  · intro name records result he
    rcases hlog _ he with h | h | ⟨id, h⟩
    · exact h
    · exact absurd rfl ((hproceed _ h).1 name records result)
    · exact absurd h (by simp)
  · intro name he
    rcases hlog _ he with h | h | ⟨id, h⟩
    · exact h
    · exact absurd rfl ((hproceed _ h).2 name)
    · exact absurd h (by simp)

/-- The amended C8 at the run `error_run`: the completion with error `-5`
of the search outstanding after `two_answers`. -/
theorem search_error_skips_reconciliation_witness :
    ((-5 : Int) < 0) ∧
    (browse_cb sample_env { deliver sample_env sweep_world two_answers with outstanding := [] } 1
      { conn := some 1, msg := some (discover_msg ""), uuids := [],
        uuids_added := ["00001124-0000-1000-8000-00805f9b34fb"], uuids_removed := [],
        records := [hid_record], search_uuid := 3 } [] (-5) 0).device.uuids
      = (deliver sample_env sweep_world two_answers).device.uuids :=
  ⟨by decide,
    (search_error_skips_reconciliation sample_env
      { deliver sample_env sweep_world two_answers with outstanding := [] } 1
      { conn := some 1, msg := some (discover_msg ""), uuids := [],
        uuids_added := ["00001124-0000-1000-8000-00805f9b34fb"], uuids_removed := [],
        records := [hid_record], search_uuid := 3 } [] (-5) 0 (by decide)).2.2.2.1⟩

/-! ## The order of `strcmp` and the known UUID list -/

theorem char_toNat_ne (c d : Char) (h : c ≠ d) : c.toNat ≠ d.toNat := by
  intro hn
  apply h
  have hof := congrArg Char.ofNat hn
  rw [Char.ofNat_toNat, Char.ofNat_toNat] at hof
  exact hof

theorem strcmp_chars_swap (a b : List Char) :
    strcmp_chars a b < 0 ↔ 0 < strcmp_chars b a := by
  induction a generalizing b with
  | nil => cases b <;> simp [strcmp_chars]
  | cons c cs ih =>
    cases b with
    | nil => simp [strcmp_chars]
    | cons d ds =>
      by_cases hcd : c = d
      · subst hcd
        simp only [strcmp_chars, if_true]
        exact ih ds
      · have hdc : ¬ d = c := fun h => hcd h.symm
        have hne := char_toNat_ne c d hcd
        by_cases hlt : c.toNat < d.toNat
        · have hgt : ¬ d.toNat < c.toNat := by omega
          simp [strcmp_chars, hcd, hdc, hlt, hgt]
        · have hgt : d.toNat < c.toNat := by omega
          simp [strcmp_chars, hcd, hdc, hlt, hgt]

theorem strcmp_chars_trans (a b c : List Char) (hab : strcmp_chars a b < 0)
    (hbc : strcmp_chars b c < 0) : strcmp_chars a c < 0 := by
  induction a generalizing b c with
  | nil =>
    cases c with
    | nil =>
      cases b with
      | nil => simp [strcmp_chars] at hab
      | cons y ys => simp [strcmp_chars] at hbc
    | cons z zs => simp [strcmp_chars]
  | cons x xs ih =>
    cases b with
    | nil => simp [strcmp_chars] at hab
    | cons y ys =>
      cases c with
      | nil => simp [strcmp_chars] at hbc
      | cons z zs =>
        by_cases hxy : x = y
        · subst hxy
          by_cases hxz : x = z
          · subst hxz
            simp only [strcmp_chars, if_true] at hab hbc ⊢
            exact ih ys zs hab hbc
          · simp only [strcmp_chars, hxz, if_false] at hbc ⊢
            exact hbc
        · by_cases hyz : y = z
          · subst hyz
            simp only [strcmp_chars, hxy, if_false] at hab ⊢
            exact hab
          · have hlt1 : x.toNat < y.toNat := by
              by_contra hn
              simp [strcmp_chars, hxy, hn] at hab
            have hlt2 : y.toNat < z.toNat := by
              by_contra hn
              simp [strcmp_chars, hyz, hn] at hbc
            have hlt : x.toNat < z.toNat := by omega
            have hxz : ¬ x = z := by
              intro h
              rw [h] at hlt
              exact absurd hlt (Nat.lt_irrefl _)
            simp [strcmp_chars, hxz, hlt]

theorem strcmp_swap (a b : String) : strcmp a b < 0 ↔ 0 < strcmp b a :=
  strcmp_chars_swap a.data b.data

theorem strcmp_trans (a b c : String) (hab : strcmp a b < 0) (hbc : strcmp b c < 0) :
    strcmp a c < 0 :=
  strcmp_chars_trans a.data b.data c.data hab hbc

theorem strcmp_self (a : String) : strcmp a a = 0 :=
  (strcmp_eq_zero a a).2 rfl

theorem strcmp_lt_ne (a b : String) (h : strcmp a b < 0) : a ≠ b := by
  intro hab
  rw [hab, strcmp_self] at h
  exact absurd h (by decide)

theorem strictly_ascending_nodup (l : List String) (h : strictly_ascending l) : l.Nodup :=
  List.Pairwise.imp (fun {a b} hab => strcmp_lt_ne a b hab) h

theorem find_custom_strcmp_none (l : List String) (data : String) :
    g_slist_find_custom l data strcmp = none ↔ data ∉ l := by
  unfold g_slist_find_custom
  rw [List.find?_eq_none]
  constructor
  · intro h hmem
    have := h data hmem
    simp [strcmp_self] at this
  · intro h e he
    have hne : e ≠ data := fun heq => h (heq ▸ he)
    simp [strcmp_eq_zero, hne]

theorem find_custom_strcmp_some (l : List String) (data found : String)
    (h : g_slist_find_custom l data strcmp = some found) : found = data ∧ data ∈ l := by
  unfold g_slist_find_custom at h
  have hp := List.find?_some h
  have hmem := List.mem_of_find?_eq_some h
  simp only [beq_iff_eq] at hp
  have heq := (strcmp_eq_zero _ _).1 hp
  exact ⟨heq, heq ▸ hmem⟩

theorem mem_insert_sorted (func : String → String → Int) (data : String) (l : List String)
    (u : String) : u ∈ g_slist_insert_sorted func data l ↔ u = data ∨ u ∈ l := by
  induction l with
  | nil => simp [g_slist_insert_sorted]
  | cons e more ih =>
    unfold g_slist_insert_sorted
    split
    · simp
    · simp only [List.mem_cons, ih]
      tauto

theorem insert_sorted_ascending (data : String) (l : List String)
    (h : strictly_ascending l) (hnew : data ∉ l) :
    strictly_ascending (g_slist_insert_sorted strcmp data l) := by
  induction l with
  | nil => simp [g_slist_insert_sorted, strictly_ascending]
  | cons e more ih =>
    have hpw := List.pairwise_cons.mp h
    have hne : data ≠ e := fun heq => hnew (heq ▸ List.mem_cons_self _ _)
    have hnm : data ∉ more := fun hm => hnew (List.mem_cons_of_mem _ hm)
    unfold g_slist_insert_sorted
    split
    · rename_i hle
      have hlt : strcmp data e < 0 := by
        have hz : strcmp data e ≠ 0 := fun hz => hne ((strcmp_eq_zero _ _).1 hz)
        omega
      apply List.pairwise_cons.mpr
      refine ⟨?_, h⟩
      intro x hx
      rcases List.mem_cons.mp hx with hx | hx
      · rw [hx]
        exact hlt
      · exact strcmp_trans _ _ _ hlt (hpw.1 x hx)
    · rename_i hgt
      have hlt : strcmp e data < 0 := (strcmp_swap e data).2 (by omega)
      apply List.pairwise_cons.mpr
      refine ⟨?_, ih hpw.2 hnm⟩
      intro x hx
      rcases (mem_insert_sorted strcmp data more x).1 hx with hx | hx
      · rw [hx]
        exact hlt
      · exact hpw.1 x hx

theorem insert_uuids_spec (uuids known : List String) (h : strictly_ascending known) :
    strictly_ascending (insert_uuids known uuids) ∧
    ∀ u, u ∈ insert_uuids known uuids ↔ u ∈ known ∨ u ∈ uuids := by
  induction uuids generalizing known with
  | nil => simp [insert_uuids, h]
  | cons x more ih =>
    unfold insert_uuids
    cases hf : g_slist_find_custom known x strcmp with
    | some found =>
      simp only
      obtain ⟨_, hmem⟩ := find_custom_strcmp_some known x found hf
      obtain ⟨h1, h2⟩ := ih known h
      refine ⟨h1, ?_⟩
      intro u
      rw [h2 u, List.mem_cons]
      constructor
      · intro hu
        rcases hu with hu | hu
        · exact Or.inl hu
        · exact Or.inr (Or.inr hu)
      · intro hu
        rcases hu with hu | hu | hu
        · exact Or.inl hu
        · exact Or.inl (hu ▸ hmem)
        · exact Or.inr hu
    | none =>
      simp only
      have hnew := (find_custom_strcmp_none known x).1 hf
      obtain ⟨h1, h2⟩ := ih (g_slist_insert_sorted strcmp x known)
        (insert_sorted_ascending x known h hnew)
      refine ⟨h1, ?_⟩
      intro u
      rw [h2 u, mem_insert_sorted, List.mem_cons]
      tauto

theorem remove_uuids_spec (uuids known : List String) (h : strictly_ascending known) :
    strictly_ascending (remove_uuids known uuids) ∧
    ∀ u, u ∈ remove_uuids known uuids ↔ u ∈ known ∧ u ∉ uuids := by
  induction uuids generalizing known with
  | nil => simp [remove_uuids, h]
  | cons x more ih =>
    unfold remove_uuids
    have hsub : strictly_ascending (known.erase x) :=
      List.Pairwise.sublist (List.erase_sublist x known) h
    obtain ⟨h1, h2⟩ := ih (known.erase x) hsub
    refine ⟨h1, ?_⟩
    intro u
    rw [h2 u, List.Nodup.mem_erase_iff (strictly_ascending_nodup known h), List.mem_cons]
    tauto

/-! ## The known UUID list after a session -/

theorem search_cb_uuids (env : Env) (w : World) (a : Nat) (req : browse_req)
    (recs : sdp_list_t) (err : Int) :
    (search_cb env w a req recs err).device.uuids
      = (search_cb_update env w.device_drivers w.device req recs err).1.uuids := by
  unfold search_cb
  rw [browse_req_free_uuids]

theorem search_cb_update_uuids (env : Env) (drivers : List btd_device_driver)
    (device : btd_device) (req : browse_req) (recs : sdp_list_t) (err : Int)
    (herr : 0 ≤ err) :
    (search_cb_update env drivers device req recs err).1.uuids
      = remove_uuids
          (insert_uuids device.uuids (update_services env device req recs).1.uuids_added)
          (update_services env device req recs).1.uuids_removed := by
  unfold search_cb_update
  rw [if_neg (not_lt.mpr herr)]
  simp only
  by_cases hnone : (update_services env device req recs).1.uuids_added = [] ∧
      (update_services env device req recs).1.uuids_removed = []
  · rw [if_pos hnone, hnone.1, hnone.2]
    rfl
  · rw [if_neg hnone]
    by_cases ha : (update_services env device req recs).1.uuids_added = []
    · by_cases hr : (update_services env device req recs).1.uuids_removed = []
      · exact absurd ⟨ha, hr⟩ hnone
      · simp only [ha, hr, ne_eq, not_true_eq_false, not_false_eq_true, if_true, if_false]
        rfl
    · by_cases hr : (update_services env device req recs).1.uuids_removed = []
      · simp only [ha, hr, ne_eq, not_true_eq_false, not_false_eq_true, if_true, if_false]
        rfl
      · simp only [ha, hr, ne_eq, not_false_eq_true, if_true]
        rfl

/-- C10. Known-set update. When `search_cb` completes a session without
error (`0 <= err`) on a device whose known UUID list `old` is strictly
ascending under `strcmp` (sorted, duplicate-free), then, `added` and
`removed` being the session's `uuids_added` and `uuids_removed` once the
answer has been processed, the known list afterwards
* is strictly ascending (sorted byte-wise, duplicate-free),
* holds exactly the elements of `(old ∪ added) \ removed`,
* and is the only strictly ascending list of those elements,
whatever `added` is, repetitions of one UUID included. -/
theorem known_set_update (env : Env) (w : World) (a : Nat) (req : browse_req)
    (recs : sdp_list_t) (err : Int) (herr : 0 ≤ err)
    (hold : strictly_ascending w.device.uuids) :
    strictly_ascending (search_cb env w a req recs err).device.uuids ∧
    (∀ u, u ∈ (search_cb env w a req recs err).device.uuids ↔
      (u ∈ w.device.uuids ∨ u ∈ (update_services env w.device req recs).1.uuids_added) ∧
        u ∉ (update_services env w.device req recs).1.uuids_removed) ∧
    (∀ l : List String, strictly_ascending l →
      (∀ u, u ∈ l ↔
        (u ∈ w.device.uuids ∨ u ∈ (update_services env w.device req recs).1.uuids_added) ∧
          u ∉ (update_services env w.device req recs).1.uuids_removed) →
      l = (search_cb env w a req recs err).device.uuids) := by
  rw [search_cb_uuids, search_cb_update_uuids env _ _ _ _ _ herr]
  obtain ⟨hins, hinsmem⟩ :=
    insert_uuids_spec (update_services env w.device req recs).1.uuids_added w.device.uuids hold
  obtain ⟨hrem, hremmem⟩ :=
    remove_uuids_spec (update_services env w.device req recs).1.uuids_removed _ hins
  have hmem : ∀ u, u ∈ remove_uuids
      (insert_uuids w.device.uuids (update_services env w.device req recs).1.uuids_added)
      (update_services env w.device req recs).1.uuids_removed ↔
      (u ∈ w.device.uuids ∨ u ∈ (update_services env w.device req recs).1.uuids_added) ∧
        u ∉ (update_services env w.device req recs).1.uuids_removed := by
    intro u
    rw [hremmem u, hinsmem u]
  refine ⟨hrem, hmem, ?_⟩
  intro l hl hlmem
  haveI : IsAntisymm String (fun a b => strcmp a b < 0) :=
    ⟨fun a b hab hba => by
      have h := (strcmp_swap a b).1 hab
      omega⟩
  apply List.eq_of_perm_of_sorted _ hl hrem
  rw [List.perm_ext_iff_of_nodup (strictly_ascending_nodup l hl)
    (strictly_ascending_nodup _ hrem)]
  intro u
  rw [hlmem u, hmem u]

/-- The known-set update at a sample input: a device that knows the
serial-port UUID receives two HID records with different handles; the HID
UUID is added twice to `uuids_added` and once to the known list. -/
theorem known_set_update_witness :
    strictly_ascending known_world.device.uuids ∧
    (update_services sample_env known_world.device (browse_req_new none none)
        [some hid_record, some hid_record2]).1.uuids_added
      = ["00001124-0000-1000-8000-00805f9b34fb", "00001124-0000-1000-8000-00805f9b34fb"] ∧
    (search_cb sample_env known_world 1 (browse_req_new none none)
        [some hid_record, some hid_record2] 0).device.uuids
      = ["00001101-0000-1000-8000-00805f9b34fb", "00001124-0000-1000-8000-00805f9b34fb"] ∧
    strictly_ascending (search_cb sample_env known_world 1 (browse_req_new none none)
        [some hid_record, some hid_record2] 0).device.uuids :=
  ⟨by simp [strictly_ascending, known_world, World.start, device_create], by decide, by decide,
    (known_set_update sample_env known_world 1 (browse_req_new none none)
      [some hid_record, some hid_record2] 0 (by decide)
      (by simp [strictly_ascending, known_world, World.start, device_create])).1⟩

/-! ## Added and removed UUIDs -/

theorem reconciled_rec (env : Env) (device : btd_device) (req : browse_req)
    (r : sdp_record_t) (hcopy : env.faithful_copy) (h : Reconciled env device req) :
    Reconciled env device (update_services_rec env device req r).1 := by
  obtain ⟨hadd, hrem, hnd⟩ := h
  cases h1 : r.svclass with
  | none =>
    simp only [update_services_rec, h1]
    exact ⟨hadd, hrem, hnd⟩
  | some c =>
    obtain ⟨cls, others⟩ := c
    cases h2 : env.bt_uuid2string cls with
    | none =>
      simp only [update_services_rec, h1, h2]
      exact ⟨hadd, hrem, hnd⟩
    | some uuid_str =>
      cases h3 : sdp_list_find req.records r with
      | some found =>
        simp only [update_services_rec, h1, h2, h3]
        exact ⟨hadd, hrem, hnd⟩
      | none =>
        obtain ⟨copy, h4, hprim⟩ := hcopy r
        have hp : primary_uuid env copy = some uuid_str := by
          rw [hprim]
          simp [primary_uuid, h1, h2]
        have hacc : ∀ (q : browse_req), q.records = req.records ++ [copy] →
            ∀ u, u ∈ accumulated_uuids env q ↔ u ∈ accumulated_uuids env req ∨ u = uuid_str := by
          intro q hq u
          unfold accumulated_uuids
          rw [hq, List.filterMap_append]
          simp [hp, eq_comm]
        cases h5 : g_slist_find_custom device.uuids uuid_str strcmp with
        | none =>
          have hnew := (find_custom_strcmp_none device.uuids uuid_str).1 h5
          simp only [update_services_rec, h1, h2, h3, h4, h5]
          refine ⟨?_, ?_, hnd⟩
          · intro u
            rw [hacc _ rfl u]
            simp only [List.mem_append, List.mem_singleton]
            rw [hadd u]
            constructor
            · intro hu
              rcases hu with hu | hu
              · exact ⟨Or.inl hu.1, hu.2⟩
              · exact ⟨Or.inr hu, hu ▸ hnew⟩
            · intro hu
              rcases hu.1 with h | h
              · exact Or.inl ⟨h, hu.2⟩
              · exact Or.inr h
          · intro u
            rw [hacc _ rfl u]
            show u ∈ req.uuids_removed ↔ _
            rw [hrem u]
            constructor
            · intro hu
              refine ⟨hu.1, ?_⟩
              intro hor
              rcases hor with h | h
              · exact hu.2 h
              · exact hnew (h ▸ hu.1)
            · intro hu
              exact ⟨hu.1, fun h => hu.2 (Or.inl h)⟩
        | some found =>
          obtain ⟨hfound, hmem⟩ := find_custom_strcmp_some device.uuids uuid_str found h5
          simp only [update_services_rec, h1, h2, h3, h4, h5]
          refine ⟨?_, ?_, List.Nodup.erase _ hnd⟩
          · intro u
            rw [hacc _ rfl u]
            show u ∈ req.uuids_added ↔ _
            rw [hadd u]
            constructor
            · intro hu
              exact ⟨Or.inl hu.1, hu.2⟩
            · intro hu
              rcases hu.1 with h | h
              · exact ⟨h, hu.2⟩
              · exact absurd (h ▸ hmem) hu.2
          · intro u
            rw [hacc _ rfl u]
            show u ∈ req.uuids_removed.erase found ↔ _
            rw [List.Nodup.mem_erase_iff hnd, hrem u, hfound]
            constructor
            · intro hu
              refine ⟨hu.2.1, ?_⟩
              intro hor
              rcases hor with h | h
              · exact hu.2.2 h
              · exact hu.1 h
            · intro hu
              exact ⟨fun h => hu.2 (Or.inr h), hu.1, fun h => hu.2 (Or.inl h)⟩

theorem reconciled_update_services (env : Env) (device : btd_device) (recs : sdp_list_t)
    (req : browse_req) (hcopy : env.faithful_copy) (h : Reconciled env device req) :
    Reconciled env device (update_services env device req recs).1 := by
  induction recs generalizing req with
  | nil => exact h
  | cons o seq ih =>
    cases o with
    | none => exact h
    | some r =>
      simp only [update_services]
      exact ih _ (reconciled_rec env device req r hcopy h)

theorem reconciled_all (env : Env) (device : btd_device) (answers : List sdp_list_t)
    (req : browse_req) (hcopy : env.faithful_copy) (h : Reconciled env device req) :
    Reconciled env device (update_services_all env device req answers) := by
  induction answers generalizing req with
  | nil => exact h
  | cons recs more ih =>
    exact ih _ (reconciled_update_services env device recs req hcopy h)

theorem reconciled_start (env : Env) (w : World) (conn : Option DBusConnection)
    (msg : Option DBusMessage) (hnodup : w.device.uuids.Nodup) :
    Reconciled env w.device (browse_session w conn msg none false) := by
  have hrec : (browse_session w conn msg none false).records = [] := by
    simp [browse_session, init_browse_records, browse_req_new]
  have hadd : (browse_session w conn msg none false).uuids_added = [] := by
    simp [browse_session, init_browse_uuids_added, browse_req_new]
  have hrem : (browse_session w conn msg none false).uuids_removed = w.device.uuids := by
    simp [browse_session, init_browse, browse_req_new]
  unfold Reconciled accumulated_uuids
  rw [hrec, hadd, hrem]
  simp [hnodup]

/-- C9, as stated, fails: when `sdp_gen_record_pdu` does not return 0 the
record is classified but not put in the accumulator. In a non-reverse full
sweep on a fresh device (nothing known), after `update_services` has
processed the HID record in such an environment, the added list holds the
HID UUID while the accumulator is empty: the added set is not `new \ old`. -/
theorem failing_copy_breaks_partition :
    (device_create "/dev").uuids = [] ∧
    failing_copy_req.uuids_added = ["00001124-0000-1000-8000-00805f9b34fb"] ∧
    failing_copy_req.records = [] ∧
    accumulated_uuids failing_copy_env failing_copy_req = [] ∧
    failing_copy_req.uuids_added.toFinset
      ≠ (accumulated_uuids failing_copy_env failing_copy_req).toFinset
          \ (device_create "/dev").uuids.toFinset := by
  refine ⟨rfl, by decide, by decide, by decide, ?_⟩
  have h1 : failing_copy_req.uuids_added = ["00001124-0000-1000-8000-00805f9b34fb"] := by
    decide
  have h2 : accumulated_uuids failing_copy_env failing_copy_req = [] := by decide
  rw [h1, h2]
  simp

/-- C9, amended. Added/removed partition. Take a non-reverse full-sweep
session on a device whose known UUID list `old` has no duplicates, and let
`update_services` process any sequence of record lists, every record copy
succeeding and keeping the record's primary service-class UUID. With `new`
the set of primary service-class UUIDs of the records in the accumulator:
the added set is `new \ old`, the removed set is `old \ new`, added and
removed are disjoint, and added, removed and `old ∩ new` are pairwise
disjoint with union `old ∪ new` (sets of strings under string equality). -/
theorem added_removed_partition (env : Env) (w : World) (conn : Option DBusConnection)
    (msg : Option DBusMessage) (answers : List sdp_list_t)
    (hnodup : w.device.uuids.Nodup) (hcopy : env.faithful_copy) :
    (update_services_all env w.device (browse_session w conn msg none false)
        answers).uuids_added.toFinset
      = (accumulated_uuids env (update_services_all env w.device
          (browse_session w conn msg none false) answers)).toFinset \ w.device.uuids.toFinset ∧
    (update_services_all env w.device (browse_session w conn msg none false)
        answers).uuids_removed.toFinset
      = w.device.uuids.toFinset \ (accumulated_uuids env (update_services_all env w.device
          (browse_session w conn msg none false) answers)).toFinset ∧
    Disjoint
      (update_services_all env w.device (browse_session w conn msg none false)
        answers).uuids_added.toFinset
      (update_services_all env w.device (browse_session w conn msg none false)
        answers).uuids_removed.toFinset ∧
    (update_services_all env w.device (browse_session w conn msg none false)
        answers).uuids_added.toFinset
      ∪ (update_services_all env w.device (browse_session w conn msg none false)
        answers).uuids_removed.toFinset
      ∪ (w.device.uuids.toFinset ∩ (accumulated_uuids env (update_services_all env w.device
          (browse_session w conn msg none false) answers)).toFinset)
      = w.device.uuids.toFinset ∪ (accumulated_uuids env (update_services_all env w.device
          (browse_session w conn msg none false) answers)).toFinset ∧
    Disjoint
      (update_services_all env w.device (browse_session w conn msg none false)
        answers).uuids_added.toFinset
      (w.device.uuids.toFinset ∩ (accumulated_uuids env (update_services_all env w.device
          (browse_session w conn msg none false) answers)).toFinset) ∧
    Disjoint
      (update_services_all env w.device (browse_session w conn msg none false)
        answers).uuids_removed.toFinset
      (w.device.uuids.toFinset ∩ (accumulated_uuids env (update_services_all env w.device
          (browse_session w conn msg none false) answers)).toFinset) := by
  obtain ⟨hadd, hrem, _⟩ := reconciled_all env w.device answers _ hcopy
    (reconciled_start env w conn msg hnodup)
  have e1 : (update_services_all env w.device (browse_session w conn msg none false)
        answers).uuids_added.toFinset
      = (accumulated_uuids env (update_services_all env w.device
          (browse_session w conn msg none false) answers)).toFinset \ w.device.uuids.toFinset := by
    ext u
    simp only [List.mem_toFinset, Finset.mem_sdiff]
    exact hadd u
  have e2 : (update_services_all env w.device (browse_session w conn msg none false)
        answers).uuids_removed.toFinset
      = w.device.uuids.toFinset \ (accumulated_uuids env (update_services_all env w.device
          (browse_session w conn msg none false) answers)).toFinset := by
    ext u
    simp only [List.mem_toFinset, Finset.mem_sdiff]
    exact hrem u
  refine ⟨e1, e2, ?_, ?_, ?_, ?_⟩
  · rw [e1, e2, Finset.disjoint_left]
    intro u hu1 hu2
    exact (Finset.mem_sdiff.mp hu1).2 (Finset.mem_sdiff.mp hu2).1
  · rw [e1, e2]
    ext u
    simp only [Finset.mem_union, Finset.mem_sdiff, Finset.mem_inter]
    tauto
  · rw [e1, Finset.disjoint_left]
    intro u hu1 hu2
    exact (Finset.mem_sdiff.mp hu1).2 (Finset.mem_inter.mp hu2).1
  · rw [e2, Finset.disjoint_left]
    intro u hu1 hu2
    exact (Finset.mem_sdiff.mp hu1).2 (Finset.mem_inter.mp hu2).2

/-- The amended C9 at a sample input: the device of `known_world`, which
knows the serial-port UUID, and one answer carrying two HID records. -/
theorem added_removed_partition_witness :
    known_world.device.uuids.Nodup ∧ sample_env.faithful_copy ∧
    (update_services_all sample_env known_world.device
        (browse_session known_world none none none false)
        [[some hid_record, some hid_record2]]).uuids_added.toFinset
      = (accumulated_uuids sample_env (update_services_all sample_env known_world.device
          (browse_session known_world none none none false)
          [[some hid_record, some hid_record2]])).toFinset
        \ known_world.device.uuids.toFinset :=
  ⟨by decide, fun r => ⟨r, rfl, rfl⟩,
    (added_removed_partition sample_env known_world none none
      [[some hid_record, some hid_record2]] (by decide) (fun r => ⟨r, rfl, rfl⟩)).1⟩

/-! ## The pending list and the fixed list -/

theorem init_browse_fixed_loop_eq (uuid16 : Nat) (pending : List String) (table : List Nat) :
    init_browse_fixed_loop uuid16 pending table = pending := by
  induction table with
  | nil => rfl
  | cons e more ih =>
    cases e with
    | zero => rfl
    | succ n =>
      unfold init_browse_fixed_loop
      split <;> exact ih

theorem init_browse_eliminate_eq (uuid : String) (pending : List String) :
    init_browse_eliminate uuid pending = pending := by
  unfold init_browse_eliminate
  split
  · exact init_browse_fixed_loop_eq _ _ _
  · rfl

/-- C16 at a failing input: the registry holds one driver, which declares
the HID UUID in its 128-bit Bluetooth-base form. The string passes the test
of the "Eliminate duplicates of UUIDs in uuid_list[]" block and its 16-bit
value is the HID entry of `uuid_list`, yet `init_browse` queues it: it is the
pending list of the session, and when the ten searches of the fixed list
(HID among them) are answered by no record, an eleventh search is issued for
it. In general the block never changes the pending list. -/
theorem init_browse_queues_fixed_uuid :
    is_base_uuid16 "00001124-0000-1000-8000-00805F9B34FB" = true ∧
    strtol_hex "00001124-0000-1000-8000-00805F9B34FB".data 0 % 2 ^ 16 = HID_SVCLASS_ID ∧
    HID_SVCLASS_ID ∈ uuid_list ∧
    init_browse_drivers [] [hid_driver] = ["00001124-0000-1000-8000-00805F9B34FB"] ∧
    (browse_session (World.start [hid_driver] (device_create "/dev"))
      none none none false).uuids = ["00001124-0000-1000-8000-00805F9B34FB"] ∧
    searches empty_answers_run.log
      = fixed_searches ++ [driver_search sample_env "00001124-0000-1000-8000-00805F9B34FB"] ∧
    (∀ uuid pending, init_browse_eliminate uuid pending = pending) := by
  refine ⟨by decide, by decide, by decide, by decide, by decide, by decide, ?_⟩
  exact init_browse_eliminate_eq

/-! ## Pairing -/

theorem bt_search_service_log (w : World) (uuid : uuid_t) (cb : bt_callback_t)
    (a : Nat) (rc : Int) :
    (bt_search_service w uuid cb a rc).1.log = w.log ++ [Event.bt_search_service uuid cb a] := by
  unfold bt_search_service
  split <;> rfl

theorem browse_req_free_log_mem (w : World) (a : Nat) (req : browse_req) (e : Event)
    (he : e ∈ (browse_req_free w a req).log) : e ∈ w.log ∨ ∃ id, e = Event.remove_watch id := by
  unfold browse_req_free at he
  cases hr : w.device.discov_requestor with
  | none =>
    simp only [hr] at he
    exact Or.inl he
  | some r =>
    simp only [hr] at he
    rcases List.mem_append.mp he with h | h
    · exact Or.inl h
    · exact Or.inr ⟨_, List.mem_singleton.mp h⟩

theorem browse_req_free_discov_timer (w : World) (a : Nat) (req : browse_req) :
    (browse_req_free w a req).device.discov_timer = w.device.discov_timer := by
  unfold browse_req_free
  cases h : w.device.discov_requestor <;> simp [h]

theorem browse_prepare_log_mem (w : World) (conn : Option DBusConnection)
    (msg : Option DBusMessage) (search : Option uuid_t) (reverse : Bool) (e : Event)
    (he : e ∈ (browse_prepare w conn msg search reverse).log) :
    e ∈ w.log ∨ ∃ name, e = Event.add_disconnect_watch name := by
  unfold browse_prepare at he
  cases msg with
  | none => exact Or.inl he
  | some m =>
    simp only at he
    rcases List.mem_append.mp he with h | h
    · exact Or.inl h
    · exact Or.inr ⟨_, List.mem_singleton.mp h⟩

theorem browse_prepare_discov_timer (w : World) (conn : Option DBusConnection)
    (msg : Option DBusMessage) (search : Option uuid_t) (reverse : Bool) :
    (browse_prepare w conn msg search reverse).device.discov_timer = w.device.discov_timer := by
  unfold browse_prepare
  cases msg <;> rfl

theorem device_browse_busy (w : World) (conn : Option DBusConnection)
    (msg : Option DBusMessage) (search : Option uuid_t) (reverse : Bool) (rc : Int)
    (hbusy : w.device.discov_active ≠ 0) :
    device_browse w conn msg search reverse rc = (w, -EBUSY) := by
  unfold device_browse
  rw [if_pos hbusy]

theorem device_browse_discov_timer (w : World) (conn : Option DBusConnection)
    (msg : Option DBusMessage) (search : Option uuid_t) (reverse : Bool) (rc : Int) :
    (device_browse w conn msg search reverse rc).1.device.discov_timer
      = w.device.discov_timer := by
  by_cases hbusy : w.device.discov_active ≠ 0
  · rw [device_browse_busy w conn msg search reverse rc hbusy]
  · have hact : w.device.discov_active = 0 := not_not.mp hbusy
    by_cases hrc : rc < 0
    · rw [device_browse_refused w conn msg search reverse rc hact hrc]
      show (browse_req_free _ w.next_addr
        (browse_session w conn msg search reverse)).device.discov_timer = _
      rw [browse_req_free_discov_timer, bt_search_service_device, browse_prepare_discov_timer]
    · rw [device_browse_idle w conn msg search reverse rc hact (not_lt.mp hrc),
        bt_search_service_device, browse_prepare_discov_timer]

theorem device_browse_log_mem (w : World) (conn : Option DBusConnection)
    (msg : Option DBusMessage) (search : Option uuid_t) (reverse : Bool) (rc : Int)
    (e : Event) (he : e ∈ (device_browse w conn msg search reverse rc).1.log) :
    e ∈ w.log ∨ (∃ name, e = Event.add_disconnect_watch name) ∨
      (∃ uuid cb a, e = Event.bt_search_service uuid cb a) ∨
      ∃ id, e = Event.remove_watch id := by
  have hissue : ∀ x, x ∈ (bt_search_service (browse_prepare w conn msg search reverse)
      (browse_first_uuid search) (browse_first_cb search) w.next_addr rc).1.log →
      x ∈ w.log ∨ (∃ name, x = Event.add_disconnect_watch name) ∨
        (∃ uuid cb a, x = Event.bt_search_service uuid cb a) ∨
        ∃ id, x = Event.remove_watch id := by
    intro x hx
    rw [bt_search_service_log] at hx
    rcases List.mem_append.mp hx with h | h
    · rcases browse_prepare_log_mem w conn msg search reverse x h with h | h
      · exact Or.inl h
      · exact Or.inr (Or.inl h)
    · exact Or.inr (Or.inr (Or.inl ⟨_, _, _, List.mem_singleton.mp h⟩))
  by_cases hbusy : w.device.discov_active ≠ 0
  · rw [device_browse_busy w conn msg search reverse rc hbusy] at he
    exact Or.inl he
  · have hact : w.device.discov_active = 0 := not_not.mp hbusy
    by_cases hrc : rc < 0
    · rw [device_browse_refused w conn msg search reverse rc hact hrc] at he
      rcases browse_req_free_log_mem
        (bt_search_service (browse_prepare w conn msg search reverse)
          (browse_first_uuid search) (browse_first_cb search) w.next_addr rc).1
        w.next_addr (browse_session w conn msg search reverse) e he with h | h
      · exact hissue e h
      · exact Or.inr (Or.inr (Or.inr h))
    · rw [device_browse_idle w conn msg search reverse rc hact (not_lt.mp hrc)] at he
      exact hissue e he

theorem device_set_paired_arm (w : World) (conn : DBusConnection) (timer_id : Nat)
    (rc : Int) (hcond : w.device.discov_active = 0 ∧ w.device.discov_timer = 0) :
    device_set_paired w conn none timer_id rc
      = ({ w with
            device := { device_set_temporary w.device false with discov_timer := timer_id }
            log := w.log ++ [Event.paired_changed true] ++
              [Event.g_timeout_add DISCOVERY_TIMER .start_discovery] }, 0) := by
  have hc : (device_set_temporary w.device false).discov_active = 0 ∧
      (device_set_temporary w.device false).discov_timer = 0 := hcond
  unfold device_set_paired
  simp only
  rw [if_pos hc]

theorem device_set_paired_keep (w : World) (conn : DBusConnection) (timer_id : Nat)
    (rc : Int) (hcond : ¬ (w.device.discov_active = 0 ∧ w.device.discov_timer = 0)) :
    device_set_paired w conn none timer_id rc
      = ({ w with
            device := device_set_temporary w.device false
            log := w.log ++ [Event.paired_changed true] }, 0) := by
  have hc : ¬ ((device_set_temporary w.device false).discov_active = 0 ∧
      (device_set_temporary w.device false).discov_timer = 0) := hcond
  unfold device_set_paired
  simp only
  rw [if_neg hc]

/-- C17. Remote-initiated pairing: `device_set_paired` without bonding
request, for every world, every timer identifier and transport result.
* The call returns 0, the device is no longer temporary, no search is
  issued, no session is allocated, and `discov_active` is unchanged.
* If `discov_active = 0` and `discov_timer = 0` beforehand, the timer is
  armed: `g_timeout_add (DISCOVERY_TIMER, start_discovery, device)` is called
  once, after the `Paired` signal, and `discov_timer` takes its identifier.
* Otherwise no timer is armed (the `Paired` signal is the only call made)
  and `discov_timer` is unchanged.
* `DISCOVERY_TIMER` is 2000 (milliseconds). -/
theorem remote_pairing_defers_discovery (w : World) (conn : DBusConnection)
    (timer_id : Nat) (rc : Int) :
    (device_set_paired w conn none timer_id rc).2 = 0 ∧
    (device_set_paired w conn none timer_id rc).1.device.temporary = false ∧
    searches (device_set_paired w conn none timer_id rc).1.log = searches w.log ∧
    (device_set_paired w conn none timer_id rc).1.heap = w.heap ∧
    (device_set_paired w conn none timer_id rc).1.outstanding = w.outstanding ∧
    (device_set_paired w conn none timer_id rc).1.device.discov_active
      = w.device.discov_active ∧
    (w.device.discov_active = 0 ∧ w.device.discov_timer = 0 →
      (device_set_paired w conn none timer_id rc).1.device.discov_timer = timer_id ∧
      (device_set_paired w conn none timer_id rc).1.log
        = w.log ++ [Event.paired_changed true,
            Event.g_timeout_add DISCOVERY_TIMER .start_discovery]) ∧
    (¬ (w.device.discov_active = 0 ∧ w.device.discov_timer = 0) →
      (device_set_paired w conn none timer_id rc).1.device.discov_timer
        = w.device.discov_timer ∧
      (device_set_paired w conn none timer_id rc).1.log
        = w.log ++ [Event.paired_changed true]) ∧
    DISCOVERY_TIMER = 2000 := by
  by_cases hcond : w.device.discov_active = 0 ∧ w.device.discov_timer = 0
  · rw [device_set_paired_arm w conn timer_id rc hcond]
    refine ⟨rfl, rfl, ?_, rfl, rfl, rfl, ?_, ?_, rfl⟩
    · simp [searches, search_of]
    · intro _
      exact ⟨rfl, by simp⟩
    · intro hn
      exact absurd hcond hn
  · rw [device_set_paired_keep w conn timer_id rc hcond]
    refine ⟨rfl, rfl, ?_, rfl, rfl, rfl, ?_, ?_, rfl⟩
    · simp [searches, search_of]
    · intro h
      exact absurd h hcond
    · intro _
      exact ⟨rfl, rfl⟩

theorem remote_pairing_defers_discovery_witness :
    (device_set_paired (World.start [] (device_create "/dev")) 1 none 5 0).1.device.discov_timer
      = 5 ∧
    (device_set_paired (World.start [] (device_create "/dev")) 1 none 5 0).1.log
      = (World.start [] (device_create "/dev")).log ++ [Event.paired_changed true,
          Event.g_timeout_add DISCOVERY_TIMER .start_discovery] ∧
    (device_set_paired timer_world 1 none 5 0).1.device.discov_timer
      = timer_world.device.discov_timer ∧
    (device_set_paired timer_world 1 none 5 0).1.log
      = timer_world.log ++ [Event.paired_changed true] :=
  ⟨((remote_pairing_defers_discovery (World.start [] (device_create "/dev")) 1 5 0).2.2.2.2.2.2.1
      ⟨rfl, rfl⟩).1,
   ((remote_pairing_defers_discovery (World.start [] (device_create "/dev")) 1 5 0).2.2.2.2.2.2.1
      ⟨rfl, rfl⟩).2,
   ((remote_pairing_defers_discovery timer_world 1 5 0).2.2.2.2.2.2.2.1 (by decide)).1,
   ((remote_pairing_defers_discovery timer_world 1 5 0).2.2.2.2.2.2.2.1 (by decide)).2⟩

theorem device_set_paired_bonding (w : World) (conn : DBusConnection)
    (b : bonding_request_info) (timer_id : Nat) (rc : Int) :
    device_set_paired w conn (some b) timer_id rc
      = device_browse (bonding_world w) b.conn b.msg none false rc := by
  unfold device_set_paired bonding_world
  simp only
  by_cases ht : w.device.discov_timer ≠ 0
  · have ht2 : (device_set_temporary w.device false).discov_timer ≠ 0 := ht
    rw [if_pos ht, if_pos ht2]
    simp only [List.append_assoc, List.singleton_append]
    rfl
  · have ht2 : ¬ (device_set_temporary w.device false).discov_timer ≠ 0 := ht
    rw [if_neg ht, if_neg ht2]

theorem bonding_world_facts (w : World) :
    (bonding_world w).device.discov_timer = 0 ∧
    (bonding_world w).device.discov_active = w.device.discov_active ∧
    (bonding_world w).device.temporary = false ∧
    (bonding_world w).heap = w.heap ∧
    (bonding_world w).outstanding = w.outstanding ∧
    (bonding_world w).next_addr = w.next_addr ∧
    searches (bonding_world w).log = searches w.log ∧
    (w.device.discov_timer ≠ 0 →
      (bonding_world w).log
        = w.log ++ [Event.paired_changed true, Event.g_source_remove w.device.discov_timer]) ∧
    (w.device.discov_timer = 0 →
      (bonding_world w).log = w.log ++ [Event.paired_changed true]) := by
  unfold bonding_world
  by_cases ht : w.device.discov_timer ≠ 0
  · rw [if_pos ht]
    refine ⟨rfl, rfl, rfl, rfl, rfl, rfl, ?_, fun _ => rfl, fun h => absurd h ht⟩
    simp [searches, search_of]
  · rw [if_neg ht]
    refine ⟨not_not.mp ht, rfl, rfl, rfl, rfl, rfl, ?_, fun h => absurd h ht, fun _ => rfl⟩
    simp [searches, search_of]

/-- C18. Local-initiated pairing: `device_set_paired` with a bonding request
`b`, for every world, timer identifier and transport result.
* The call is `device_browse` without search UUID and with `reverse` false
  (a non-reverse full sweep), for the connection and message of `b`, made
  once a pending discovery timer has been removed (`g_source_remove` of its
  identifier); its world and its result are those of the call.
* `discov_timer` is 0 afterwards.
* If a discovery was active, the result is `-EBUSY` and no search is issued.
* Otherwise the result is the transport's (0 when it reports the start as
  0, its negative error when it refuses), the public-browse search is the one
  search issued, and when the transport accepted it the new session, whose
  caller is the connection and message of `b`, is live and the sender of the
  message is the recorded requestor. -/
theorem local_pairing_starts_discovery (w : World) (conn : DBusConnection)
    (b : bonding_request_info) (timer_id : Nat) (rc : Int) :
    device_set_paired w conn (some b) timer_id rc
      = device_browse (bonding_world w) b.conn b.msg none false rc ∧
    (w.device.discov_timer ≠ 0 →
      (bonding_world w).log
        = w.log ++ [Event.paired_changed true, Event.g_source_remove w.device.discov_timer]) ∧
    (device_set_paired w conn (some b) timer_id rc).1.device.discov_timer = 0 ∧
    (w.device.discov_active ≠ 0 →
      (device_set_paired w conn (some b) timer_id rc).2 = -EBUSY ∧
      searches (device_set_paired w conn (some b) timer_id rc).1.log = searches w.log) ∧
    (w.device.discov_active = 0 →
      (device_set_paired w conn (some b) timer_id rc).2 = rc ∧
      searches (device_set_paired w conn (some b) timer_id rc).1.log
        = searches w.log ++ [(.uuid16 PUBLIC_BROWSE_GROUP, .browse_cb)] ∧
      (0 ≤ rc →
        (device_set_paired w conn (some b) timer_id rc).1.heap
          = w.heap ++ [(w.next_addr, browse_session (bonding_world w) b.conn b.msg none false)] ∧
        (browse_session (bonding_world w) b.conn b.msg none false).conn
          = (if b.conn.isSome ∧ b.msg.isSome then b.conn else none) ∧
        (browse_session (bonding_world w) b.conn b.msg none false).msg
          = (if b.conn.isSome ∧ b.msg.isSome then b.msg else none) ∧
        ∀ m, b.msg = some m →
          (device_set_paired w conn (some b) timer_id rc).1.device.discov_requestor
            = some m.sender)) := by
  obtain ⟨htimer, hact, _, hheap, _, hnext, hsearch, hlog, _⟩ := bonding_world_facts w
  have heq := device_set_paired_bonding w conn b timer_id rc
  refine ⟨heq, hlog, ?_, ?_, ?_⟩
  · rw [heq, device_browse_discov_timer, htimer]
  · intro hbusy
    have hb : (bonding_world w).device.discov_active ≠ 0 := by
      rw [hact]
      exact hbusy
    rw [heq, device_browse_busy _ _ _ _ _ _ hb]
    exact ⟨rfl, hsearch⟩
  · intro hidle
    have hi : (bonding_world w).device.discov_active = 0 := by
      rw [hact]
      exact hidle
    refine ⟨?_, ?_, ?_⟩
    · rw [heq]
      by_cases hrc : rc < 0
      · rw [device_browse_refused _ _ _ _ _ _ hi hrc]
      · rw [device_browse_idle _ _ _ _ _ _ hi (not_lt.mp hrc), bt_search_service_result]
    · rw [heq, device_browse_searches _ _ _ _ _ _ hi, hsearch]
      rfl
    · intro hrc
      rw [heq, device_browse_idle _ _ _ _ _ _ hi hrc]
      refine ⟨?_, ?_, ?_, ?_⟩
      · rw [bt_search_service_heap, browse_prepare_heap, hheap, hnext]
      · simp [browse_session, init_browse, browse_req_new]
      · simp [browse_session, init_browse, browse_req_new]
      · intro m hm
        rw [bt_search_service_device, hm]
        rfl

theorem local_pairing_starts_discovery_witness :
    (bonding_world timer_world).log
      = timer_world.log ++ [Event.paired_changed true, Event.g_source_remove 7] ∧
    (device_set_paired timer_world 1 (some sample_bonding) 5 0).2 = 0 ∧
    searches (device_set_paired timer_world 1 (some sample_bonding) 5 0).1.log
      = searches timer_world.log ++ [(.uuid16 PUBLIC_BROWSE_GROUP, .browse_cb)] ∧
    (device_set_paired busy_world 1 (some sample_bonding) 5 0).2 = -EBUSY :=
  ⟨(local_pairing_starts_discovery timer_world 1 sample_bonding 5 0).2.1 (by decide),
   ((local_pairing_starts_discovery timer_world 1 sample_bonding 5 0).2.2.2.2 rfl).1,
   ((local_pairing_starts_discovery timer_world 1 sample_bonding 5 0).2.2.2.2 rfl).2.1,
   ((local_pairing_starts_discovery busy_world 1 sample_bonding 5 0).2.2.2.1 (by decide)).1⟩

/-! ## An explicit request and the deferred timer -/

theorem discover_services_world (env : Env) (w : World) (conn : DBusConnection)
    (msg : DBusMessage) (rc : Int) :
    (discover_services env w conn msg rc).1 = w ∨
    ∃ search, (discover_services env w conn msg rc).1
      = (device_browse w (some conn) (some msg) search false rc).1 := by
  unfold discover_services
  split
  · exact Or.inl rfl
  · cases msg.pattern with
    | none => exact Or.inl rfl
    | some pattern =>
      simp only
      split
      · right
        refine ⟨none, ?_⟩
        split <;> rfl
      · split
        · exact Or.inl rfl
        · right
          refine ⟨some (env.bt_string2uuid pattern).2, ?_⟩
          split <;> rfl

/-- C19, as stated, fails: on a device with a deferred-discovery timer
pending (identifier 7), a `DiscoverServices ("")` request starts a session
(no reply yet, one live session, device busy) and the timer is still
pending afterwards: `discov_timer` is 7 and the calls made are the
disconnect watch and the search, no `g_source_remove`. -/
theorem explicit_request_keeps_timer :
    timer_world.device.discov_timer = 7 ∧
    (discover_services sample_env timer_world 1 (discover_msg "") 0).2 = none ∧
    (discover_services sample_env timer_world 1 (discover_msg "") 0).1.heap.length = 1 ∧
    (discover_services sample_env timer_world 1 (discover_msg "") 0).1.device.discov_active
      = 1 ∧
    (discover_services sample_env timer_world 1 (discover_msg "") 0).1.device.discov_timer
      = 7 ∧
    (discover_services sample_env timer_world 1 (discover_msg "") 0).1.log
      = [ Event.add_disconnect_watch ":1.7",
          Event.bt_search_service (.uuid16 PUBLIC_BROWSE_GROUP) .browse_cb 1 ] := by
  decide

/-- C19, amended. An explicit `DiscoverServices` request leaves a pending
deferred-discovery timer alone: whatever the request and its outcome,
`discov_timer` keeps its value and no `g_source_remove` is called. When the
timer fires later, `start_discovery` resets `discov_timer` to 0; on a device
that is still busy its `device_browse` changes nothing else and issues no
search, on a device that is no longer busy it is a reverse full sweep
without caller. -/
theorem explicit_request_leaves_timer (env : Env) (w : World) (conn : DBusConnection)
    (msg : DBusMessage) (rc : Int) :
    (discover_services env w conn msg rc).1.device.discov_timer = w.device.discov_timer ∧
    (∀ tag, Event.g_source_remove tag ∈ (discover_services env w conn msg rc).1.log →
      Event.g_source_remove tag ∈ w.log) ∧
    (∀ rc2, w.device.discov_active ≠ 0 →
      start_discovery w rc2 = { w with device := { w.device with discov_timer := 0 } }) ∧
    (∀ rc2, (start_discovery w rc2).device.discov_timer = 0 ∧
      start_discovery w rc2
        = { (device_browse w none none none true rc2).1 with
            device := { (device_browse w none none none true rc2).1.device with
              discov_timer := 0 } }) := by
  refine ⟨?_, ?_, ?_, ?_⟩
  · rcases discover_services_world env w conn msg rc with h | ⟨search, h⟩
    · rw [h]
    · rw [h, device_browse_discov_timer]
  · intro tag htag
    rcases discover_services_world env w conn msg rc with h | ⟨search, h⟩
    · rw [h] at htag
      exact htag
    · rw [h] at htag
      rcases device_browse_log_mem w _ _ _ _ _ _ htag with h1 | ⟨_, h1⟩ | ⟨_, _, _, h1⟩ | ⟨_, h1⟩
      · exact h1
      · exact absurd h1 (by simp)
      · exact absurd h1 (by simp)
      · exact absurd h1 (by simp)
  · intro rc2 hbusy
    unfold start_discovery
    rw [device_browse_busy w none none none true rc2 hbusy]
  · intro rc2
    exact ⟨rfl, rfl⟩

theorem explicit_request_leaves_timer_witness :
    busy_world.device.discov_active ≠ 0 ∧
    start_discovery busy_world 0
      = { busy_world with device := { busy_world.device with discov_timer := 0 } } :=
  ⟨by decide,
    (explicit_request_leaves_timer sample_env busy_world 1 (discover_msg "") 0).2.2.1 0
      (by decide)⟩

/-! ## Disconnect -/

/-- C20, as stated, fails: when the disconnect timer fires on a device that
is still in the table of active connections (handle 42) and `hci_open_dev`
fails, no disconnect command is sent: the only call made is `hci_open_dev`. -/
theorem disconnect_timeout_open_fails :
    (disconnect_timeout disconnecting_world (some ⟨42⟩) (-1)).log = [Event.hci_open_dev] ∧
    (disconnect_timeout disconnecting_world (some ⟨42⟩) (-1)).device.disconn_timer = 0 := by
  decide

/-- C20, amended. Disconnect.
* `disconnect` on a device found in the table of active connections emits
  `DisconnectRequested` once, arms `disconnect_timeout` with
  `g_timeout_add_seconds (DISCONNECT_TIMER, ...)`, two seconds, records the
  timer and replies success; these two calls are all it does, so no HCI
  command is sent.
* `disconnect` on a device not in the table returns `NotConnected` and
  changes nothing (no signal, no timer).
* `disconnect_timeout` resets `disconn_timer` to 0 in every case. It sends
  the HCI disconnect command, for the handle of the connection found and
  with reason `HCI_OE_USER_ENDED_CONNECTION`, if and only if the device is in
  the table at that moment and `hci_open_dev` succeeds; with the device in
  the table and `hci_open_dev` failing it only opens; with the device not in
  the table it makes no call. -/
theorem disconnect_then_timeout (w : World) (msg : DBusMessage) (timer_id : Nat) :
    (∀ c : active_conn_info,
      disconnect w msg (some c) timer_id
        = ({ w with
              device := { w.device with disconn_timer := timer_id }
              log := w.log ++ [Event.disconnect_requested,
                Event.g_timeout_add_seconds DISCONNECT_TIMER .disconnect_timeout] },
            DBusReply.method_return)) ∧
    DISCONNECT_TIMER = 2 ∧
    disconnect w msg none timer_id
      = (w, DBusReply.error ".NotConnected" "Device is not connected") ∧
    (∀ ci dd, (disconnect_timeout w ci dd).device.disconn_timer = 0) ∧
    (∀ (c : active_conn_info) (dd : Int), 0 ≤ dd →
      (disconnect_timeout w (some c) dd).log
        = w.log ++ [Event.hci_open_dev,
            Event.hci_send_cmd_disconnect c.handle HCI_OE_USER_ENDED_CONNECTION,
            Event.close dd]) ∧
    (∀ (c : active_conn_info) (dd : Int), dd < 0 →
      (disconnect_timeout w (some c) dd).log = w.log ++ [Event.hci_open_dev]) ∧
    (∀ dd, (disconnect_timeout w none dd).log = w.log) := by
  refine ⟨fun c => rfl, rfl, rfl, ?_, ?_, ?_, fun dd => rfl⟩
  · intro ci dd
    unfold disconnect_timeout
    cases ci with
    | none => rfl
    | some c =>
      simp only
      split <;> rfl
  · intro c dd hdd
    unfold disconnect_timeout
    simp only
    rw [if_neg (not_lt.mpr hdd)]
  · intro c dd hdd
    unfold disconnect_timeout
    simp only
    rw [if_pos hdd]

theorem disconnect_then_timeout_witness :
    (disconnect_timeout disconnecting_world (some ⟨42⟩) 3).log
      = disconnecting_world.log ++ [Event.hci_open_dev,
          Event.hci_send_cmd_disconnect 42 HCI_OE_USER_ENDED_CONNECTION, Event.close 3] ∧
    (disconnect_timeout disconnecting_world (some ⟨42⟩) (-1)).log
      = disconnecting_world.log ++ [Event.hci_open_dev] :=
  ⟨(disconnect_then_timeout disconnecting_world (cancel_msg ":1.7") 9).2.2.2.2.1 ⟨42⟩ 3
      (by decide),
   (disconnect_then_timeout disconnecting_world (cancel_msg ":1.7") 9).2.2.2.2.2.1 ⟨42⟩ (-1)
      (by decide)⟩

/-! ## The requestor exits -/

/-- C15, as stated, fails: in `sweep_world` a session requested by `:1.7`
is in flight. When the requestor-exit handler runs and the transport cancel
fails (`-61`), the device is still busy, the session is still live with its
search outstanding, and the requestor and its watch are still recorded; the
one call made is `bt_cancel_discovery`. -/
theorem requestor_exit_keeps_session :
    sweep_world.heap.length = 1 ∧
    (discover_services_req_exit sweep_world (-61)).device.discov_active = 1 ∧
    (discover_services_req_exit sweep_world (-61)).heap.length = 1 ∧
    (discover_services_req_exit sweep_world (-61)).outstanding.length = 1 ∧
    (discover_services_req_exit sweep_world (-61)).device.discov_requestor = some ":1.7" ∧
    (discover_services_req_exit sweep_world (-61)).device.discov_listener = 1 ∧
    (discover_services_req_exit sweep_world (-61)).log
      = sweep_world.log ++ [Event.bt_cancel_discovery] := by
  decide

/-- C15, amended. The requestor-exit handler `discover_services_req_exit`
only calls `bt_cancel_discovery` and drops its result: whether the cancel
succeeds or fails, the device (its `discov_active` flag included), the
session and the outstanding search are what they were. The flag is cleared
and the session released when the outstanding search of the session is
completed afterwards with an error, as for an aborted search: `search_cb`
runs and frees the session, leaving the device idle with no requestor. -/
theorem requestor_exit_only_cancels (env : Env) (w : World) (rc : Int) :
    discover_services_req_exit w rc = { w with log := w.log ++ [Event.bt_cancel_discovery] } ∧
    (∀ (p : Pending) (req : browse_req) (recs : sdp_list_t) (err rc2 : Int),
      w.outstanding = [p] → w.heap = [(p.user_data, req)] → err < 0 →
      complete env (discover_services_req_exit w rc) 0 recs err rc2
        = search_cb env
            { w with log := w.log ++ [Event.bt_cancel_discovery], outstanding := [] }
            p.user_data req recs err ∧
      (complete env (discover_services_req_exit w rc) 0 recs err rc2).idle ∧
      (complete env (discover_services_req_exit w rc) 0 recs err rc2).device.discov_requestor
        = none) := by
  have hexit : discover_services_req_exit w rc
      = { w with log := w.log ++ [Event.bt_cancel_discovery] } := rfl
  refine ⟨hexit, ?_⟩
  intro p req recs err rc2 hout hheap herr
  have hc := complete_head env (discover_services_req_exit w rc) p req recs err rc2 hout hheap
  have heq : complete env (discover_services_req_exit w rc) 0 recs err rc2
      = search_cb env
          { w with log := w.log ++ [Event.bt_cancel_discovery], outstanding := [] }
          p.user_data req recs err := by
    rw [hc]
    cases p.cb with
    | search_cb => rfl
    | browse_cb => exact browse_cb_done env _ _ _ _ _ _ (Or.inl herr)
  refine ⟨heq, ?_, ?_⟩
  · rw [heq]
    refine ⟨search_cb_active _ _ _ _ _ _, ?_, ?_⟩
    · rw [search_cb_heap]
      simp [hheap]
    · rw [search_cb_outstanding]
  · rw [heq]
    unfold search_cb
    exact browse_req_free_requestor _ _ _

theorem requestor_exit_only_cancels_witness :
    sweep_world.outstanding = [⟨.uuid16 PUBLIC_BROWSE_GROUP, .browse_cb, 1⟩] ∧
    (complete sample_env (discover_services_req_exit sweep_world (-61)) 0 [] (-5) 0).idle :=
  ⟨by decide,
    ((requestor_exit_only_cancels sample_env sweep_world (-61)).2
      ⟨.uuid16 PUBLIC_BROWSE_GROUP, .browse_cb, 1⟩
      (browse_session (World.start [hid_driver] (device_create "/dev")) (some 1)
        (some (discover_msg "")) none false)
      [] (-5) 0 (by decide) rfl (by decide)).2.1⟩

/-! ## The calls made by reconciliation -/

theorem update_services_pnp_events (uuid_str : String) (r : sdp_record_t) (e : Event)
    (he : e ∈ update_services_pnp uuid_str r) :
    ∃ a b c d, e = Event.store_device_id a b c d := by
  unfold update_services_pnp at he
  split at he
  · simp only at he
    split at he
    · exact ⟨_, _, _, _, List.mem_singleton.mp he⟩
    · exact absurd he (List.not_mem_nil _)
  · exact absurd he (List.not_mem_nil _)

theorem update_services_rec_events (env : Env) (device : btd_device) (req : browse_req)
    (r : sdp_record_t) (e : Event) (he : e ∈ (update_services_rec env device req r).2) :
    (∃ a b c d, e = Event.store_device_id a b c d) ∨ ∃ h, e = Event.store_record h := by
  cases h1 : r.svclass with
  | none => simp [update_services_rec, h1] at he
  | some c =>
    obtain ⟨cls, others⟩ := c
    cases h2 : env.bt_uuid2string cls with
    | none => simp [update_services_rec, h1, h2] at he
    | some uuid_str =>
      cases h3 : sdp_list_find req.records r with
      | some found =>
        simp only [update_services_rec, h1, h2, h3] at he
        exact Or.inl (update_services_pnp_events _ _ _ he)
      | none =>
        cases h5 : g_slist_find_custom device.uuids uuid_str strcmp <;>
          simp only [update_services_rec, h1, h2, h3, h5] at he <;>
          rcases List.mem_append.mp he with h | h
        · exact Or.inl (update_services_pnp_events _ _ _ h)
        · exact Or.inr ⟨_, List.mem_singleton.mp h⟩
        · exact Or.inl (update_services_pnp_events _ _ _ h)
        · exact Or.inr ⟨_, List.mem_singleton.mp h⟩

theorem update_services_events (env : Env) (device : btd_device) (recs : sdp_list_t)
    (req : browse_req) (e : Event) (he : e ∈ (update_services env device req recs).2) :
    (∃ a b c d, e = Event.store_device_id a b c d) ∨ ∃ h, e = Event.store_record h := by
  induction recs generalizing req with
  | nil => simp [update_services] at he
  | cons o seq ih =>
    cases o with
    | none => simp [update_services] at he
    | some r =>
      simp only [update_services] at he
      rcases List.mem_append.mp he with h | h
      · exact update_services_rec_events env device req r e h
      · exact ih _ h

theorem probe_drivers_loop_events (env : Env) (uuids : List String)
    (recs : List sdp_record_t) (drivers : List btd_device_driver)
    (attached : List btd_driver_data) (e : Event)
    (he : e ∈ (probe_drivers_loop env uuids recs drivers attached).2) :
    ∃ name records result, e = Event.probe name records result := by
  induction drivers generalizing attached with
  | nil => simp [probe_drivers_loop] at he
  | cons d more ih =>
    unfold probe_drivers_loop at he
    simp only at he
    split at he
    · exact ih attached he
    · split at he
      · rcases List.mem_cons.mp he with h | h
        · exact ⟨_, _, _, h⟩
        · exact ih attached h
      · rcases List.mem_cons.mp he with h | h
        · exact ⟨_, _, _, h⟩
        · exact ih _ h

theorem remove_calls_events (env : Env) (name : String) (uuids : List String)
    (recs : List sdp_record_t) (declared : List String) (e : Event)
    (he : e ∈ remove_calls env name uuids recs declared) :
    (∃ n, e = Event.remove n) ∨ ∃ h, e = Event.delete_record h := by
  induction declared with
  | nil => simp [remove_calls] at he
  | cons u more ih =>
    unfold remove_calls at he
    split at he
    · exact ih he
    · split at he
      · rcases List.mem_cons.mp he with h | h
        · exact Or.inl ⟨_, h⟩
        · exact ih h
      · rcases List.mem_cons.mp he with h | h
        · exact Or.inl ⟨_, h⟩
        · rcases List.mem_cons.mp h with h | h
          · exact Or.inr ⟨_, h⟩
          · exact ih h

theorem remove_drivers_loop_events (env : Env) (uuids : List String)
    (recs : List sdp_record_t) (attached : List btd_driver_data) (e : Event)
    (he : e ∈ (remove_drivers_loop env uuids recs attached).2) :
    (∃ n, e = Event.remove n) ∨ ∃ h, e = Event.delete_record h := by
  induction attached with
  | nil => simp [remove_drivers_loop] at he
  | cons d more ih =>
    simp only [remove_drivers_loop] at he
    rcases List.mem_append.mp he with h | h
    · exact remove_calls_events env _ uuids recs _ e h
    · exact ih h

theorem search_cb_update_frame (env : Env) (drivers : List btd_device_driver)
    (device : btd_device) (req : browse_req) (recs : sdp_list_t) (err : Int) :
    (search_cb_update env drivers device req recs err).1.discov_requestor
      = device.discov_requestor ∧
    (search_cb_update env drivers device req recs err).1.discov_listener
      = device.discov_listener ∧
    (search_cb_update env drivers device req recs err).1.discov_timer
      = device.discov_timer := by
  unfold search_cb_update
  split
  · exact ⟨rfl, rfl, rfl⟩
  · simp only
    split
    · exact ⟨rfl, rfl, rfl⟩
    · simp only [device_probe_drivers, device_remove_drivers]
      split <;> split <;> exact ⟨rfl, rfl, rfl⟩

/-- The log `search_cb` leaves: the calls of the reconciliation, those from
`proceed` on, and the removal of the requestor watch if one is recorded. -/
theorem search_cb_log (env : Env) (w : World) (a : Nat) (req : browse_req)
    (recs : sdp_list_t) (err : Int) :
    (search_cb env w a req recs err).log
      = w.log ++ (search_cb_update env w.device_drivers w.device req recs err).2.2
          ++ search_cb_proceed env
              (search_cb_update env w.device_drivers w.device req recs err).1
              (search_cb_update env w.device_drivers w.device req recs err).2.1
          ++ (match w.device.discov_requestor with
              | some _ => [Event.remove_watch w.device.discov_listener]
              | none => []) := by
  obtain ⟨hreq, hlis, _⟩ :=
    search_cb_update_frame env w.device_drivers w.device req recs err
  unfold search_cb browse_req_free
  simp only [hreq, hlis]
  cases w.device.discov_requestor <;> simp

/-! ## The notification and the persisted profile list -/

theorem notifications_append (l1 l2 : List Event) :
    uuids_notifications (l1 ++ l2) = uuids_notifications l1 ++ uuids_notifications l2 := by
  simp [uuids_notifications, List.filterMap_append]

theorem writes_append (l1 l2 : List Event) :
    profile_writes (l1 ++ l2) = profile_writes l1 ++ profile_writes l2 := by
  simp [profile_writes, List.filterMap_append]

theorem update_services_silent (env : Env) (device : btd_device) (req : browse_req)
    (recs : sdp_list_t) :
    uuids_notifications (update_services env device req recs).2 = [] ∧
    profile_writes (update_services env device req recs).2 = [] := by
  constructor
  · unfold uuids_notifications
    rw [List.filterMap_eq_nil_iff]
    intro e he
    rcases update_services_events env device recs req e he with ⟨_, _, _, _, h⟩ | ⟨_, h⟩ <;>
      rw [h]
  · unfold profile_writes
    rw [List.filterMap_eq_nil_iff]
    intro e he
    rcases update_services_events env device recs req e he with ⟨_, _, _, _, h⟩ | ⟨_, h⟩ <;>
      rw [h]

theorem probe_drivers_silent (env : Env) (drivers : List btd_device_driver)
    (device : btd_device) (uuids : List String) (recs : List sdp_record_t) :
    uuids_notifications (device_probe_drivers env drivers device uuids recs).2 = [] ∧
    profile_writes (device_probe_drivers env drivers device uuids recs).2 = [] := by
  constructor
  · unfold uuids_notifications
    rw [List.filterMap_eq_nil_iff]
    intro e he
    obtain ⟨_, _, _, h⟩ := probe_drivers_loop_events env uuids recs drivers _ e he
    rw [h]
  · unfold profile_writes
    rw [List.filterMap_eq_nil_iff]
    intro e he
    obtain ⟨_, _, _, h⟩ := probe_drivers_loop_events env uuids recs drivers _ e he
    rw [h]

theorem remove_drivers_silent (env : Env) (device : btd_device) (uuids : List String)
    (recs : List sdp_record_t) :
    uuids_notifications (device_remove_drivers env device uuids recs).2 = [] ∧
    profile_writes (device_remove_drivers env device uuids recs).2 = [] := by
  constructor
  · unfold uuids_notifications
    rw [List.filterMap_eq_nil_iff]
    intro e he
    rcases remove_drivers_loop_events env uuids recs _ e he with ⟨_, h⟩ | ⟨_, h⟩ <;> rw [h]
  · unfold profile_writes
    rw [List.filterMap_eq_nil_iff]
    intro e he
    rcases remove_drivers_loop_events env uuids recs _ e he with ⟨_, h⟩ | ⟨_, h⟩ <;> rw [h]

theorem search_cb_update_signals (env : Env) (drivers : List btd_device_driver)
    (device : btd_device) (req : browse_req) (recs : sdp_list_t) (err : Int) :
    uuids_notifications (search_cb_update env drivers device req recs err).2.2
      = (if 0 ≤ err ∧ ((update_services env device req recs).1.uuids_added ≠ [] ∨
            (update_services env device req recs).1.uuids_removed ≠ []) then
          [(search_cb_update env drivers device req recs err).1.uuids]
        else []) ∧
    profile_writes (search_cb_update env drivers device req recs err).2.2 = [] := by
  unfold search_cb_update
  by_cases herr : err < 0
  · have hn : ¬ (0 ≤ err ∧ ((update_services env device req recs).1.uuids_added ≠ [] ∨
        (update_services env device req recs).1.uuids_removed ≠ [])) :=
      fun h => absurd h.1 (not_le.mpr herr)
    rw [if_pos herr, if_neg hn]
    exact ⟨rfl, rfl⟩
  · rw [if_neg herr]
    simp only
    by_cases hnone : (update_services env device req recs).1.uuids_added = [] ∧
        (update_services env device req recs).1.uuids_removed = []
    · have hn : ¬ (0 ≤ err ∧ ((update_services env device req recs).1.uuids_added ≠ [] ∨
          (update_services env device req recs).1.uuids_removed ≠ [])) := by
        intro h
        rcases h.2 with h2 | h2
        · exact h2 hnone.1
        · exact h2 hnone.2
      rw [if_pos hnone, if_neg hn]
      exact update_services_silent env device req recs
    · have hy : 0 ≤ err ∧ ((update_services env device req recs).1.uuids_added ≠ [] ∨
          (update_services env device req recs).1.uuids_removed ≠ []) := by
        refine ⟨not_lt.mp herr, ?_⟩
        by_contra hc
        apply hnone
        constructor
        · by_contra h1
          exact hc (Or.inl h1)
        · by_contra h2
          exact hc (Or.inr h2)
      rw [if_neg hnone, if_pos hy]
      simp only [notifications_append, writes_append,
        (update_services_silent env device req recs).1,
        (update_services_silent env device req recs).2]
      constructor
      · have hp : uuids_notifications
            (if (update_services env device req recs).1.uuids_added ≠ [] then
              device_probe_drivers env drivers device
                (update_services env device req recs).1.uuids_added
                (update_services env device req recs).1.records
            else (device, [])).2 = [] := by
          split
          · exact (probe_drivers_silent _ _ _ _ _).1
          · rfl
        have hr : uuids_notifications
            (if (update_services env device req recs).1.uuids_removed ≠ [] then
              device_remove_drivers env
                (if (update_services env device req recs).1.uuids_added ≠ [] then
                  device_probe_drivers env drivers device
                    (update_services env device req recs).1.uuids_added
                    (update_services env device req recs).1.records
                else (device, [])).1
                (update_services env device req recs).1.uuids_removed
                (update_services env device req recs).1.records
            else ((if (update_services env device req recs).1.uuids_added ≠ [] then
                  device_probe_drivers env drivers device
                    (update_services env device req recs).1.uuids_added
                    (update_services env device req recs).1.records
                else (device, [])).1, [])).2 = [] := by
          split
          · exact (remove_drivers_silent _ _ _ _).1
          · rfl
        rw [hp, hr]
        rfl
      · have hp : profile_writes
            (if (update_services env device req recs).1.uuids_added ≠ [] then
              device_probe_drivers env drivers device
                (update_services env device req recs).1.uuids_added
                (update_services env device req recs).1.records
            else (device, [])).2 = [] := by
          split
          · exact (probe_drivers_silent _ _ _ _ _).2
          · rfl
        have hr : profile_writes
            (if (update_services env device req recs).1.uuids_removed ≠ [] then
              device_remove_drivers env
                (if (update_services env device req recs).1.uuids_added ≠ [] then
                  device_probe_drivers env drivers device
                    (update_services env device req recs).1.uuids_added
                    (update_services env device req recs).1.records
                else (device, [])).1
                (update_services env device req recs).1.uuids_removed
                (update_services env device req recs).1.records
            else ((if (update_services env device req recs).1.uuids_added ≠ [] then
                  device_probe_drivers env drivers device
                    (update_services env device req recs).1.uuids_added
                    (update_services env device req recs).1.records
                else (device, [])).1, [])).2 = [] := by
          split
          · exact (remove_drivers_silent _ _ _ _).2
          · rfl
        rw [hp, hr]
        rfl

theorem search_cb_proceed_signals (env : Env) (device : btd_device) (req : browse_req) :
    uuids_notifications (search_cb_proceed env device req) = [] ∧
    profile_writes (search_cb_proceed env device req)
      = [if device.uuids = [] then "" else env.bt_list2string device.uuids] := by
  unfold search_cb_proceed store
  cases hm : req.msg with
  | none =>
    by_cases hu : device.uuids = [] <;> simp [hu, uuids_notifications, profile_writes]
  | some m =>
    by_cases hd : dbus_message_is_method_call m DEVICE_INTERFACE "DiscoverServices" = true <;>
      by_cases hu : device.uuids = [] <;>
      simp [hu, hd, uuids_notifications, profile_writes]

/-- C13. UUID-changed notification. For every session, record list and error
code, the calls `search_cb` adds to the log contain
* exactly one `UUIDs` property-changed notification, carrying the known UUID
  list the device has when `search_cb` returns, if the completion is
  error-free and the session's added or removed list, the answer processed,
  is not empty, and no such notification in every other case;
* exactly one `write_device_profiles`, of the empty string when that known
  list is empty and of its `bt_list2string` otherwise. -/
theorem uuids_changed_notification (env : Env) (w : World) (a : Nat) (req : browse_req)
    (recs : sdp_list_t) (err : Int) :
    uuids_notifications (search_cb env w a req recs err).log
      = uuids_notifications w.log ++
        (if 0 ≤ err ∧ ((update_services env w.device req recs).1.uuids_added ≠ [] ∨
            (update_services env w.device req recs).1.uuids_removed ≠ []) then
          [(search_cb env w a req recs err).device.uuids]
        else []) ∧
    profile_writes (search_cb env w a req recs err).log
      = profile_writes w.log ++
        [if (search_cb env w a req recs err).device.uuids = [] then ""
          else env.bt_list2string (search_cb env w a req recs err).device.uuids] := by
  have hwatch : uuids_notifications (match w.device.discov_requestor with
        | some _ => [Event.remove_watch w.device.discov_listener]
        | none => []) = [] ∧
      profile_writes (match w.device.discov_requestor with
        | some _ => [Event.remove_watch w.device.discov_listener]
        | none => []) = [] := by
    cases w.device.discov_requestor <;> exact ⟨rfl, rfl⟩
  obtain ⟨hs1, hs2⟩ := search_cb_update_signals env w.device_drivers w.device req recs err
  obtain ⟨hp1, hp2⟩ := search_cb_proceed_signals env
    (search_cb_update env w.device_drivers w.device req recs err).1
    (search_cb_update env w.device_drivers w.device req recs err).2.1
  rw [search_cb_log, search_cb_uuids]
  constructor
  · rw [notifications_append, notifications_append, notifications_append, hs1, hp1,
      hwatch.1, List.append_nil, List.append_nil]
  · rw [writes_append, writes_append, writes_append, hs2, hp2, hwatch.2, List.append_nil,
      List.append_nil]

/-! ## The end of a session -/

theorem browse_req_free_released (w : World) (a : Nat) (req : browse_req)
    (hw : w.watch_consistent) :
    (browse_req_free w a req).device.discov_active = 0 ∧
    (browse_req_free w a req).device.discov_requestor = none ∧
    (browse_req_free w a req).device.discov_listener = 0 := by
  refine ⟨browse_req_free_active w a req, browse_req_free_requestor w a req, ?_⟩
  unfold browse_req_free
  cases h : w.device.discov_requestor with
  | none => simpa [h] using hw h
  | some r => simp [h]

theorem browse_req_free_log (w : World) (a : Nat) (req : browse_req) :
    (browse_req_free w a req).log
      = w.log ++ (match w.device.discov_requestor with
          | some _ => [Event.remove_watch w.device.discov_listener]
          | none => []) := by
  unfold browse_req_free
  cases h : w.device.discov_requestor with
  | none => simp [h]
  | some r => simp [h]

theorem browse_prepare_watch_consistent (w : World) (conn : Option DBusConnection)
    (msg : Option DBusMessage) (search : Option uuid_t) (reverse : Bool)
    (hw : w.watch_consistent) :
    (browse_prepare w conn msg search reverse).watch_consistent := by
  unfold browse_prepare
  cases msg with
  | none => exact hw
  | some m =>
    intro h
    exact absurd h (by simp)

theorem device_browse_watch_consistent (w : World) (conn : Option DBusConnection)
    (msg : Option DBusMessage) (search : Option uuid_t) (reverse : Bool) (rc : Int)
    (hw : w.watch_consistent) :
    (device_browse w conn msg search reverse rc).1.watch_consistent := by
  unfold device_browse
  by_cases hbusy : w.device.discov_active ≠ 0
  · rw [if_pos hbusy]
    exact hw
  · rw [if_neg hbusy]
    have hp : (bt_search_service (browse_prepare w conn msg search reverse)
        (browse_first_uuid search) (browse_first_cb search) w.next_addr rc).1.watch_consistent := by
      unfold World.watch_consistent
      rw [bt_search_service_device]
      exact browse_prepare_watch_consistent w conn msg search reverse hw
    simp only
    split
    · intro _
      exact (browse_req_free_released _ w.next_addr
        (browse_session w conn msg search reverse) hp).2.2
    · exact hp

theorem search_cb_released (env : Env) (w : World) (a : Nat) (req : browse_req)
    (recs : sdp_list_t) (err : Int) (hw : w.watch_consistent) :
    (search_cb env w a req recs err).device.discov_active = 0 ∧
    (search_cb env w a req recs err).device.discov_requestor = none ∧
    (search_cb env w a req recs err).device.discov_listener = 0 := by
  obtain ⟨hr, hl, _⟩ := search_cb_update_frame env w.device_drivers w.device req recs err
  unfold search_cb
  apply browse_req_free_released
  intro h
  have h1 : (search_cb_update env w.device_drivers w.device req recs err).1.discov_requestor
      = none := h
  rw [hr] at h1
  have h2 := hw h1
  rw [← hl] at h2
  exact h2

theorem search_cb_watch_consistent (env : Env) (w : World) (a : Nat) (req : browse_req)
    (recs : sdp_list_t) (err : Int) (hw : w.watch_consistent) :
    (search_cb env w a req recs err).watch_consistent :=
  fun _ => (search_cb_released env w a req recs err hw).2.2

theorem heap_set_device (w : World) (a : Nat) (req : browse_req) :
    (heap_set w a req).device = w.device := rfl

theorem browse_cb_watch_consistent (env : Env) (w : World) (a : Nat) (req : browse_req)
    (recs : sdp_list_t) (err : Int) (rc : Int) (hw : w.watch_consistent) :
    (browse_cb env w a req recs err rc).watch_consistent := by
  unfold browse_cb
  split
  · intro _
    exact (search_cb_released env w a req recs err hw).2.2
  · simp only
    split
    · unfold World.watch_consistent
      rw [bt_search_service_device]
      exact hw
    · split
      · unfold World.watch_consistent
        rw [bt_search_service_device]
        exact hw
      · split
        · unfold World.watch_consistent
          rw [bt_search_service_device]
          exact hw
        · apply search_cb_watch_consistent
          exact hw

theorem complete_watch_consistent (env : Env) (w : World) (k : Nat) (recs : sdp_list_t)
    (err : Int) (rc : Int) (hw : w.watch_consistent) :
    (complete env w k recs err rc).watch_consistent := by
  unfold complete
  split
  · exact hw
  · simp only
    split
    · exact hw
    · split
      · apply search_cb_watch_consistent
        exact hw
      · apply browse_cb_watch_consistent
        exact hw

theorem step_watch_consistent (env : Env) (w : World) (s : Step) (hw : w.watch_consistent) :
    (step env w s).watch_consistent := by
  cases s with
  | browse conn msg search reverse rc =>
    exact device_browse_watch_consistent w conn msg search reverse rc hw
  | complete k recs err rc => exact complete_watch_consistent env w k recs err rc hw

/-- Every world reached from a watch-consistent one by `device_browse` calls
and completions is watch-consistent; a fresh device is. -/
theorem run_watch_consistent (env : Env) (steps : List Step) (w : World)
    (hw : w.watch_consistent) : (run env w steps).watch_consistent := by
  induction steps generalizing w with
  | nil => exact hw
  | cons s rest ih =>
    exact ih (step env w s) (step_watch_consistent env w s hw)

theorem start_watch_consistent (device_drivers : List btd_device_driver) (path : String) :
    (World.start device_drivers (device_create path)).watch_consistent :=
  fun _ => rfl

/-- The other entry points keep watch-consistency as well: the timer
callbacks, `device_set_paired`, the method handlers and the watch callback. -/
theorem entry_points_watch_consistent (env : Env) (w : World) (hw : w.watch_consistent) :
    (∀ rc, (start_discovery w rc).watch_consistent) ∧
    (∀ conn bonding timer_id rc,
      (device_set_paired w conn bonding timer_id rc).1.watch_consistent) ∧
    (∀ conn msg rc, (discover_services env w conn msg rc).1.watch_consistent) ∧
    (∀ msg rc, (cancel_discover w msg rc).1.watch_consistent) ∧
    (∀ rc, (discover_services_req_exit w rc).watch_consistent) ∧
    (∀ msg dev timer_id, (disconnect w msg dev timer_id).1.watch_consistent) ∧
    (∀ ci dd, (disconnect_timeout w ci dd).watch_consistent) := by
  refine ⟨?_, ?_, ?_, ?_, ?_, ?_, ?_⟩
  · intro rc
    exact device_browse_watch_consistent w none none none true rc hw
  · intro conn bonding timer_id rc
    unfold device_set_paired
    cases bonding with
    | some b =>
      simp only
      apply device_browse_watch_consistent
      split <;> exact hw
    | none =>
      simp only
      split <;> exact hw
  · intro conn msg rc
    unfold discover_services
    split
    · exact hw
    · split
      · exact hw
      · split
        · simp only
          split <;> exact device_browse_watch_consistent w _ _ _ _ rc hw
        · simp only
          split
          · exact hw
          · split <;> exact device_browse_watch_consistent w _ _ _ _ rc hw
  · intro msg rc
    unfold cancel_discover
    split
    · exact hw
    · split
      · exact hw
      · split
        · exact hw
        · simp only
          split <;> exact hw
  · intro rc
    exact hw
  · intro msg dev timer_id
    unfold disconnect
    cases dev <;> exact hw
  · intro ci dd
    unfold disconnect_timeout
    cases ci with
    | none => exact hw
    | some c =>
      simp only
      split <;> exact hw

/-- C14. Session end always releases the device. In a world in which no
recorded requestor means no recorded watch (every world reached from a fresh
device is such a world), for every session, record list and error code, when
`search_cb` returns the device has `discov_active = 0`, no requestor and
`discov_listener = 0`, and the last call logged is the removal of the watch
if a requestor was recorded; likewise when `device_browse` is called on a
device that is not busy and the transport refuses the search: the result is
the negative one of the transport, the device has `discov_active = 0`, no
requestor and `discov_listener = 0`, and the watch added for a caller is
removed again. -/
theorem session_end_releases_device (env : Env) (w : World) (a : Nat) (req : browse_req)
    (recs : sdp_list_t) (err : Int) (hw : w.watch_consistent) :
    ((search_cb env w a req recs err).device.discov_active = 0 ∧
      (search_cb env w a req recs err).device.discov_requestor = none ∧
      (search_cb env w a req recs err).device.discov_listener = 0 ∧
      (w.device.discov_requestor ≠ none →
        ∃ calls, (search_cb env w a req recs err).log
          = w.log ++ calls ++ [Event.remove_watch w.device.discov_listener])) ∧
    ∀ (conn : Option DBusConnection) (msg : Option DBusMessage) (search : Option uuid_t)
      (reverse : Bool) (rc : Int), w.device.discov_active = 0 → rc < 0 →
      (device_browse w conn msg search reverse rc).2 = rc ∧
      (device_browse w conn msg search reverse rc).1.device.discov_active = 0 ∧
      (device_browse w conn msg search reverse rc).1.device.discov_requestor = none ∧
      (device_browse w conn msg search reverse rc).1.device.discov_listener = 0 ∧
      (device_browse w conn msg search reverse rc).1.log
        = w.log ++
          (match msg with
            | some m => [Event.add_disconnect_watch m.sender]
            | none => []) ++
          [Event.bt_search_service (browse_first_uuid search) (browse_first_cb search)
            w.next_addr] ++
          (match msg with
            | some _ => [Event.remove_watch w.next_watch]
            | none =>
              match w.device.discov_requestor with
              | some _ => [Event.remove_watch w.device.discov_listener]
              | none => []) := by
  constructor
  · obtain ⟨h1, h2, h3⟩ := search_cb_released env w a req recs err hw
    refine ⟨h1, h2, h3, ?_⟩
    intro hreq
    rw [search_cb_log]
    cases hr : w.device.discov_requestor with
    | none => exact absurd hr hreq
    | some r =>
      exact ⟨(search_cb_update env w.device_drivers w.device req recs err).2.2
        ++ search_cb_proceed env
          (search_cb_update env w.device_drivers w.device req recs err).1
          (search_cb_update env w.device_drivers w.device req recs err).2.1,
        by simp [List.append_assoc]⟩
  · intro conn msg search reverse rc hidle hrc
    rw [device_browse_refused w conn msg search reverse rc hidle hrc]
    have hp : (bt_search_service (browse_prepare w conn msg search reverse)
        (browse_first_uuid search) (browse_first_cb search) w.next_addr rc).1.watch_consistent := by
      unfold World.watch_consistent
      rw [bt_search_service_device]
      exact browse_prepare_watch_consistent w conn msg search reverse hw
    obtain ⟨h1, h2, h3⟩ := browse_req_free_released _ w.next_addr
      (browse_session w conn msg search reverse) hp
    refine ⟨rfl, h1, h2, h3, ?_⟩
    simp only
    rw [browse_req_free_log, bt_search_service_device, bt_search_service_log]
    unfold browse_prepare
    cases msg with
    | none => simp
    | some m => simp

theorem session_end_releases_device_witness :
    requested_world.watch_consistent ∧
    (search_cb sample_env requested_world 1 exhausted_req [] 0).device.discov_active = 0 ∧
    (search_cb sample_env requested_world 1 exhausted_req [] 0).device.discov_requestor = none ∧
    (search_cb sample_env requested_world 1 exhausted_req [] 0).device.discov_listener = 0 :=
  have hw : requested_world.watch_consistent := fun h => absurd h (by decide)
  have h := (session_end_releases_device sample_env requested_world 1 exhausted_req [] 0 hw).1
  ⟨hw, h.1, h.2.1, h.2.2.1⟩

/-! ## Duplicate suppression by handle -/

theorem side_add (known added removed : List String) (s : String)
    (h : SideInv known added removed) (hs : s ∉ known) :
    SideInv known (added ++ [s]) removed ∧
    ∀ u, classified known (added ++ [s]) removed u ↔
      classified known added removed u ∨ u = s := by
  constructor
  · refine ⟨?_, h.removed_known, h.removed_nodup⟩
    intro u hu
    rcases List.mem_append.mp hu with hu | hu
    · exact h.added_new u hu
    · rw [List.mem_singleton.mp hu]
      exact hs
  · intro u
    unfold classified
    rw [List.mem_append, List.mem_singleton]
    tauto

theorem side_erase (known added removed : List String) (s : String)
    (h : SideInv known added removed) (hs : s ∈ known) :
    SideInv known added (removed.erase s) ∧
    ∀ u, classified known added (removed.erase s) u ↔
      classified known added removed u ∨ u = s := by
  constructor
  · refine ⟨h.added_new, ?_, List.Nodup.erase _ h.removed_nodup⟩
    intro u hu
    exact h.removed_known u (List.mem_of_mem_erase hu)
  · intro u
    unfold classified
    rw [List.Nodup.mem_erase_iff h.removed_nodup]
    constructor
    · intro hu
      rcases hu with hu | ⟨hk, hn⟩
      · exact Or.inl (Or.inl hu)
      · by_cases hus : u = s
        · exact Or.inr hus
        · exact Or.inl (Or.inr ⟨hk, fun hr => hn ⟨hus, hr⟩⟩)
    · intro hu
      rcases hu with (hu | ⟨hk, hn⟩) | hus
      · exact Or.inl hu
      · exact Or.inr ⟨hk, fun hr => hn hr.2⟩
      · exact Or.inr ⟨hus ▸ hs, fun hr => hr.1 hus⟩

/-- The classification at the end of one iteration of `update_services`,
on one side. -/
theorem side_classify (device : btd_device) (added removed : List String) (s : String)
    (h : SideInv device.uuids added removed) :
    (match g_slist_find_custom device.uuids s strcmp with
      | none =>
        SideInv device.uuids (added ++ [s]) removed ∧
        ∀ u, classified device.uuids (added ++ [s]) removed u ↔
          classified device.uuids added removed u ∨ u = s
      | some data =>
        SideInv device.uuids added (removed.erase data) ∧
        ∀ u, classified device.uuids added (removed.erase data) u ↔
          classified device.uuids added removed u ∨ u = s) := by
  cases hf : g_slist_find_custom device.uuids s strcmp with
  | none => exact side_add _ _ _ s h ((find_custom_strcmp_none _ _).1 hf)
  | some data =>
    obtain ⟨hd, hm⟩ := find_custom_strcmp_some _ _ _ hf
    rw [hd]
    exact side_erase _ _ _ s h hm

theorem pair_update_services_rec (env : Env) (d1 d2 : btd_device) (r1 r2 : browse_req)
    (r : sdp_record_t) (h : PairInv d1.uuids d2.uuids r1 r2) :
    PairInv d1.uuids d2.uuids (update_services_rec env d1 r1 r).1
      (update_services_rec env d2 r2 r).1 := by
  cases h1 : r.svclass with
  | none =>
    simp only [update_services_rec, h1]
    exact h
  | some c =>
    obtain ⟨cls, others⟩ := c
    cases h2 : env.bt_uuid2string cls with
    | none =>
      simp only [update_services_rec, h1, h2]
      exact h
    | some uuid_str =>
      cases h3 : sdp_list_find r1.records r with
      | some found =>
        have h3' : sdp_list_find r2.records r = some found := by
          rw [← h.records_eq]
          exact h3
        simp only [update_services_rec, h1, h2, h3, h3']
        exact ⟨by simp only [h.uuids_eq], h.records_eq, h.search_uuid_eq, h.side1, h.side2,
          h.same⟩
      | none =>
        have h3' : sdp_list_find r2.records r = none := by
          rw [← h.records_eq]
          exact h3
        have s1 := side_classify d1 r1.uuids_added r1.uuids_removed uuid_str h.side1
        have s2 := side_classify d2 r2.uuids_added r2.uuids_removed uuid_str h.side2
        cases h4 : env.sdp_copy r <;>
          cases h5 : g_slist_find_custom d1.uuids uuid_str strcmp <;>
          cases h6 : g_slist_find_custom d2.uuids uuid_str strcmp <;>
          simp only [h5] at s1 <;>
          simp only [h6] at s2 <;>
          simp only [update_services_rec, h1, h2, h3, h3', h4, h5, h6] <;>
          exact ⟨by simp only [h.uuids_eq], by simp only [h.records_eq], h.search_uuid_eq,
            s1.1, s2.1,
            fun u => (s1.2 u).trans ((or_congr_left (h.same u)).trans (s2.2 u).symm)⟩

theorem pair_update_services (env : Env) (d1 d2 : btd_device) (recs : sdp_list_t)
    (r1 r2 : browse_req) (h : PairInv d1.uuids d2.uuids r1 r2) :
    PairInv d1.uuids d2.uuids (update_services env d1 r1 recs).1
      (update_services env d2 r2 recs).1 := by
  induction recs generalizing r1 r2 with
  | nil => exact h
  | cons o seq ih =>
    cases o with
    | none => exact h
    | some r =>
      simp only [update_services]
      exact ih _ _ (pair_update_services_rec env d1 d2 r1 r2 r h)

theorem driver_calls_append (l1 l2 : List Event) :
    driver_calls (l1 ++ l2) = driver_calls l1 ++ driver_calls l2 := by
  simp [driver_calls]

theorem update_services_no_driver_calls (env : Env) (device : btd_device) (req : browse_req)
    (recs : sdp_list_t) : driver_calls (update_services env device req recs).2 = [] := by
  unfold driver_calls
  rw [List.filter_eq_nil_iff]
  intro e he
  rcases update_services_events env device recs req e he with ⟨_, _, _, _, h⟩ | ⟨_, h⟩ <;>
    rw [h] <;> simp

theorem search_cb_proceed_no_driver_calls (env : Env) (device : btd_device)
    (req : browse_req) : driver_calls (search_cb_proceed env device req) = [] := by
  unfold search_cb_proceed store
  cases hm : req.msg with
  | none =>
    by_cases hu : device.uuids = [] <;> simp [hu, driver_calls]
  | some m =>
    by_cases hd : dbus_message_is_method_call m DEVICE_INTERFACE "DiscoverServices" = true <;>
      by_cases hu : device.uuids = [] <;>
      simp [hu, hd, driver_calls]

theorem search_cb_freed_eq (env : Env) (drivers : List btd_device_driver)
    (device : btd_device) (req : browse_req) (recs : sdp_list_t) (err : Int)
    (herr : 0 ≤ err) :
    search_cb_freed env drivers device req recs err
      = (update_services env device req recs).1 := by
  unfold search_cb_freed search_cb_update
  rw [if_neg (not_lt.mpr herr)]
  simp only
  split <;> rfl

/-- A `search_cb` that finds the added and the removed list empty leaves the
known list and the attached drivers alone, and calls neither a driver nor
the `UUIDs` notification. -/
theorem search_cb_quiet (env : Env) (w : World) (a : Nat) (req : browse_req)
    (recs : sdp_list_t) (err : Int) (herr : 0 ≤ err)
    (hadd : (update_services env w.device req recs).1.uuids_added = [])
    (hrem : (update_services env w.device req recs).1.uuids_removed = []) :
    (search_cb env w a req recs err).device.uuids = w.device.uuids ∧
    (search_cb env w a req recs err).device.drivers = w.device.drivers ∧
    uuids_notifications (search_cb env w a req recs err).log = uuids_notifications w.log ∧
    driver_calls (search_cb env w a req recs err).log = driver_calls w.log := by
  have hupd : search_cb_update env w.device_drivers w.device req recs err
      = (w.device, (update_services env w.device req recs).1,
          (update_services env w.device req recs).2) := by
    unfold search_cb_update
    rw [if_neg (not_lt.mpr herr)]
    simp only
    rw [if_pos ⟨hadd, hrem⟩]
  have hwatch : uuids_notifications (match w.device.discov_requestor with
        | some _ => [Event.remove_watch w.device.discov_listener]
        | none => []) = [] ∧
      driver_calls (match w.device.discov_requestor with
        | some _ => [Event.remove_watch w.device.discov_listener]
        | none => []) = [] := by
    cases w.device.discov_requestor <;> exact ⟨rfl, rfl⟩
  refine ⟨?_, ?_, ?_, ?_⟩
  · rw [search_cb_uuids, hupd]
  · unfold search_cb
    rw [browse_req_free_drivers, hupd]
  · rw [search_cb_log, hupd]
    rw [notifications_append, notifications_append, notifications_append,
      (update_services_silent env w.device req recs).1,
      (search_cb_proceed_signals env w.device _).1, hwatch.1]
    simp
  · rw [search_cb_log, hupd]
    rw [driver_calls_append, driver_calls_append, driver_calls_append,
      update_services_no_driver_calls, search_cb_proceed_no_driver_calls, hwatch.2]
    simp

theorem complete_freed_idle (env : Env) (w : World) (k : Nat) (recs : sdp_list_t) (err : Int)
    (hout : w.outstanding = []) : complete_freed env w k recs err = none := by
  have hnone : w.outstanding.get? k = none := by simp [hout]
  simp only [complete_freed, hnone]

theorem freed_sessions_idle (env : Env) (w : World) (cs : List Completion)
    (hout : w.outstanding = []) : freed_sessions env w cs = [] := by
  induction cs with
  | nil => rfl
  | cons c more ih =>
    simp only [freed_sessions]
    rw [complete_freed_idle env w 0 c.recs c.err hout,
      complete_idle env w 0 c.recs c.err c.rc hout, ih]
    rfl

theorem complete_freed_head (env : Env) (w : World) (p : Pending) (req : browse_req)
    (recs : sdp_list_t) (err : Int) (hout : w.outstanding = [p])
    (hheap : w.heap = [(p.user_data, req)]) :
    complete_freed env w 0 recs err =
      match p.cb with
      | .search_cb => some (search_cb_freed env w.device_drivers w.device req recs err)
      | .browse_cb => browse_cb_freed env w req recs err := by
  have hlook : List.lookup p.user_data w.heap = some req := by
    simp [hheap, List.lookup]
  unfold complete_freed
  rw [hout]
  simp only [List.get?_cons_zero, hlook]

theorem browse_cb_freed_done (env : Env) (w : World) (req : browse_req) (recs : sdp_list_t)
    (err : Int) (h : err < 0 ∨ (req.search_uuid = 1 ∧ recs ≠ [])) :
    browse_cb_freed env w req recs err
      = some (search_cb_freed env w.device_drivers w.device req recs err) := by
  unfold browse_cb_freed
  rw [if_pos h]

theorem browse_cb_freed_next_fixed (env : Env) (w : World) (req : browse_req)
    (recs : sdp_list_t) (err : Int)
    (hcont : ¬ (err < 0 ∨ (req.search_uuid = 1 ∧ recs ≠ [])))
    (hfix : uuid_list_at req.search_uuid ≠ 0) :
    browse_cb_freed env w req recs err = none := by
  unfold browse_cb_freed
  rw [if_neg hcont]
  simp only [update_services_search_uuid]
  rw [if_pos hfix]

theorem browse_cb_freed_next_driver (env : Env) (w : World) (req : browse_req)
    (recs : sdp_list_t) (err : Int) (uuid_str : String) (rest : List String)
    (hcont : ¬ (err < 0 ∨ (req.search_uuid = 1 ∧ recs ≠ [])))
    (hfix : uuid_list_at req.search_uuid = 0)
    (hpend : (update_services env w.device req recs).1.uuids = uuid_str :: rest) :
    browse_cb_freed env w req recs err = none := by
  unfold browse_cb_freed
  rw [if_neg hcont]
  simp only [update_services_search_uuid]
  have hfix' : ¬ uuid_list_at req.search_uuid ≠ 0 := not_not.mpr hfix
  rw [if_neg hfix']
  simp only [hpend]

theorem browse_cb_freed_l2cap (env : Env) (w : World) (req : browse_req)
    (recs : sdp_list_t) (err : Int)
    (hcont : ¬ (err < 0 ∨ (req.search_uuid = 1 ∧ recs ≠ [])))
    (hfix : uuid_list_at req.search_uuid = 0)
    (hpend : (update_services env w.device req recs).1.uuids = [])
    (hrecs : (update_services env w.device req recs).1.records = []) :
    browse_cb_freed env w req recs err = none := by
  unfold browse_cb_freed
  rw [if_neg hcont]
  simp only [update_services_search_uuid]
  have hfix' : ¬ uuid_list_at req.search_uuid ≠ 0 := not_not.mpr hfix
  rw [if_neg hfix']
  simp only [hpend]
  rw [if_pos hrecs]

theorem browse_cb_freed_finish (env : Env) (w : World) (req : browse_req)
    (recs : sdp_list_t) (err : Int)
    (hcont : ¬ (err < 0 ∨ (req.search_uuid = 1 ∧ recs ≠ [])))
    (hfix : uuid_list_at req.search_uuid = 0)
    (hpend : (update_services env w.device req recs).1.uuids = [])
    (hrecs : (update_services env w.device req recs).1.records ≠ []) :
    browse_cb_freed env w req recs err
      = some (search_cb_freed env w.device_drivers w.device
          (update_services env w.device req recs).1 recs err) := by
  unfold browse_cb_freed
  rw [if_neg hcont]
  simp only [update_services_search_uuid]
  have hfix' : ¬ uuid_list_at req.search_uuid ≠ 0 := not_not.mpr hfix
  rw [if_neg hfix']
  simp only [hpend]
  rw [if_neg hrecs]

/-- Two sessions in step end in `search_cb` on the same answer. -/
theorem lockstep_end (env : Env) (v1 v2 : World) (a1 a2 : Nat) (q1 q2 x : browse_req)
    (recs : sdp_list_t) (err : Int) (herr : 0 ≤ err)
    (hpair : PairInv v1.device.uuids v2.device.uuids q1 q2)
    (ho1 : v1.outstanding = []) (ho2 : v2.outstanding = []) (hh2 : v2.heap = [(a2, x)]) :
    (search_cb env v1 a1 q1 recs err).outstanding = [] ∧
    (search_cb env v2 a2 q2 recs err).outstanding = [] ∧
    (search_cb env v2 a2 q2 recs err).heap = [] ∧
    ∃ r1 r2, PairInv v1.device.uuids v2.device.uuids r1 r2 ∧
      (search_cb env v1 a1 q1 recs err).device.uuids
        = remove_uuids (insert_uuids v1.device.uuids r1.uuids_added) r1.uuids_removed ∧
      some (search_cb_freed env v2.device_drivers v2.device q2 recs err) = some r2 ∧
      (r2.uuids_added = [] → r2.uuids_removed = [] →
        (search_cb env v2 a2 q2 recs err).device.uuids = v2.device.uuids ∧
        (search_cb env v2 a2 q2 recs err).device.drivers = v2.device.drivers ∧
        uuids_notifications (search_cb env v2 a2 q2 recs err).log
          = uuids_notifications v2.log ∧
        driver_calls (search_cb env v2 a2 q2 recs err).log = driver_calls v2.log) := by
  refine ⟨?_, ?_, ?_, (update_services env v1.device q1 recs).1,
    (update_services env v2.device q2 recs).1,
    pair_update_services env v1.device v2.device recs q1 q2 hpair, ?_,
    congrArg some (search_cb_freed_eq env _ _ q2 recs err herr), ?_⟩
  · rw [search_cb_outstanding, ho1]
  · rw [search_cb_outstanding, ho2]
  · rw [search_cb_heap, hh2]
    simp
  · rw [search_cb_uuids, search_cb_update_uuids env _ _ q1 recs err herr]
  · intro hadd hrem
    exact search_cb_quiet env v2 a2 q2 recs err herr hadd hrem

/-- Two sessions in step issue their next search. -/
theorem lockstep_issue (v1 v2 : World) (a1 a2 : Nat) (x1 x2 q1 q2 : browse_req)
    (uuid1 uuid2 : uuid_t) (cb : bt_callback_t) (rc : Int) (ev1 ev2 : List Event)
    (hpair : PairInv v1.device.uuids v2.device.uuids q1 q2)
    (hh1 : v1.heap = [(a1, x1)]) (hh2 : v2.heap = [(a2, x2)])
    (ho1 : v1.outstanding = []) (ho2 : v2.outstanding = [])
    (hn : uuids_notifications ev2 = []) (hd : driver_calls ev2 = []) :
    (0 ≤ rc →
      Live v1.device.uuids v2.device.uuids
        (bt_search_service (heap_set { v1 with log := v1.log ++ ev1 } a1 q1) uuid1 cb a1 rc).1
        (bt_search_service (heap_set { v2 with log := v2.log ++ ev2 } a2 q2) uuid2 cb a2 rc).1 ∧
      (bt_search_service (heap_set { v2 with log := v2.log ++ ev2 } a2 q2) uuid2 cb a2 rc).1.device
        = v2.device ∧
      uuids_notifications
          (bt_search_service (heap_set { v2 with log := v2.log ++ ev2 } a2 q2)
            uuid2 cb a2 rc).1.log
        = uuids_notifications v2.log ∧
      driver_calls
          (bt_search_service (heap_set { v2 with log := v2.log ++ ev2 } a2 q2)
            uuid2 cb a2 rc).1.log
        = driver_calls v2.log) ∧
    (rc < 0 →
      (bt_search_service (heap_set { v1 with log := v1.log ++ ev1 } a1 q1)
          uuid1 cb a1 rc).1.outstanding = [] ∧
      (bt_search_service (heap_set { v1 with log := v1.log ++ ev1 } a1 q1)
          uuid1 cb a1 rc).1.heap ≠ []) := by
  constructor
  · intro hrc
    refine ⟨⟨?_, ?_, a1, a2, q1, q2, uuid1, uuid2, cb,
      issue_heap v1 a1 x1 q1 uuid1 cb rc ev1 hh1, issue_heap v2 a2 x2 q2 uuid2 cb rc ev2 hh2,
      issue_outstanding v1 a1 q1 uuid1 cb rc ev1 ho1 hrc,
      issue_outstanding v2 a2 q2 uuid2 cb rc ev2 ho2 hrc, hpair⟩, ?_, ?_, ?_⟩
    · rw [bt_search_service_device]
      rfl
    · rw [bt_search_service_device]
      rfl
    · rw [bt_search_service_device]
      rfl
    · rw [bt_search_service_log]
      show uuids_notifications (v2.log ++ ev2 ++ _) = _
      rw [notifications_append, notifications_append, hn]
      simp [uuids_notifications]
    · rw [bt_search_service_log]
      show driver_calls (v2.log ++ ev2 ++ _) = _
      rw [driver_calls_append, driver_calls_append, hd]
      simp [driver_calls]
  · intro hrc
    constructor
    · rw [bt_search_service_refused _ _ _ _ _ hrc]
      exact ho1
    · rw [issue_heap v1 a1 x1 q1 uuid1 cb rc ev1 hh1]
      simp

/-- One completion delivered to two sweeps in step: both go on in step, or
both are left without outstanding search by a refused follow-up, or both end
in `search_cb`. -/
theorem lockstep_step (env : Env) (w1 w2 : World) (recs : sdp_list_t) (err rc : Int)
    (herr : 0 ≤ err) (hlive : Live w1.device.uuids w2.device.uuids w1 w2) :
    (Live w1.device.uuids w2.device.uuids (complete env w1 0 recs err rc)
        (complete env w2 0 recs err rc) ∧
      complete_freed env w2 0 recs err = none ∧
      (complete env w2 0 recs err rc).device = w2.device ∧
      uuids_notifications (complete env w2 0 recs err rc).log = uuids_notifications w2.log ∧
      driver_calls (complete env w2 0 recs err rc).log = driver_calls w2.log) ∨
    ((complete env w1 0 recs err rc).outstanding = [] ∧
      (complete env w1 0 recs err rc).heap ≠ []) ∨
    ((complete env w1 0 recs err rc).outstanding = [] ∧
      (complete env w2 0 recs err rc).outstanding = [] ∧
      (complete env w2 0 recs err rc).heap = [] ∧
      ∃ r1 r2, PairInv w1.device.uuids w2.device.uuids r1 r2 ∧
        (complete env w1 0 recs err rc).device.uuids
          = remove_uuids (insert_uuids w1.device.uuids r1.uuids_added) r1.uuids_removed ∧
        complete_freed env w2 0 recs err = some r2 ∧
        (r2.uuids_added = [] → r2.uuids_removed = [] →
          (complete env w2 0 recs err rc).device.uuids = w2.device.uuids ∧
          (complete env w2 0 recs err rc).device.drivers = w2.device.drivers ∧
          uuids_notifications (complete env w2 0 recs err rc).log
            = uuids_notifications w2.log ∧
          driver_calls (complete env w2 0 recs err rc).log = driver_calls w2.log)) := by
  obtain ⟨_, _, a1, a2, r1, r2, u1, u2, cb, hh1, hh2, ho1, ho2, hpair⟩ := hlive
  rw [complete_head env w1 ⟨u1, cb, a1⟩ r1 recs err rc ho1 hh1,
    complete_head env w2 ⟨u2, cb, a2⟩ r2 recs err rc ho2 hh2,
    complete_freed_head env w2 ⟨u2, cb, a2⟩ r2 recs err ho2 hh2]
  cases cb with
  | search_cb =>
    exact Or.inr (Or.inr (lockstep_end env { w1 with outstanding := [] }
      { w2 with outstanding := [] } a1 a2 r1 r2 r2 recs err herr hpair rfl rfl hh2))
  | browse_cb =>
    simp only
    by_cases hdone : err < 0 ∨ (r1.search_uuid = 1 ∧ recs ≠ [])
    · have hdone2 : err < 0 ∨ (r2.search_uuid = 1 ∧ recs ≠ []) := by
        rw [← hpair.search_uuid_eq]
        exact hdone
      rw [browse_cb_done _ _ _ _ _ _ _ hdone, browse_cb_done _ _ _ _ _ _ _ hdone2,
        browse_cb_freed_done _ _ _ _ _ hdone2]
      exact Or.inr (Or.inr (lockstep_end env { w1 with outstanding := [] }
        { w2 with outstanding := [] } a1 a2 r1 r2 r2 recs err herr hpair rfl rfl hh2))
    · have hcont2 : ¬ (err < 0 ∨ (r2.search_uuid = 1 ∧ recs ≠ [])) := by
        rw [← hpair.search_uuid_eq]
        exact hdone
      have hp := pair_update_services env w1.device w2.device recs r1 r2 hpair
      have hsil := update_services_silent env w2.device r2 recs
      have hnd := update_services_no_driver_calls env w2.device r2 recs
      by_cases hfix : uuid_list_at r1.search_uuid ≠ 0
      · have hfix2 : uuid_list_at r2.search_uuid ≠ 0 := by
          rw [← hpair.search_uuid_eq]
          exact hfix
        rw [browse_cb_next_fixed _ _ _ _ _ _ _ hdone hfix,
          browse_cb_next_fixed _ _ _ _ _ _ _ hcont2 hfix2,
          browse_cb_freed_next_fixed _ _ _ _ _ hcont2 hfix2]
        have hq : PairInv w1.device.uuids w2.device.uuids
            { (update_services env w1.device r1 recs).1 with
              search_uuid := r1.search_uuid + 1 }
            { (update_services env w2.device r2 recs).1 with
              search_uuid := r2.search_uuid + 1 } :=
          ⟨hp.uuids_eq, hp.records_eq,
            by show r1.search_uuid + 1 = r2.search_uuid + 1; rw [hpair.search_uuid_eq],
            hp.side1, hp.side2, hp.same⟩
        have hi := lockstep_issue { w1 with outstanding := [] } { w2 with outstanding := [] }
          a1 a2 r1 r2 _ _ (.uuid16 (uuid_list_at r1.search_uuid))
          (.uuid16 (uuid_list_at r2.search_uuid)) .browse_cb rc
          (update_services env w1.device r1 recs).2 (update_services env w2.device r2 recs).2
          hq hh1 hh2 rfl rfl hsil.1 hnd
        by_cases hrc : 0 ≤ rc
        · obtain ⟨hl, hdv, hno, hdc⟩ := hi.1 hrc
          exact Or.inl ⟨hl, rfl, hdv, hno, hdc⟩
        · exact Or.inr (Or.inl (hi.2 (not_le.mp hrc)))
      · have hfix1 : uuid_list_at r1.search_uuid = 0 := not_not.mp hfix
        have hfix2 : uuid_list_at r2.search_uuid = 0 := by
          rw [← hpair.search_uuid_eq]
          exact hfix1
        cases hpend : (update_services env w1.device r1 recs).1.uuids with
        | cons uuid_str rest =>
          have hpend2 : (update_services env w2.device r2 recs).1.uuids = uuid_str :: rest := by
            rw [← hp.uuids_eq]
            exact hpend
          rw [browse_cb_next_driver env { w1 with outstanding := [] } a1 r1 recs err rc
              uuid_str rest hdone hfix1 hpend,
            browse_cb_next_driver env { w2 with outstanding := [] } a2 r2 recs err rc
              uuid_str rest hcont2 hfix2 hpend2,
            browse_cb_freed_next_driver env w2 r2 recs err uuid_str rest hcont2 hfix2 hpend2]
          have hq : PairInv w1.device.uuids w2.device.uuids
              { (update_services env w1.device r1 recs).1 with uuids := rest }
              { (update_services env w2.device r2 recs).1 with uuids := rest } :=
            ⟨rfl, hp.records_eq, hp.search_uuid_eq, hp.side1, hp.side2, hp.same⟩
          have hi := lockstep_issue { w1 with outstanding := [] }
            { w2 with outstanding := [] }
            a1 a2 r1 r2 _ _ (env.bt_string2uuid uuid_str).2 (env.bt_string2uuid uuid_str).2
            .browse_cb rc
            (update_services env w1.device r1 recs).2
            (update_services env w2.device r2 recs).2
            hq hh1 hh2 rfl rfl hsil.1 hnd
          by_cases hrc : 0 ≤ rc
          · obtain ⟨hl, hdv, hno, hdc⟩ := hi.1 hrc
            exact Or.inl ⟨hl, rfl, hdv, hno, hdc⟩
          · exact Or.inr (Or.inl (hi.2 (not_le.mp hrc)))
        | nil =>
          have hpend2 : (update_services env w2.device r2 recs).1.uuids = [] := by
            rw [← hp.uuids_eq]
            exact hpend
          by_cases hrecs : (update_services env w1.device r1 recs).1.records = []
          · have hrecs2 : (update_services env w2.device r2 recs).1.records = [] := by
              rw [← hp.records_eq]
              exact hrecs
            rw [browse_cb_l2cap env { w1 with outstanding := [] } a1 r1 recs err rc
                hdone hfix1 hpend hrecs,
              browse_cb_l2cap env { w2 with outstanding := [] } a2 r2 recs err rc
                hcont2 hfix2 hpend2 hrecs2,
              browse_cb_freed_l2cap env w2 r2 recs err hcont2 hfix2 hpend2 hrecs2]
            have hi := lockstep_issue { w1 with outstanding := [] }
              { w2 with outstanding := [] }
              a1 a2 r1 r2 _ _ (.uuid16 L2CAP_UUID) (.uuid16 L2CAP_UUID) .search_cb rc
              (update_services env w1.device r1 recs).2
              (update_services env w2.device r2 recs).2
              hp hh1 hh2 rfl rfl hsil.1 hnd
            by_cases hrc : 0 ≤ rc
            · obtain ⟨hl, hdv, hno, hdc⟩ := hi.1 hrc
              exact Or.inl ⟨hl, rfl, hdv, hno, hdc⟩
            · exact Or.inr (Or.inl (hi.2 (not_le.mp hrc)))
          · have hrecs2 : (update_services env w2.device r2 recs).1.records ≠ [] := by
              rw [← hp.records_eq]
              exact hrecs
            rw [browse_cb_finish env { w1 with outstanding := [] } a1 r1 recs err rc
                hdone hfix1 hpend hrecs,
              browse_cb_finish env { w2 with outstanding := [] } a2 r2 recs err rc
                hcont2 hfix2 hpend2 hrecs2,
              browse_cb_freed_finish env w2 r2 recs err hcont2 hfix2 hpend2 hrecs2]
            have hheap2 : (heap_set
                { ({ w2 with outstanding := [] } : World) with
                  log := w2.log ++ (update_services env w2.device r2 recs).2 } a2
                (update_services env w2.device r2 recs).1).heap
                = [(a2, (update_services env w2.device r2 recs).1)] := by
              simp [heap_set, hh2]
            obtain ⟨e1, e2, e3, q1, q2, hq, hu, hf, hquiet⟩ :=
              lockstep_end env
                (heap_set
                  { ({ w1 with outstanding := [] } : World) with
                    log := w1.log ++ (update_services env w1.device r1 recs).2 } a1
                  (update_services env w1.device r1 recs).1)
                (heap_set
                  { ({ w2 with outstanding := [] } : World) with
                    log := w2.log ++ (update_services env w2.device r2 recs).2 } a2
                  (update_services env w2.device r2 recs).1)
                a1 a2 _ _ _ recs err herr hp rfl rfl hheap2
            refine Or.inr (Or.inr ⟨e1, e2, e3, q1, q2, hq, hu, hf, ?_⟩)
            intro hadd hrem
            obtain ⟨c1, c2, c3, c4⟩ := hquiet hadd hrem
            refine ⟨c1, c2, ?_, ?_⟩
            · rw [c3]
              show uuids_notifications (w2.log ++ _) = _
              rw [notifications_append, hsil.1, List.append_nil]
            · rw [c4]
              show driver_calls (w2.log ++ _) = _
              rw [driver_calls_append, hnd, List.append_nil]

/-- Two sweeps in step that receive the same error-free completions, the
first of which ends: both end, at the same completion. -/
theorem lockstep_deliver (env : Env) (known1 known2 : List String) (cs : List Completion)
    (w1 w2 : World) (herr : ∀ c, c ∈ cs → 0 ≤ c.err) (hlive : Live known1 known2 w1 w2)
    (hdone : (deliver env w1 cs).heap = []) :
    (deliver env w2 cs).heap = [] ∧
    (deliver env w2 cs).outstanding = [] ∧
    ∃ r1 r2, PairInv known1 known2 r1 r2 ∧
      (deliver env w1 cs).device.uuids
        = remove_uuids (insert_uuids known1 r1.uuids_added) r1.uuids_removed ∧
      freed_sessions env w2 cs = [r2] ∧
      (r2.uuids_added = [] → r2.uuids_removed = [] →
        (deliver env w2 cs).device.uuids = known2 ∧
        (deliver env w2 cs).device.drivers = w2.device.drivers ∧
        uuids_notifications (deliver env w2 cs).log = uuids_notifications w2.log ∧
        driver_calls (deliver env w2 cs).log = driver_calls w2.log) := by
  induction cs generalizing w1 w2 with
  | nil =>
    obtain ⟨_, _, a1, a2, r1, r2, u1, u2, cb, hh1, _⟩ := hlive
    rw [deliver_nil, hh1] at hdone
    exact absurd hdone (by simp)
  | cons c more ih =>
    have hk1 := hlive.1
    have hk2 := hlive.2.1
    subst hk1
    subst hk2
    simp only [deliver_cons] at hdone ⊢
    rcases lockstep_step env w1 w2 c.recs c.err c.rc (herr c (List.mem_cons_self _ _)) hlive
      with hgo | hstuck | hend
    · obtain ⟨hl, hf, hdv, hno, hdc⟩ := hgo
      obtain ⟨g1, g2, r1, r2, hp, hu, hfs, hq⟩ :=
        ih _ _ (fun c hc => herr c (List.mem_cons_of_mem _ hc)) hl hdone
      refine ⟨g1, g2, r1, r2, hp, hu, ?_, ?_⟩
      · simp only [freed_sessions]
        rw [hf, hfs]
        rfl
      · intro ha hr
        obtain ⟨c1, c2, c3, c4⟩ := hq ha hr
        refine ⟨c1, ?_, ?_, ?_⟩
        · rw [c2, hdv]
        · rw [c3, hno]
        · rw [c4, hdc]
    · rw [deliver_idle env _ more hstuck.1] at hdone
      exact absurd hdone hstuck.2
    · obtain ⟨e1, e2, e3, r1, r2, hp, hu, hf, hq⟩ := hend
      rw [deliver_idle env _ more e1, deliver_idle env _ more e2]
      refine ⟨e3, e2, r1, r2, hp, hu, ?_, hq⟩
      simp only [freed_sessions]
      rw [hf, freed_sessions_idle env _ more e2]
      rfl

theorem browse_req_free_registry (w : World) (a : Nat) (req : browse_req) :
    (browse_req_free w a req).device_drivers = w.device_drivers := by
  unfold browse_req_free
  cases h : w.device.discov_requestor <;> simp [h]

theorem search_cb_registry (env : Env) (w : World) (a : Nat) (req : browse_req)
    (recs : sdp_list_t) (err : Int) :
    (search_cb env w a req recs err).device_drivers = w.device_drivers := by
  unfold search_cb
  rw [browse_req_free_registry]

theorem browse_cb_registry (env : Env) (w : World) (a : Nat) (req : browse_req)
    (recs : sdp_list_t) (err rc : Int) :
    (browse_cb env w a req recs err rc).device_drivers = w.device_drivers := by
  unfold browse_cb
  split
  · exact search_cb_registry env w a req recs err
  · simp only
    split
    · rw [bt_search_service_drivers]
      rfl
    · split
      · rw [bt_search_service_drivers]
        rfl
      · split
        · rw [bt_search_service_drivers]
          rfl
        · rw [search_cb_registry]
          rfl

theorem complete_registry (env : Env) (w : World) (k : Nat) (recs : sdp_list_t)
    (err rc : Int) : (complete env w k recs err rc).device_drivers = w.device_drivers := by
  unfold complete
  split
  · rfl
  · simp only
    split
    · rfl
    · split
      · rw [search_cb_registry]
      · rw [browse_cb_registry]

theorem deliver_registry (env : Env) (cs : List Completion) (w : World) :
    (deliver env w cs).device_drivers = w.device_drivers := by
  induction cs generalizing w with
  | nil => rfl
  | cons c more ih =>
    rw [deliver_cons, ih, complete_registry]

theorem pair_start (w1 w2 : World) (conn1 conn2 : Option DBusConnection)
    (msg1 msg2 : Option DBusMessage) (hdrv : w2.device_drivers = w1.device_drivers)
    (hn1 : w1.device.uuids.Nodup) (hn2 : w2.device.uuids.Nodup) :
    PairInv w1.device.uuids w2.device.uuids (browse_session w1 conn1 msg1 none false)
      (browse_session w2 conn2 msg2 none false) := by
  refine ⟨?_, ?_, ?_, ⟨?_, ?_, ?_⟩, ⟨?_, ?_, ?_⟩, ?_⟩
  · simp [browse_session, init_browse, browse_req_new, hdrv]
  · simp [browse_session, init_browse, browse_req_new]
  · simp [browse_session, init_browse, browse_req_new]
  · simp [browse_session, init_browse, browse_req_new]
  · simp [browse_session, init_browse, browse_req_new]
  · simpa [browse_session, init_browse, browse_req_new] using hn1
  · simp [browse_session, init_browse, browse_req_new]
  · simp [browse_session, init_browse, browse_req_new]
  · simpa [browse_session, init_browse, browse_req_new] using hn2
  · intro u
    simp [classified, browse_session, init_browse, browse_req_new]

/-- A sweep that has just been started on an idle device, its first search
accepted, has changed neither the known list nor the attached drivers, and
has called neither a driver nor the `UUIDs` notification. -/
theorem device_browse_started_quiet (w : World) (conn : Option DBusConnection)
    (msg : Option DBusMessage) (search : Option uuid_t) (reverse : Bool) (rc : Int)
    (hidle : w.device.discov_active = 0) (hrc : 0 ≤ rc) :
    (device_browse w conn msg search reverse rc).1.device.drivers = w.device.drivers ∧
    uuids_notifications (device_browse w conn msg search reverse rc).1.log
      = uuids_notifications w.log ∧
    driver_calls (device_browse w conn msg search reverse rc).1.log = driver_calls w.log := by
  rw [device_browse_idle w conn msg search reverse rc hidle hrc]
  refine ⟨?_, ?_, ?_⟩
  · rw [bt_search_service_device]
    unfold browse_prepare
    cases msg <;> rfl
  · rw [bt_search_service_log]
    unfold browse_prepare
    cases msg <;> simp [uuids_notifications]
  · rw [bt_search_service_log]
    unfold browse_prepare
    cases msg <;> simp [driver_calls]

theorem pair_final_empty (known1 known2 : List String) (r1 r2 : browse_req)
    (hsorted : strictly_ascending known1) (hp : PairInv known1 known2 r1 r2)
    (hu : known2 = remove_uuids (insert_uuids known1 r1.uuids_added) r1.uuids_removed) :
    r2.uuids_added = [] ∧ r2.uuids_removed = [] := by
  have hmem : ∀ u, u ∈ known2 ↔ classified known1 r1.uuids_added r1.uuids_removed u := by
    intro u
    rw [hu, (remove_uuids_spec r1.uuids_removed _
        (insert_uuids_spec r1.uuids_added known1 hsorted).1).2 u,
      (insert_uuids_spec r1.uuids_added known1 hsorted).2 u]
    unfold classified
    constructor
    · intro h
      rcases h.1 with hk | ha
      · exact Or.inr ⟨hk, h.2⟩
      · exact Or.inl ha
    · intro h
      rcases h with ha | ⟨hk, hn⟩
      · exact ⟨Or.inr ha, fun hr => hp.side1.added_new u ha (hp.side1.removed_known u hr)⟩
      · exact ⟨Or.inl hk, hn⟩
  constructor
  · rw [List.eq_nil_iff_forall_not_mem]
    intro u ha
    have hk : u ∈ known2 := (hmem u).2 ((hp.same u).2 (Or.inl ha))
    exact hp.side2.added_new u ha hk
  · rw [List.eq_nil_iff_forall_not_mem]
    intro u hr
    have hk : u ∈ known2 := hp.side2.removed_known u hr
    rcases (hp.same u).1 ((hmem u).1 hk) with ha | ⟨_, hn⟩
    · exact hp.side2.added_new u ha hk
    · exact hn hr

/-- C11. Idempotence of reconciliation. Take an idle device whose known UUID
list is strictly ascending under `strcmp` (sorted, duplicate-free), any
registered drivers, and any error-free completions. A non-reverse full sweep
is started and the completions are delivered, which ends the sweep (no
session is left); then a second non-reverse full sweep is started and is
delivered the same completions. In the second run
* exactly one session is ended, and when `search_cb` hands it to
  `browse_req_free` its added list and its removed list are empty;
* no driver `probe` or `remove` call is made and no `UUIDs` property-changed
  notification is sent: the log holds those of the first run only;
* the known UUID list and the attached drivers are those the first run
  left;
* no session is left. -/
theorem reconciliation_idempotent (env : Env) (w : World)
    (conn1 conn2 : Option DBusConnection) (msg1 msg2 : Option DBusMessage) (rc1 rc2 : Int)
    (cs : List Completion) (hidle : w.idle) (hsorted : strictly_ascending w.device.uuids)
    (hrc1 : 0 ≤ rc1) (hrc2 : 0 ≤ rc2) (herr : ∀ c, c ∈ cs → 0 ≤ c.err)
    (hdone : (deliver env (device_browse w conn1 msg1 none false rc1).1 cs).heap = []) :
    (∃ r, freed_sessions env
        (device_browse (deliver env (device_browse w conn1 msg1 none false rc1).1 cs)
          conn2 msg2 none false rc2).1 cs = [r] ∧
      r.uuids_added = [] ∧ r.uuids_removed = []) ∧
    driver_calls
        (deliver env
          (device_browse (deliver env (device_browse w conn1 msg1 none false rc1).1 cs)
            conn2 msg2 none false rc2).1 cs).log
      = driver_calls (deliver env (device_browse w conn1 msg1 none false rc1).1 cs).log ∧
    uuids_notifications
        (deliver env
          (device_browse (deliver env (device_browse w conn1 msg1 none false rc1).1 cs)
            conn2 msg2 none false rc2).1 cs).log
      = uuids_notifications
          (deliver env (device_browse w conn1 msg1 none false rc1).1 cs).log ∧
    (deliver env
        (device_browse (deliver env (device_browse w conn1 msg1 none false rc1).1 cs)
          conn2 msg2 none false rc2).1 cs).device.uuids
      = (deliver env (device_browse w conn1 msg1 none false rc1).1 cs).device.uuids ∧
    (deliver env
        (device_browse (deliver env (device_browse w conn1 msg1 none false rc1).1 cs)
          conn2 msg2 none false rc2).1 cs).device.drivers
      = (deliver env (device_browse w conn1 msg1 none false rc1).1 cs).device.drivers ∧
    (deliver env
        (device_browse (deliver env (device_browse w conn1 msg1 none false rc1).1 cs)
          conn2 msg2 none false rc2).1 cs).heap = [] := by
  obtain ⟨hh1, ho1, _, _, hu1, hd1⟩ :=
    device_browse_sweep_started w conn1 msg1 false rc1 hidle hrc1
  -- the first run leaves the device idle
  have hone : (deliver env (device_browse w conn1 msg1 none false rc1).1 cs).at_most_one_session :=
    run_at_most_one env _ _
      (device_browse_at_most_one w conn1 msg1 none false rc1
        (Or.inl ⟨hidle.2.1, hidle.2.2, hidle.1⟩))
  have hidleA : (deliver env (device_browse w conn1 msg1 none false rc1).1 cs).idle := by
    rcases hone with ⟨h1, h2, h3⟩ | ⟨a, req, h1, _⟩
    · exact ⟨h3, h1, h2⟩
    · rw [hdone] at h1
      exact absurd h1 (by simp)
  -- the known list it leaves is strictly ascending
  have hn1 : w.device.uuids.Nodup := strictly_ascending_nodup _ hsorted
  have hself : Live w.device.uuids w.device.uuids
      (device_browse w conn1 msg1 none false rc1).1
      (device_browse w conn1 msg1 none false rc1).1 :=
    ⟨hu1, hu1, _, _, _, _, _, _, _, hh1, hh1, ho1, ho1,
      pair_start w w conn1 conn1 msg1 msg1 rfl hn1 hn1⟩
  obtain ⟨_, _, s1, _, _, hus, _, _⟩ :=
    lockstep_deliver env _ _ cs _ _ herr hself hdone
  have hsortedA : strictly_ascending
      (deliver env (device_browse w conn1 msg1 none false rc1).1 cs).device.uuids := by
    rw [hus]
    exact (remove_uuids_spec _ _ (insert_uuids_spec _ _ hsorted).1).1
  -- the second run, in step with the first
  obtain ⟨hh2, ho2, _, _, hu2, hd2⟩ :=
    device_browse_sweep_started
      (deliver env (device_browse w conn1 msg1 none false rc1).1 cs) conn2 msg2 false rc2
      hidleA hrc2
  have hdrv : (deliver env (device_browse w conn1 msg1 none false rc1).1 cs).device_drivers
      = w.device_drivers := by
    rw [deliver_registry, hd1]
  have hlive : Live w.device.uuids
      (deliver env (device_browse w conn1 msg1 none false rc1).1 cs).device.uuids
      (device_browse w conn1 msg1 none false rc1).1
      (device_browse (deliver env (device_browse w conn1 msg1 none false rc1).1 cs)
        conn2 msg2 none false rc2).1 :=
    ⟨hu1, hu2, _, _, _, _, _, _, _, hh1, hh2, ho1, ho2,
      pair_start w _ conn1 conn2 msg1 msg2 hdrv hn1 (strictly_ascending_nodup _ hsortedA)⟩
  obtain ⟨hheap, _, r1, r2, hp, hu, hfs, hq⟩ :=
    lockstep_deliver env _ _ cs _ _ herr hlive hdone
  obtain ⟨ha, hr⟩ := pair_final_empty _ _ r1 r2 hsorted hp hu
  obtain ⟨c1, c2, c3, c4⟩ := hq ha hr
  obtain ⟨q1, q2, q3⟩ :=
    device_browse_started_quiet
      (deliver env (device_browse w conn1 msg1 none false rc1).1 cs) conn2 msg2 none false rc2
      hidleA.1 hrc2
  exact ⟨⟨r2, hfs, ha, hr⟩, c4.trans q3, c3.trans q2, c1, c2.trans q1, hheap⟩

theorem reconciliation_idempotent_witness :
    serial_world.idle ∧
    strictly_ascending serial_world.device.uuids ∧
    (∀ c, c ∈ sweep_answers → 0 ≤ c.err) ∧
    (deliver sample_env (device_browse serial_world none none none false 0).1
      sweep_answers).heap = [] ∧
    (deliver sample_env (device_browse serial_world none none none false 0).1
      sweep_answers).device.uuids = ["00001124-0000-1000-8000-00805f9b34fb"] ∧
    (deliver sample_env
        (device_browse
          (deliver sample_env (device_browse serial_world none none none false 0).1
            sweep_answers)
          none none none false 0).1 sweep_answers).device.uuids
      = (deliver sample_env (device_browse serial_world none none none false 0).1
          sweep_answers).device.uuids :=
  have hidle : serial_world.idle := ⟨rfl, rfl, rfl⟩
  have hsorted : strictly_ascending serial_world.device.uuids :=
    List.pairwise_singleton _ _
  have herr : ∀ c, c ∈ sweep_answers → 0 ≤ c.err := by decide
  have hdone : (deliver sample_env (device_browse serial_world none none none false 0).1
      sweep_answers).heap = [] := rfl
  ⟨hidle, hsorted, herr, hdone, by decide,
    (reconciliation_idempotent sample_env serial_world none none none none 0 0 sweep_answers
      hidle hsorted (by decide) (by decide) herr hdone).2.2.2.1⟩

/-! ## Probing drivers -/

theorem find_custom_isSome (list : List String) (data : String)
    (func : String → String → Int) :
    (g_slist_find_custom list data func).isSome = list.any (fun e => func e data == 0) := by
  unfold g_slist_find_custom
  induction list with
  | nil => rfl
  | cons e l ih =>
    rw [List.find?_cons, List.any_cons]
    cases func e data == 0
    · simpa using ih
    · rfl

theorem probe_records_eq (env : Env) (uuids : List String) (recs : List sdp_record_t)
    (declared : List String) :
    probe_records env uuids recs declared = matching_records env uuids recs declared := by
  induction declared with
  | nil => rfl
  | cons uuid more ih =>
    have hany := find_custom_isSome uuids uuid strcasecmp
    unfold probe_records matching_records
    rw [List.filterMap_cons]
    cases hf : g_slist_find_custom uuids uuid strcasecmp with
    | none =>
      rw [hf] at hany
      simp only [Option.isSome_none] at hany
      simp only [← hany, Bool.false_eq_true, if_false]
      exact ih
    | some found =>
      rw [hf] at hany
      simp only [Option.isSome_some] at hany
      simp only [← hany, if_true]
      cases hr : env.find_record_in_list recs uuid with
      | none => exact ih
      | some r =>
        simp only
        rw [ih]
        rfl

theorem probe_drivers_loop_eq (env : Env) (uuids : List String) (recs : List sdp_record_t)
    (drivers : List btd_device_driver) (attached : List btd_driver_data) :
    probe_drivers_loop env uuids recs drivers attached
      = (attached ++ (drivers.filter (expected_attach env uuids recs)).map (fun d => ⟨d⟩),
          drivers.filterMap (expected_probe env uuids recs)) := by
  induction drivers generalizing attached with
  | nil => simp [probe_drivers_loop]
  | cons driver more ih =>
    unfold probe_drivers_loop
    simp only [probe_records_eq]
    by_cases hrec : matching_records env uuids recs driver.uuids = []
    · rw [if_pos hrec, ih attached]
      simp [expected_attach, expected_probe, hrec]
    · rw [if_neg hrec]
      by_cases herr : driver.probe (matching_records env uuids recs driver.uuids) < 0
      · have hn : ¬ 0 ≤ driver.probe (matching_records env uuids recs driver.uuids) :=
          not_le.mpr herr
        simp only [herr, if_true]
        rw [ih attached]
        simp [expected_attach, expected_probe, hrec, hn]
      · have hp : 0 ≤ driver.probe (matching_records env uuids recs driver.uuids) :=
          not_lt.mp herr
        simp only [herr, if_false]
        rw [ih (attached ++ [(⟨driver⟩ : btd_driver_data)])]
        simp [expected_attach, expected_probe, hrec, hp]

theorem mem_insert_uuids (uuids known : List String) (u : String) :
    u ∈ insert_uuids known uuids ↔ u ∈ known ∨ u ∈ uuids := by
  induction uuids generalizing known with
  | nil => simp [insert_uuids]
  | cons x more ih =>
    unfold insert_uuids
    cases hf : g_slist_find_custom known x strcmp with
    | some found =>
      obtain ⟨_, hx⟩ := find_custom_strcmp_some known x found hf
      simp only
      rw [ih known, List.mem_cons]
      constructor
      · rintro (h | h)
        · exact Or.inl h
        · exact Or.inr (Or.inr h)
      · rintro (h | h | h)
        · exact Or.inl h
        · exact Or.inl (h ▸ hx)
        · exact Or.inr h
    | none =>
      simp only
      rw [ih _, mem_insert_sorted, List.mem_cons]
      tauto

theorem matching_records_ne_nil (env : Env) (uuids : List String) (recs : List sdp_record_t)
    (declared : List String) :
    matching_records env uuids recs declared ≠ [] ↔
      ∃ u, u ∈ declared ∧ (∃ e, e ∈ uuids ∧ strcasecmp e u = 0) ∧
        (env.find_record_in_list recs u).isSome = true := by
  unfold matching_records
  rw [Ne, List.filterMap_eq_nil_iff]
  constructor
  · intro h
    by_contra hc
    apply h
    intro u hu
    by_cases hany : uuids.any (fun e => strcasecmp e u == 0) = true
    · rw [if_pos hany]
      cases hr : env.find_record_in_list recs u with
      | none => rfl
      | some r =>
        exfalso
        apply hc
        obtain ⟨e, he, hz⟩ := List.any_eq_true.mp hany
        exact ⟨u, hu, ⟨e, he, by simpa using hz⟩, by rw [hr]; rfl⟩
    · rw [if_neg hany]
  · rintro ⟨u, hu, ⟨e, he, hz⟩, hsome⟩ h
    have hany : uuids.any (fun e => strcasecmp e u == 0) = true :=
      List.any_eq_true.mpr ⟨e, he, by simpa using hz⟩
    have := h u hu
    rw [if_pos hany] at this
    rw [this] at hsome
    exact absurd hsome (by simp)

/-- C22. Driver probing. For every registry, device, UUID list and record
list, with `matching_records` the records found for the UUIDs a driver
declares, in declared order, that are in the UUID list under
case-insensitive comparison:
* the `probe` calls of `device_probe_drivers` are, in registration order,
  one call for every registered driver that has a matching record, with its
  matching records, and no call for the others, whatever the calls return;
* the inner loop of the source collects exactly `matching_records`, and a
  driver has a matching record if and only if one of its declared UUIDs is
  in the UUID list, case-insensitively, and has a record in the record list;
* the attachments afterwards are the earlier ones followed, in registration
  order, by the drivers that have a matching record and whose `probe` did
  not return a negative value;
* the known list afterwards holds exactly the known UUIDs and the given
  UUIDs, whatever the calls returned. -/
theorem probe_drivers_contract (env : Env) (drivers : List btd_device_driver)
    (device : btd_device) (uuids : List String) (recs : List sdp_record_t) :
    (device_probe_drivers env drivers device uuids recs).2
      = drivers.filterMap (expected_probe env uuids recs) ∧
    (∀ declared, probe_records env uuids recs declared
      = matching_records env uuids recs declared) ∧
    (∀ declared, matching_records env uuids recs declared ≠ [] ↔
      ∃ u, u ∈ declared ∧ (∃ e, e ∈ uuids ∧ strcasecmp e u = 0) ∧
        (env.find_record_in_list recs u).isSome = true) ∧
    (device_probe_drivers env drivers device uuids recs).1.drivers
      = device.drivers ++
        (drivers.filter (expected_attach env uuids recs)).map (fun d => ⟨d⟩) ∧
    (device_probe_drivers env drivers device uuids recs).1.uuids
      = insert_uuids device.uuids uuids ∧
    (∀ u, u ∈ (device_probe_drivers env drivers device uuids recs).1.uuids ↔
      u ∈ device.uuids ∨ u ∈ uuids) := by
  refine ⟨?_, probe_records_eq env uuids recs, matching_records_ne_nil env uuids recs,
    ?_, rfl, ?_⟩
  · unfold device_probe_drivers
    rw [probe_drivers_loop_eq]
  · unfold device_probe_drivers
    rw [probe_drivers_loop_eq]
  · intro u
    exact mem_insert_uuids uuids device.uuids u

/-! ## The known list stays sorted -/

/-- C26. Known-UUID list invariant. If the known UUID list of a device is
strictly ascending under `strcmp` (sorted byte-wise, no duplicates), it is
strictly ascending after `device_probe_drivers` with any UUID list,
repetitions and known UUIDs included, and any registered drivers, whatever
their `probe` returns, and after `device_remove_drivers` with any list of
UUIDs to remove. -/
theorem known_list_stays_ascending (env : Env) (drivers : List btd_device_driver)
    (device : btd_device) (uuids removed : List String) (recs : List sdp_record_t)
    (h : strictly_ascending device.uuids) :
    strictly_ascending (device_probe_drivers env drivers device uuids recs).1.uuids ∧
    strictly_ascending (device_remove_drivers env device removed recs).1.uuids :=
  ⟨(insert_uuids_spec uuids device.uuids h).1, (remove_uuids_spec removed device.uuids h).1⟩

theorem known_list_stays_ascending_witness :
    strictly_ascending two_known_device.uuids ∧
    (device_probe_drivers sample_env [hid_driver] two_known_device
        ["00001200-0000-1000-8000-00805f9b34fb", "00001101-0000-1000-8000-00805f9b34fb",
          "00001200-0000-1000-8000-00805f9b34fb"] []).1.uuids
      = ["00001101-0000-1000-8000-00805f9b34fb", "00001124-0000-1000-8000-00805f9b34fb",
          "00001200-0000-1000-8000-00805f9b34fb"] ∧
    strictly_ascending
      (device_probe_drivers sample_env [hid_driver] two_known_device
        ["00001200-0000-1000-8000-00805f9b34fb", "00001101-0000-1000-8000-00805f9b34fb",
          "00001200-0000-1000-8000-00805f9b34fb"] []).1.uuids ∧
    strictly_ascending
      (device_remove_drivers sample_env two_known_device
        ["00001124-0000-1000-8000-00805f9b34fb"] []).1.uuids :=
  have h : strictly_ascending two_known_device.uuids := by
    unfold strictly_ascending
    decide
  ⟨h, by decide,
    (known_list_stays_ascending sample_env [hid_driver] two_known_device
      ["00001200-0000-1000-8000-00805f9b34fb", "00001101-0000-1000-8000-00805f9b34fb",
        "00001200-0000-1000-8000-00805f9b34fb"]
      ["00001124-0000-1000-8000-00805f9b34fb"] [] h).1,
    (known_list_stays_ascending sample_env [hid_driver] two_known_device
      ["00001200-0000-1000-8000-00805f9b34fb", "00001101-0000-1000-8000-00805f9b34fb",
        "00001200-0000-1000-8000-00805f9b34fb"]
      ["00001124-0000-1000-8000-00805f9b34fb"] [] h).2⟩

/-! ## Removing drivers -/

theorem strcasecmp_eq_zero (a b : String) :
    strcasecmp a b = 0 ↔ a.data.map Char.toLower = b.data.map Char.toLower :=
  strcmp_chars_eq_zero _ _

theorem strcasecmp_self (a : String) : strcasecmp a a = 0 :=
  (strcasecmp_eq_zero a a).2 rfl

theorem strcasecmp_symm (a b : String) (h : strcasecmp a b = 0) : strcasecmp b a = 0 :=
  (strcasecmp_eq_zero b a).2 ((strcasecmp_eq_zero a b).1 h).symm

theorem strcasecmp_trans (a b c : String) (hab : strcasecmp a b = 0)
    (hbc : strcasecmp b c = 0) : strcasecmp a c = 0 :=
  (strcasecmp_eq_zero a c).2
    (((strcasecmp_eq_zero a b).1 hab).trans ((strcasecmp_eq_zero b c).1 hbc))

theorem case_mem_iff (list : List String) (uuid : String) :
    case_mem list uuid = true ↔ ∃ e, e ∈ list ∧ strcasecmp e uuid = 0 := by
  unfold case_mem
  rw [List.any_eq_true]
  constructor
  · rintro ⟨e, he, hz⟩
    exact ⟨e, he, by simpa using hz⟩
  · rintro ⟨e, he, hz⟩
    exact ⟨e, he, by simpa using hz⟩

theorem find_custom_case_mem (list : List String) (uuid : String) :
    (g_slist_find_custom list uuid strcasecmp).isSome = case_mem list uuid :=
  find_custom_isSome list uuid strcasecmp

/-- The `remove` calls made for one attachment: one for every UUID its
driver declares that is in the removed list, case-insensitively. -/
theorem remove_calls_count (env : Env) (name : String) (uuids : List String)
    (recs : List sdp_record_t) (declared : List String) :
    remove_calls_of (remove_calls env name uuids recs declared)
      = (declared.filter (case_mem uuids)).map (fun _ => name) := by
  induction declared with
  | nil => rfl
  | cons uuid more ih =>
    have hm := find_custom_case_mem uuids uuid
    unfold remove_calls
    cases hf : g_slist_find_custom uuids uuid strcasecmp with
    | none =>
      rw [hf] at hm
      simp only [Option.isSome_none] at hm
      simp only
      rw [ih, List.filter_cons, ← hm]
      rfl
    | some found =>
      rw [hf] at hm
      simp only [Option.isSome_some] at hm
      simp only
      rw [List.filter_cons, ← hm]
      cases hr : env.find_record_in_list recs uuid with
      | none =>
        simp only [if_true, List.map_cons]
        rw [← ih]
        rfl
      | some r =>
        simp only [if_true, List.map_cons]
        rw [← ih]
        rfl

theorem remove_calls_eq_nil (env : Env) (name : String) (uuids : List String)
    (recs : List sdp_record_t) (declared : List String) :
    remove_calls env name uuids recs declared = [] ↔
      declared.filter (case_mem uuids) = [] := by
  induction declared with
  | nil => simp [remove_calls]
  | cons uuid more ih =>
    have hm := find_custom_case_mem uuids uuid
    unfold remove_calls
    cases hf : g_slist_find_custom uuids uuid strcasecmp with
    | none =>
      rw [hf] at hm
      simp only [Option.isSome_none] at hm
      simp only
      rw [List.filter_cons, ← hm]
      exact ih
    | some found =>
      rw [hf] at hm
      simp only [Option.isSome_some] at hm
      simp only
      rw [List.filter_cons, ← hm]
      cases hr : env.find_record_in_list recs uuid <;> simp

/-- The attachments `device_remove_drivers` leaves: those whose driver
declares no UUID of the removed list, in their order. -/
theorem remove_drivers_loop_attachments (env : Env) (uuids : List String)
    (recs : List sdp_record_t) (attached : List btd_driver_data) :
    (remove_drivers_loop env uuids recs attached).1
      = attached.filter (fun d => (d.driver.uuids.filter (case_mem uuids)).isEmpty) := by
  induction attached with
  | nil => rfl
  | cons d more ih =>
    unfold remove_drivers_loop
    simp only
    rw [List.filter_cons, ih]
    by_cases hc : remove_calls env d.driver.name uuids recs d.driver.uuids = []
    · have := (remove_calls_eq_nil env d.driver.name uuids recs d.driver.uuids).1 hc
      rw [if_pos hc, this]
      rfl
    · have hne : d.driver.uuids.filter (case_mem uuids) ≠ [] :=
        fun h => hc ((remove_calls_eq_nil env d.driver.name uuids recs d.driver.uuids).2 h)
      rw [if_neg hc]
      have hemp : (d.driver.uuids.filter (case_mem uuids)).isEmpty = false := by
        cases hl : d.driver.uuids.filter (case_mem uuids) with
        | nil => exact absurd hl hne
        | cons _ _ => rfl
      rw [hemp]
      rfl

theorem remove_drivers_loop_calls (env : Env) (uuids : List String)
    (recs : List sdp_record_t) (attached : List btd_driver_data) :
    remove_calls_of (remove_drivers_loop env uuids recs attached).2
      = attached.flatMap (fun d =>
          (d.driver.uuids.filter (case_mem uuids)).map (fun _ => d.driver.name)) := by
  induction attached with
  | nil => rfl
  | cons d more ih =>
    unfold remove_drivers_loop
    simp only
    rw [List.flatMap_cons, ← ih, ← remove_calls_count env d.driver.name uuids recs]
    simp [remove_calls_of, List.filterMap_append]

/-- C23 at a failing input: one attachment, of a driver that declares two
UUIDs, and a removed list that holds both. `device_remove_drivers` calls the
driver's `remove` twice, once for each declared UUID found in the removed
list, and the attachment is gone afterwards. In general the `remove` calls
are, attachment by attachment, one call for every declared UUID that is in
the removed list under case-insensitive comparison, and the attachments
left are, in their order, those whose driver declares no such UUID. -/
theorem remove_called_per_declared_uuid :
    audio_device.drivers.map (fun d => d.driver.name) = ["audio"] ∧
    audio_driver.uuids.filter (case_mem audio_device.uuids)
      = ["00001108-0000-1000-8000-00805F9B34FB", "0000110D-0000-1000-8000-00805F9B34FB"] ∧
    (device_remove_drivers sample_env audio_device audio_device.uuids []).2
      = [Event.remove "audio", Event.remove "audio"] ∧
    (device_remove_drivers sample_env audio_device audio_device.uuids []).1.drivers.length
      = 0 ∧
    (∀ (env : Env) (device : btd_device) (removed : List String) (recs : List sdp_record_t),
      remove_calls_of (device_remove_drivers env device removed recs).2
        = device.drivers.flatMap (fun d =>
            (d.driver.uuids.filter (case_mem removed)).map (fun _ => d.driver.name)) ∧
      (device_remove_drivers env device removed recs).1.drivers
        = device.drivers.filter (fun d =>
            (d.driver.uuids.filter (case_mem removed)).isEmpty)) := by
  refine ⟨by decide, by decide, by decide, by decide, ?_⟩
  intro env device removed recs
  exact ⟨remove_drivers_loop_calls env removed recs device.drivers,
    remove_drivers_loop_attachments env removed recs device.drivers⟩

/-! ## The persisted record of a removed service -/

theorem remove_calls_no_delete (env : Env) (name : String) (uuids : List String)
    (recs : List sdp_record_t) (declared : List String) (hsound : env.lookup_sound)
    (hnone : ∀ r, r ∈ recs → ∀ s, primary_uuid env r = some s →
      ∀ u, u ∈ uuids → strcasecmp s u ≠ 0) :
    deleted_records (remove_calls env name uuids recs declared) = [] := by
  induction declared with
  | nil => rfl
  | cons uuid more ih =>
    unfold remove_calls
    cases hf : g_slist_find_custom uuids uuid strcasecmp with
    | none => exact ih
    | some found =>
      simp only
      cases hr : env.find_record_in_list recs uuid with
      | none =>
        simp only
        unfold deleted_records at ih ⊢
        rw [List.filterMap_cons]
        exact ih
      | some r =>
        exfalso
        obtain ⟨hmem, s, hs, hz⟩ := hsound recs uuid r hr
        have hfound : found ∈ uuids ∧ strcasecmp found uuid = 0 := by
          unfold g_slist_find_custom at hf
          refine ⟨List.mem_of_find?_eq_some hf, ?_⟩
          have := List.find?_some hf
          simpa using this
        exact hnone r hmem s hs found hfound.1
          (strcasecmp_trans s uuid found hz (strcasecmp_symm found uuid hfound.2))

/-- With a record lookup that finds what it is asked for,
`device_remove_drivers` calls `delete_record` for no UUID when no record of
the list it is given carries, case-insensitively, a UUID of the removed
list. -/
theorem remove_drivers_no_delete (env : Env) (device : btd_device) (removed : List String)
    (recs : List sdp_record_t) (hsound : env.lookup_sound)
    (hnone : ∀ r, r ∈ recs → ∀ s, primary_uuid env r = some s →
      ∀ u, u ∈ removed → strcasecmp s u ≠ 0) :
    deleted_records (device_remove_drivers env device removed recs).2 = [] := by
  unfold device_remove_drivers
  simp only
  induction device.drivers with
  | nil => rfl
  | cons d more ih =>
    unfold remove_drivers_loop
    simp only
    unfold deleted_records at ih ⊢
    rw [List.filterMap_append, ih]
    have := remove_calls_no_delete env d.driver.name removed recs d.driver.uuids hsound hnone
    unfold deleted_records at this
    rw [this]
    rfl

/-- The sample lookup finds what it is asked for. -/
theorem sample_lookup_sound : sample_env.lookup_sound := by
  intro recs uuid r h
  have h2 : sample_find_record sample_uuid2string recs uuid = some r := h
  clear h
  induction recs with
  | nil => simp [sample_find_record] at h2
  | cons x more ih =>
    unfold sample_find_record at h2
    cases hs : x.svclass with
    | none =>
      rw [hs] at h2
      obtain ⟨hm, hp⟩ := ih h2
      exact ⟨List.mem_cons_of_mem _ hm, hp⟩
    | some c =>
      obtain ⟨cls, others⟩ := c
      rw [hs] at h2
      simp only at h2
      cases hu : sample_uuid2string cls with
      | none =>
        rw [hu] at h2
        obtain ⟨hm, hp⟩ := ih h2
        exact ⟨List.mem_cons_of_mem _ hm, hp⟩
      | some str =>
        rw [hu] at h2
        simp only at h2
        by_cases hz : strcasecmp str uuid = 0
        · rw [if_pos hz] at h2
          have hxr : x = r := Option.some.inj h2
          rw [← hxr]
          refine ⟨List.mem_cons_self _ _, str, ?_, hz⟩
          show primary_uuid sample_env x = some str
          unfold primary_uuid
          rw [hs]
          exact hu
        · rw [if_neg hz] at h2
          obtain ⟨hm, hp⟩ := ih h2
          exact ⟨List.mem_cons_of_mem _ hm, hp⟩

/-- C21 at a failing input, scenario B: the device knows the serial-port
UUID (X) and the HID UUID (Y) and has the HID driver attached; a full sweep
is answered by the serial-port record alone. The session ends with nothing
added and Y removed, the known list is X alone, the HID driver's `remove` is
called once and its attachment is gone, the new record is stored, and
`delete_record` is not called: `device_remove_drivers` looks the record of Y
up in the records of this session, which hold none for Y. -/
theorem removed_service_record_kept :
    scenario_b_world.device.uuids
      = ["00001101-0000-1000-8000-00805f9b34fb", "00001124-0000-1000-8000-00805f9b34fb"] ∧
    scenario_b_world.device.drivers.map (fun d => d.driver.name) = ["input"] ∧
    (freed_sessions sample_env (device_browse scenario_b_world none none none false 0).1
        [⟨[some spp_record], 0, 0⟩]).map (fun r => (r.uuids_added, r.uuids_removed))
      = [([], ["00001124-0000-1000-8000-00805f9b34fb"])] ∧
    scenario_b_run.device.uuids = ["00001101-0000-1000-8000-00805f9b34fb"] ∧
    scenario_b_run.device.drivers.length = 0 ∧
    remove_calls_of scenario_b_run.log = ["input"] ∧
    deleted_records scenario_b_run.log = [] ∧
    scenario_b_run.log
      = [ Event.bt_search_service (.uuid16 PUBLIC_BROWSE_GROUP) .browse_cb 1,
          Event.store_record 0x10003,
          Event.remove "input",
          Event.uuids_changed ["00001101-0000-1000-8000-00805f9b34fb"],
          Event.write_device_profiles "00001101-0000-1000-8000-00805f9b34fb",
          Event.adapter_update_devices ] := by
  decide

/-! ## The pending driver UUIDs -/

theorem case_mem_append (l1 l2 : List String) (u : String) :
    case_mem (l1 ++ l2) u = (case_mem l1 u || case_mem l2 u) := by
  simp [case_mem, List.any_append]

theorem case_mem_singleton (e u : String) :
    case_mem [e] u = true ↔ strcasecmp e u = 0 := by
  simp [case_mem]

/-- The pending list and the list of the UUIDs met so far hold the same
UUIDs, case-insensitively. -/
theorem init_browse_uuids_spec (declared : List String) (pending seen : List String)
    (hrel : ∀ u, case_mem seen u = true ↔ case_mem pending u = true) :
    init_browse_uuids pending declared = pending ++ first_occurrences seen declared ∧
    (∀ u, case_mem (seen ++ declared) u = true ↔
      case_mem (init_browse_uuids pending declared) u = true) := by
  induction declared generalizing pending seen with
  | nil => simpa [init_browse_uuids, first_occurrences] using hrel
  | cons uuid more ih =>
    have hm := find_custom_case_mem pending uuid
    unfold init_browse_uuids first_occurrences
    rw [init_browse_eliminate_eq]
    cases hf : g_slist_find_custom pending uuid strcasecmp with
    | some found =>
      rw [hf] at hm
      simp only [Option.isSome_some] at hm
      have hseen : case_mem seen uuid = true := (hrel uuid).2 hm.symm
      have hrel2 : ∀ u, case_mem (seen ++ [uuid]) u = true ↔ case_mem pending u = true := by
        intro u
        rw [case_mem_append, Bool.or_eq_true, hrel u, case_mem_singleton]
        constructor
        · rintro (h | h)
          · exact h
          · obtain ⟨e, he, hz⟩ := (case_mem_iff pending uuid).1 hm.symm
            exact (case_mem_iff pending u).2 ⟨e, he, strcasecmp_trans e uuid u hz h⟩
        · exact Or.inl
      obtain ⟨h1, h2⟩ := ih pending (seen ++ [uuid]) hrel2
      simp only [hseen, if_true]
      refine ⟨h1, ?_⟩
      intro u
      rw [← h2 u, List.append_assoc]
      rfl
    | none =>
      rw [hf] at hm
      simp only [Option.isSome_none] at hm
      have hseen : ¬ case_mem seen uuid = true := by
        intro h
        have := (hrel uuid).1 h
        rw [← hm] at this
        exact absurd this (by simp)
      have hrel2 : ∀ u, case_mem (seen ++ [uuid]) u = true ↔
          case_mem (pending ++ [uuid]) u = true := by
        intro u
        rw [case_mem_append, case_mem_append, Bool.or_eq_true, Bool.or_eq_true, hrel u]
      obtain ⟨h1, h2⟩ := ih (pending ++ [uuid]) (seen ++ [uuid]) hrel2
      simp only [hseen, if_false]
      refine ⟨?_, ?_⟩
      · rw [h1, List.append_assoc]
        rfl
      · intro u
        rw [← h2 u, List.append_assoc]
        rfl

theorem first_occurrences_append (l1 l2 seen : List String) :
    first_occurrences seen (l1 ++ l2)
      = first_occurrences seen l1 ++ first_occurrences (seen ++ l1) l2 := by
  induction l1 generalizing seen with
  | nil => simp [first_occurrences]
  | cons u more ih =>
    have hih := ih (seen ++ [u])
    rw [List.append_assoc] at hih
    have hcons : ∀ rest, first_occurrences seen (u :: rest)
        = if case_mem seen u then first_occurrences (seen ++ [u]) rest
          else u :: first_occurrences (seen ++ [u]) rest := fun _ => rfl
    rw [List.cons_append, hcons, hcons]
    by_cases hs : case_mem seen u = true
    · rw [if_pos hs, if_pos hs]
      exact hih
    · rw [if_neg hs, if_neg hs, List.cons_append]
      exact congrArg (List.cons u) hih

theorem init_browse_drivers_spec (drivers : List btd_device_driver)
    (pending seen : List String)
    (hrel : ∀ u, case_mem seen u = true ↔ case_mem pending u = true) :
    init_browse_drivers pending drivers
      = pending ++ first_occurrences seen (declared_uuids drivers) := by
  induction drivers generalizing pending seen with
  | nil => simp [init_browse_drivers, declared_uuids, first_occurrences]
  | cons d more ih =>
    obtain ⟨h1, h2⟩ := init_browse_uuids_spec d.uuids pending seen hrel
    unfold init_browse_drivers
    rw [ih (init_browse_uuids pending d.uuids) (seen ++ d.uuids) h2, h1]
    unfold declared_uuids
    rw [List.flatMap_cons, first_occurrences_append, List.append_assoc]

theorem first_occurrences_sublist (l seen : List String) :
    (first_occurrences seen l).Sublist l := by
  induction l generalizing seen with
  | nil => exact List.Sublist.slnil
  | cons u more ih =>
    unfold first_occurrences
    split
    · exact List.Sublist.cons _ (ih _)
    · exact List.Sublist.cons₂ _ (ih _)

theorem first_occurrences_not_seen (l seen : List String) (e : String)
    (he : e ∈ first_occurrences seen l) : case_mem seen e = false := by
  induction l generalizing seen with
  | nil => simp [first_occurrences] at he
  | cons u more ih =>
    unfold first_occurrences at he
    by_cases hs : case_mem seen u = true
    · rw [if_pos hs] at he
      have := ih _ he
      rw [case_mem_append, Bool.or_eq_false_iff] at this
      exact this.1
    · rw [if_neg hs] at he
      rcases List.mem_cons.mp he with h | h
      · rw [h]
        simpa using hs
      · have := ih _ h
        rw [case_mem_append, Bool.or_eq_false_iff] at this
        exact this.1

theorem first_occurrences_distinct (l seen : List String) :
    case_distinct (first_occurrences seen l) := by
  induction l generalizing seen with
  | nil => exact List.Pairwise.nil
  | cons u more ih =>
    unfold first_occurrences
    split
    · exact ih _
    · refine List.Pairwise.cons ?_ (ih _)
      intro e he hz
      have := first_occurrences_not_seen more (seen ++ [u]) e he
      rw [case_mem_append, Bool.or_eq_false_iff] at this
      have h2 : case_mem [u] e = true := (case_mem_singleton u e).2 hz
      rw [this.2] at h2
      exact absurd h2 (by simp)

theorem first_occurrences_covers (l seen : List String) (u : String) (hu : u ∈ l) :
    case_mem seen u = true ∨ ∃ e, e ∈ first_occurrences seen l ∧ strcasecmp e u = 0 := by
  induction l generalizing seen with
  | nil => simp at hu
  | cons x more ih =>
    unfold first_occurrences
    rcases List.mem_cons.mp hu with h | h
    · by_cases hs : case_mem seen x = true
      · rw [h]
        exact Or.inl hs
      · rw [if_neg hs, h]
        exact Or.inr ⟨x, List.mem_cons_self _ _, strcasecmp_self x⟩
    · rcases ih (seen ++ [x]) h with h1 | ⟨e, he, hz⟩
      · rw [case_mem_append, Bool.or_eq_true, case_mem_singleton] at h1
        rcases h1 with h1 | h1
        · exact Or.inl h1
        · by_cases hs : case_mem seen x = true
          · obtain ⟨e, he, hz⟩ := (case_mem_iff seen x).1 hs
            exact Or.inl ((case_mem_iff seen u).2 ⟨e, he, strcasecmp_trans e x u hz h1⟩)
          · rw [if_neg hs]
            exact Or.inr ⟨x, List.mem_cons_self _ _, h1⟩
      · by_cases hs : case_mem seen x = true
        · rw [if_pos hs]
          exact Or.inr ⟨e, he, hz⟩
        · rw [if_neg hs]
          exact Or.inr ⟨e, List.mem_cons_of_mem _ he, hz⟩

/-- C24. Pending driver-UUID de-duplication. For every driver registry, the
pending list `init_browse` builds in a fresh session
* holds no two entries that are equal under case-insensitive comparison;
* holds, for every UUID a registered driver declares, an entry equal to it
  under case-insensitive comparison;
* is the list of the declared UUIDs (drivers in registration order, UUIDs in
  declared order) in order of first occurrence, a sub-list of it;
* is the pending list of the session of every full sweep, so that the
  driver UUIDs a sweep searches, a sub-list of it, hold no two entries equal
  under case-insensitive comparison. -/
theorem pending_list_deduplicated (drivers : List btd_device_driver) :
    case_distinct (init_browse_drivers [] drivers) ∧
    (∀ d, d ∈ drivers → ∀ u, u ∈ d.uuids →
      ∃ e, e ∈ init_browse_drivers [] drivers ∧ strcasecmp e u = 0) ∧
    init_browse_drivers [] drivers = first_occurrences [] (declared_uuids drivers) ∧
    (init_browse_drivers [] drivers).Sublist (declared_uuids drivers) ∧
    (∀ (w : World) (conn : Option DBusConnection) (msg : Option DBusMessage)
      (reverse : Bool), w.device_drivers = drivers →
      (browse_session w conn msg none reverse).uuids = init_browse_drivers [] drivers) ∧
    (∀ searched : List String, searched.Sublist (init_browse_drivers [] drivers) →
      case_distinct searched) := by
  have heq : init_browse_drivers [] drivers
      = first_occurrences [] (declared_uuids drivers) := by
    rw [init_browse_drivers_spec drivers [] [] (fun _ => Iff.rfl), List.nil_append]
  have hdist : case_distinct (init_browse_drivers [] drivers) := by
    rw [heq]
    exact first_occurrences_distinct _ _
  refine ⟨hdist, ?_, heq, ?_, ?_, ?_⟩
  · intro d hd u hu
    have hmem : u ∈ declared_uuids drivers := by
      unfold declared_uuids
      exact List.mem_flatMap.mpr ⟨d, hd, hu⟩
    rcases first_occurrences_covers (declared_uuids drivers) [] u hmem with h | h
    · simp [case_mem] at h
    · rw [heq]
      exact h
  · rw [heq]
    exact first_occurrences_sublist _ _
  · intro w conn msg reverse hw
    rw [init_browse_drivers_pending, hw]
  · intro searched hsub
    exact List.Pairwise.sublist hsub hdist

theorem pending_list_deduplicated_witness :
    init_browse_drivers [] [hid_driver, lower_case_driver, audio_driver]
      = ["00001124-0000-1000-8000-00805F9B34FB", "0000110d-0000-1000-8000-00805f9b34fb",
          "00001108-0000-1000-8000-00805F9B34FB"] ∧
    declared_uuids [hid_driver, lower_case_driver, audio_driver]
      = ["00001124-0000-1000-8000-00805F9B34FB", "00001124-0000-1000-8000-00805f9b34fb",
          "0000110d-0000-1000-8000-00805f9b34fb", "00001108-0000-1000-8000-00805F9B34FB",
          "0000110D-0000-1000-8000-00805F9B34FB"] ∧
    case_distinct (init_browse_drivers [] [hid_driver, lower_case_driver, audio_driver]) ∧
    (browse_session (World.start [hid_driver, lower_case_driver, audio_driver]
        (device_create "/dev")) none none none true).uuids
      = init_browse_drivers [] [hid_driver, lower_case_driver, audio_driver] :=
  ⟨by decide, by decide,
    (pending_list_deduplicated [hid_driver, lower_case_driver, audio_driver]).1,
    (pending_list_deduplicated [hid_driver, lower_case_driver, audio_driver]).2.2.2.2.1
      (World.start [hid_driver, lower_case_driver, audio_driver] (device_create "/dev"))
      none none true rfl⟩

/-! ## Sessions with an empty removed list -/

theorem removal_calls_append (l1 l2 : List Event) :
    removal_calls (l1 ++ l2) = removal_calls l1 ++ removal_calls l2 := by
  simp [removal_calls]

theorem update_services_rec_removed_nil (env : Env) (device : btd_device) (req : browse_req)
    (r : sdp_record_t) (h : req.uuids_removed = []) :
    (update_services_rec env device req r).1.uuids_removed = [] := by
  unfold update_services_rec
  cases r.svclass with
  | none => exact h
  | some c =>
    obtain ⟨cls, others⟩ := c
    simp only
    cases env.bt_uuid2string cls with
    | none => exact h
    | some uuid_str =>
      simp only
      cases sdp_list_find req.records r with
      | some found => exact h
      | none =>
        simp only
        cases env.sdp_copy r <;>
          cases g_slist_find_custom device.uuids uuid_str strcmp <;>
          simp [h]

theorem update_services_removed_nil (env : Env) (device : btd_device) (recs : sdp_list_t)
    (req : browse_req) (h : req.uuids_removed = []) :
    (update_services env device req recs).1.uuids_removed = [] := by
  induction recs generalizing req with
  | nil => exact h
  | cons o seq ih =>
    cases o with
    | none => exact h
    | some r =>
      simp only [update_services]
      exact ih _ (update_services_rec_removed_nil env device req r h)

theorem update_services_no_removal_calls (env : Env) (device : btd_device)
    (req : browse_req) (recs : sdp_list_t) :
    removal_calls (update_services env device req recs).2 = [] := by
  unfold removal_calls
  rw [List.filter_eq_nil_iff]
  intro e he
  rcases update_services_events env device recs req e he with ⟨_, _, _, _, h⟩ | ⟨_, h⟩ <;>
    rw [h] <;> simp

theorem probe_drivers_no_removal_calls (env : Env) (drivers : List btd_device_driver)
    (device : btd_device) (uuids : List String) (recs : List sdp_record_t) :
    removal_calls (device_probe_drivers env drivers device uuids recs).2 = [] := by
  unfold removal_calls
  rw [List.filter_eq_nil_iff]
  intro e he
  obtain ⟨_, _, _, h⟩ := probe_drivers_loop_events env uuids recs drivers _ e he
  rw [h]
  simp

theorem search_cb_proceed_no_removal_calls (env : Env) (device : btd_device)
    (req : browse_req) : removal_calls (search_cb_proceed env device req) = [] := by
  unfold search_cb_proceed store
  cases hm : req.msg with
  | none =>
    by_cases hu : device.uuids = [] <;> simp [hu, removal_calls]
  | some m =>
    by_cases hd : dbus_message_is_method_call m DEVICE_INTERFACE "DiscoverServices" = true <;>
      by_cases hu : device.uuids = [] <;>
      simp [hu, hd, removal_calls]

/-- The part of `search_cb` before `proceed`, on a session whose removed list
is empty: no `remove`, no `delete_record`, every known UUID stays known, and
the removed list is still empty. -/
theorem search_cb_update_cannot_remove (env : Env) (drivers : List btd_device_driver)
    (device : btd_device) (req : browse_req) (recs : sdp_list_t) (err : Int)
    (h : req.uuids_removed = []) :
    removal_calls (search_cb_update env drivers device req recs err).2.2 = [] ∧
    (∀ u, u ∈ device.uuids → u ∈ (search_cb_update env drivers device req recs err).1.uuids) ∧
    (search_cb_update env drivers device req recs err).2.1.uuids_removed = [] := by
  have hrem := update_services_removed_nil env device recs req h
  unfold search_cb_update
  by_cases herr : err < 0
  · rw [if_pos herr]
    exact ⟨rfl, fun u hu => hu, h⟩
  · rw [if_neg herr]
    simp only
    by_cases hnone : (update_services env device req recs).1.uuids_added = [] ∧
        (update_services env device req recs).1.uuids_removed = []
    · rw [if_pos hnone]
      exact ⟨update_services_no_removal_calls env device req recs, fun u hu => hu, hrem⟩
    · rw [if_neg hnone]
      have hadd : (update_services env device req recs).1.uuids_added ≠ [] :=
        fun ha => hnone ⟨ha, hrem⟩
      have hnr : ¬ (update_services env device req recs).1.uuids_removed ≠ [] :=
        not_not.mpr hrem
      rw [if_pos hadd, if_neg hnr]
      refine ⟨?_, ?_, hrem⟩
      · simp only [removal_calls_append, update_services_no_removal_calls,
          probe_drivers_no_removal_calls, List.append_nil]
        rfl
      · intro u hu
        exact (mem_insert_uuids _ device.uuids u).2 (Or.inl hu)

theorem search_cb_cannot_remove (env : Env) (w : World) (a : Nat) (req : browse_req)
    (recs : sdp_list_t) (err : Int) (h : req.uuids_removed = []) :
    removal_calls (search_cb env w a req recs err).log = removal_calls w.log ∧
    (∀ u, u ∈ w.device.uuids → u ∈ (search_cb env w a req recs err).device.uuids) := by
  obtain ⟨h1, h2, _⟩ :=
    search_cb_update_cannot_remove env w.device_drivers w.device req recs err h
  have hwatch : removal_calls (match w.device.discov_requestor with
        | some _ => [Event.remove_watch w.device.discov_listener]
        | none => []) = [] := by
    cases w.device.discov_requestor <;> rfl
  constructor
  · rw [search_cb_log, removal_calls_append, removal_calls_append, removal_calls_append, h1,
      search_cb_proceed_no_removal_calls, hwatch, List.append_nil, List.append_nil,
      List.append_nil]
  · intro u hu
    rw [search_cb_uuids]
    exact h2 u hu

theorem search_cb_no_removal (env : Env) (w : World) (a : Nat) (req : browse_req)
    (recs : sdp_list_t) (err : Int) (hw : w.no_removal) :
    (search_cb env w a req recs err).no_removal := by
  intro p hp
  rw [search_cb_heap] at hp
  exact hw p (List.mem_of_mem_filter hp)

theorem lookup_mem (heap : List (Nat × browse_req)) (a : Nat) (req : browse_req)
    (h : heap.lookup a = some req) : (a, req) ∈ heap := by
  induction heap with
  | nil => simp [List.lookup] at h
  | cons p more ih =>
    obtain ⟨b, q⟩ := p
    by_cases hab : a = b
    · subst hab
      simp only [List.lookup, beq_self_eq_true] at h
      rw [Option.some.inj h]
      exact List.mem_cons_self _ _
    · have hne : (a == b) = false := by simpa using hab
      simp only [List.lookup, hne] at h
      exact List.mem_cons_of_mem _ (ih h)

theorem issue_cannot_remove (w : World) (a : Nat) (q : browse_req) (uuid : uuid_t)
    (cb : bt_callback_t) (rc : Int) (ev : List Event) (hw : w.no_removal)
    (hq : q.uuids_removed = []) (hev : removal_calls ev = []) :
    (bt_search_service (heap_set { w with log := w.log ++ ev } a q) uuid cb a rc).1.no_removal ∧
    removal_calls
        (bt_search_service (heap_set { w with log := w.log ++ ev } a q) uuid cb a rc).1.log
      = removal_calls w.log ∧
    (bt_search_service (heap_set { w with log := w.log ++ ev } a q) uuid cb a rc).1.device
      = w.device := by
  refine ⟨?_, ?_, ?_⟩
  · intro p hp
    rw [bt_search_service_heap] at hp
    unfold heap_set at hp
    obtain ⟨p0, hp0, hmap⟩ := List.mem_map.mp hp
    by_cases hpa : p0.1 = a
    · rw [if_pos hpa] at hmap
      rw [← hmap]
      exact hq
    · rw [if_neg hpa] at hmap
      rw [← hmap]
      exact hw p0 hp0
  · rw [bt_search_service_log]
    show removal_calls (w.log ++ ev ++ _) = _
    rw [removal_calls_append, removal_calls_append, hev]
    simp [removal_calls]
  · rw [bt_search_service_device]
    rfl

theorem heap_set_no_removal (w : World) (a : Nat) (q : browse_req) (hw : w.no_removal)
    (hq : q.uuids_removed = []) : (heap_set w a q).no_removal := by
  intro p hp
  unfold heap_set at hp
  obtain ⟨p0, hp0, hmap⟩ := List.mem_map.mp hp
  by_cases hpa : p0.1 = a
  · rw [if_pos hpa] at hmap
    rw [← hmap]
    exact hq
  · rw [if_neg hpa] at hmap
    rw [← hmap]
    exact hw p0 hp0

theorem browse_cb_cannot_remove (env : Env) (w : World) (a : Nat) (req : browse_req)
    (recs : sdp_list_t) (err rc : Int) (hw : w.no_removal) (hreq : req.uuids_removed = []) :
    (browse_cb env w a req recs err rc).no_removal ∧
    removal_calls (browse_cb env w a req recs err rc).log = removal_calls w.log ∧
    (∀ u, u ∈ w.device.uuids → u ∈ (browse_cb env w a req recs err rc).device.uuids) := by
  have hupd := update_services_removed_nil env w.device recs req hreq
  have hev := update_services_no_removal_calls env w.device req recs
  unfold browse_cb
  split
  · obtain ⟨h1, h2⟩ := search_cb_cannot_remove env w a req recs err hreq
    exact ⟨search_cb_no_removal env w a req recs err hw, h1, h2⟩
  · simp only
    split
    · obtain ⟨h1, h2, h3⟩ := issue_cannot_remove w a
        { (update_services env w.device req recs).1 with
          search_uuid := (update_services env w.device req recs).1.search_uuid + 1 }
        (.uuid16 (uuid_list_at (update_services env w.device req recs).1.search_uuid))
        .browse_cb rc (update_services env w.device req recs).2 hw hupd hev
      exact ⟨h1, h2, fun u hu => by rw [h3]; exact hu⟩
    · split
      · rename_i uuid_str rest hpend
        obtain ⟨h1, h2, h3⟩ := issue_cannot_remove w a
          { (update_services env w.device req recs).1 with uuids := rest }
          (env.bt_string2uuid uuid_str).2
          .browse_cb rc (update_services env w.device req recs).2 hw hupd hev
        exact ⟨h1, h2, fun u hu => by rw [h3]; exact hu⟩
      · split
        · obtain ⟨h1, h2, h3⟩ := issue_cannot_remove w a
            (update_services env w.device req recs).1 (.uuid16 L2CAP_UUID)
            .search_cb rc (update_services env w.device req recs).2 hw hupd hev
          exact ⟨h1, h2, fun u hu => by rw [h3]; exact hu⟩
        · have hw1 : (heap_set
              { w with log := w.log ++ (update_services env w.device req recs).2 } a
              (update_services env w.device req recs).1).no_removal :=
            heap_set_no_removal _ a _ hw hupd
          obtain ⟨h1, h2⟩ := search_cb_cannot_remove env
            (heap_set { w with log := w.log ++ (update_services env w.device req recs).2 } a
              (update_services env w.device req recs).1)
            a (update_services env w.device req recs).1 recs err hupd
          refine ⟨search_cb_no_removal env _ a _ recs err hw1, ?_, h2⟩
          rw [h1]
          show removal_calls (w.log ++ _) = _
          rw [removal_calls_append, hev, List.append_nil]

theorem complete_cannot_remove (env : Env) (w : World) (k : Nat) (recs : sdp_list_t)
    (err rc : Int) (hw : w.no_removal) :
    (complete env w k recs err rc).no_removal ∧
    removal_calls (complete env w k recs err rc).log = removal_calls w.log ∧
    (∀ u, u ∈ w.device.uuids → u ∈ (complete env w k recs err rc).device.uuids) := by
  unfold complete
  split
  · exact ⟨hw, rfl, fun u hu => hu⟩
  · rename_i p hp
    simp only
    split
    · exact ⟨hw, rfl, fun u hu => hu⟩
    · rename_i req hlook
      have hreq : req.uuids_removed = [] := hw _ (lookup_mem w.heap p.user_data req hlook)
      split
      · obtain ⟨h1, h2⟩ := search_cb_cannot_remove env
          { w with outstanding := w.outstanding.eraseIdx k } p.user_data req recs err hreq
        exact ⟨search_cb_no_removal env _ _ _ recs err hw, h1, h2⟩
      · exact browse_cb_cannot_remove env
          { w with outstanding := w.outstanding.eraseIdx k } p.user_data req recs err rc hw hreq

theorem deliver_cannot_remove (env : Env) (cs : List Completion) (w : World)
    (hw : w.no_removal) :
    (deliver env w cs).no_removal ∧
    removal_calls (deliver env w cs).log = removal_calls w.log ∧
    (∀ u, u ∈ w.device.uuids → u ∈ (deliver env w cs).device.uuids) := by
  induction cs generalizing w with
  | nil => exact ⟨hw, rfl, fun u hu => hu⟩
  | cons c more ih =>
    obtain ⟨h1, h2, h3⟩ := complete_cannot_remove env w 0 c.recs c.err c.rc hw
    obtain ⟨g1, g2, g3⟩ := ih _ h1
    rw [deliver_cons]
    exact ⟨g1, g2.trans h2, fun u hu => g3 u (h3 u hu)⟩

theorem browse_prepare_removal_calls (w : World) (conn : Option DBusConnection)
    (msg : Option DBusMessage) (search : Option uuid_t) (reverse : Bool) :
    removal_calls (browse_prepare w conn msg search reverse).log = removal_calls w.log := by
  unfold browse_prepare
  cases msg <;> simp [removal_calls]

theorem browse_req_free_removal_calls (w : World) (a : Nat) (req : browse_req) :
    removal_calls (browse_req_free w a req).log = removal_calls w.log := by
  rw [browse_req_free_log, removal_calls_append]
  cases w.device.discov_requestor <;> simp [removal_calls]

theorem browse_prepare_uuids (w : World) (conn : Option DBusConnection)
    (msg : Option DBusMessage) (search : Option uuid_t) (reverse : Bool) :
    (browse_prepare w conn msg search reverse).device.uuids = w.device.uuids := by
  unfold browse_prepare
  cases msg <;> rfl

theorem device_browse_cannot_remove (w : World) (conn : Option DBusConnection)
    (msg : Option DBusMessage) (search : Option uuid_t) (reverse : Bool) (rc : Int)
    (hw : w.no_removal)
    (hs : (browse_session w conn msg search reverse).uuids_removed = []) :
    (device_browse w conn msg search reverse rc).1.no_removal ∧
    removal_calls (device_browse w conn msg search reverse rc).1.log = removal_calls w.log ∧
    (device_browse w conn msg search reverse rc).1.device.uuids = w.device.uuids := by
  have hprep : (bt_search_service (browse_prepare w conn msg search reverse)
      (browse_first_uuid search) (browse_first_cb search) w.next_addr rc).1.no_removal := by
    intro p hp
    rw [bt_search_service_heap, browse_prepare_heap] at hp
    rcases List.mem_append.mp hp with h | h
    · exact hw p h
    · rw [List.mem_singleton.mp h]
      exact hs
  have hlog : removal_calls (bt_search_service (browse_prepare w conn msg search reverse)
      (browse_first_uuid search) (browse_first_cb search) w.next_addr rc).1.log
      = removal_calls w.log := by
    rw [bt_search_service_log, removal_calls_append, browse_prepare_removal_calls]
    simp [removal_calls]
  have hu : (bt_search_service (browse_prepare w conn msg search reverse)
      (browse_first_uuid search) (browse_first_cb search) w.next_addr rc).1.device.uuids
      = w.device.uuids := by
    rw [bt_search_service_device, browse_prepare_uuids]
  unfold device_browse
  split
  · exact ⟨hw, rfl, rfl⟩
  · simp only
    split
    · refine ⟨?_, ?_, ?_⟩
      · intro p hp
        rw [browse_req_free_heap] at hp
        exact hprep p (List.mem_of_mem_filter hp)
      · rw [browse_req_free_removal_calls, hlog]
      · rw [browse_req_free_uuids, hu]
    · exact ⟨hprep, hlog, hu⟩

theorem browse_session_cannot_remove (w : World) (conn : Option DBusConnection)
    (msg : Option DBusMessage) (search : Option uuid_t) (reverse : Bool)
    (hkind : search ≠ none ∨ reverse = true) :
    (browse_session w conn msg search reverse).uuids_removed = [] := by
  unfold browse_session
  cases search with
  | some u => simp [browse_req_new]
  | none =>
    rcases hkind with h | h
    · exact absurd rfl h
    · rw [h]
      simp [init_browse, browse_req_new]

/-- C25. Sessions that cannot remove. Take a targeted search (`device_browse`
with a search UUID) or a reverse sweep (`reverse` set, as `start_discovery`
requests it) on an idle device, any transport result and any completions,
with any records and error codes. Then
* the removed list of the session is empty at creation;
* after any number of the completions every live session has an empty
  removed list;
* the run calls no driver `remove` and no `delete_record`: the log holds
  those made before only;
* every UUID of the known list before is in the known list afterwards;
and the same holds for the run that starts with the timer callback
`start_discovery`. -/
theorem sessions_that_cannot_remove (env : Env) (w : World) (conn : Option DBusConnection)
    (msg : Option DBusMessage) (search : Option uuid_t) (reverse : Bool) (rc : Int)
    (cs : List Completion) (hidle : w.idle) (hkind : search ≠ none ∨ reverse = true) :
    (browse_session w conn msg search reverse).uuids_removed = [] ∧
    (∀ k, (deliver env (device_browse w conn msg search reverse rc).1 (cs.take k)).no_removal) ∧
    removal_calls (deliver env (device_browse w conn msg search reverse rc).1 cs).log
      = removal_calls w.log ∧
    (∀ u, u ∈ w.device.uuids →
      u ∈ (deliver env (device_browse w conn msg search reverse rc).1 cs).device.uuids) ∧
    (∀ k, (deliver env (start_discovery w rc) (cs.take k)).no_removal) ∧
    removal_calls (deliver env (start_discovery w rc) cs).log = removal_calls w.log ∧
    (∀ u, u ∈ w.device.uuids → u ∈ (deliver env (start_discovery w rc) cs).device.uuids) := by
  have hw : w.no_removal := by
    intro p hp
    rw [hidle.2.1] at hp
    exact absurd hp (List.not_mem_nil _)
  have hs := browse_session_cannot_remove w conn msg search reverse hkind
  obtain ⟨b1, b2, b3⟩ := device_browse_cannot_remove w conn msg search reverse rc hw hs
  obtain ⟨d1, d2, d3⟩ := deliver_cannot_remove env cs _ b1
  obtain ⟨t1, t2, t3⟩ := device_browse_cannot_remove w none none none true rc hw
    (browse_session_cannot_remove w none none none true (Or.inr rfl))
  have ht : (start_discovery w rc).no_removal := t1
  obtain ⟨e1, e2, e3⟩ := deliver_cannot_remove env cs (start_discovery w rc) ht
  refine ⟨hs, fun k => (deliver_cannot_remove env (cs.take k) _ b1).1, d2.trans b2, ?_,
    fun k => (deliver_cannot_remove env (cs.take k) _ ht).1, e2.trans t2, ?_⟩
  · intro u hu
    apply d3
    rw [b3]
    exact hu
  · intro u hu
    apply e3
    show u ∈ (device_browse w none none none true rc).1.device.uuids
    rw [t3]
    exact hu

theorem sessions_that_cannot_remove_witness :
    scenario_b_world.idle ∧
    removal_calls
        (deliver sample_env
          (device_browse scenario_b_world none none none true 0).1 one_answer).log
      = removal_calls scenario_b_world.log ∧
    (deliver sample_env
        (device_browse scenario_b_world none none none true 0).1 one_answer).device.uuids
      = ["00001101-0000-1000-8000-00805f9b34fb", "00001124-0000-1000-8000-00805f9b34fb"] ∧
    (deliver sample_env
        (device_browse scenario_b_world none none none true 0).1 one_answer).heap.length
      = 0 :=
  have hidle : scenario_b_world.idle := ⟨rfl, rfl, rfl⟩
  ⟨hidle,
    (sessions_that_cannot_remove sample_env scenario_b_world none none none true 0 one_answer
      hidle (Or.inr rfl)).2.2.1,
    by decide, by decide⟩

/-! ## A full sweep ends -/

end Device
